import Mathlib

/-!
# wheelbot-cam: the streaming pipeline

A shallow embedding of the streaming core of the firmware
(`lib/Streamer`: `HttpClient`, `HttpStreamTransport`, `TaskSender`, `Streamer`)
and theorems about it.

Conventions of the embedding.

* The target is the ESP32: `int`, `long`, `size_t` and `uint32_t` are 32 bits wide.
  Values are `Nat`/`Int`; where the source arithmetic can wrap the reduction
  modulo `2^32` or `2^64` is written out.
* Text is `List Char`; a byte buffer is `List Nat`.
* Calls that leave the program (`esp_http_client_*`, `esp_camera_fb_get`, `millis`)
  are inputs of the step that makes them; calls whose effect is observed
  (`esp_camera_fb_return`, event handlers, the LED pin) append to a log in the state.
-/

namespace Wheelbot

/-! ## Machine integers -/

/-- Reduction to `uint32_t`. -/
def u32 (n : Nat) : Nat := n % 2 ^ 32

/-- Reduction to `uint64_t`. -/
def u64 (n : Nat) : Nat := n % 2 ^ 64

/-- The cast `(int)len` of a `size_t`: the low 32 bits read in two's complement. -/
def toInt32 (n : Nat) : Int :=
  if n % 2 ^ 32 < 2 ^ 31 then ((n % 2 ^ 32 : Nat) : Int) else ((n % 2 ^ 32 : Nat) : Int) - 2 ^ 32

/-- Unsigned 32-bit subtraction `a - b` as computed on `uint32_t`/`unsigned long`. -/
def sub32 (a b : Nat) : Nat := (a % 2 ^ 32 + 2 ^ 32 - b % 2 ^ 32) % 2 ^ 32

/-! ## `snprintf` -/

/-- An argument passed through the variadic part of `snprintf`. -/
inductive FmtArg where
  | str (s : List Char)
  | uint (n : Nat)
  | int (i : Int)

/-- Conversion `%u`. -/
def fmtU (n : Nat) : List Char := Nat.toDigits 10 n

/-- Conversion `%d`. -/
def fmtD (i : Int) : List Char :=
  if i < 0 then '-' :: Nat.toDigits 10 i.natAbs else Nat.toDigits 10 i.natAbs

/-- Conversion `%0<w>d`: the sign, then zeros up to the field width, then the digits. -/
def fmtD0 (w : Nat) (i : Int) : List Char :=
  let ds := Nat.toDigits 10 i.natAbs
  if i < 0 then '-' :: (List.replicate (w - 1 - ds.length) '0' ++ ds)
  else List.replicate (w - ds.length) '0' ++ ds

/-- The text a `printf`-family call produces for a format and its arguments.
Only the conversions that occur in the firmware's formats are interpreted:
`%s`, `%u`, `%d` and `%06d`. -/
def vformat : List Char → List FmtArg → List Char
  | [], _ => []
  | '%' :: 's' :: fmt, FmtArg.str s :: args => s ++ vformat fmt args
  | '%' :: 'u' :: fmt, FmtArg.uint n :: args => fmtU n ++ vformat fmt args
  | '%' :: 'd' :: fmt, FmtArg.int i :: args => fmtD i ++ vformat fmt args
  | '%' :: '0' :: '6' :: 'd' :: fmt, FmtArg.int i :: args => fmtD0 6 i ++ vformat fmt args
  | c :: fmt, args => c :: vformat fmt args

/-- Model of `snprintf(buf, bufSize, fmt, ...)`: at most `bufSize - 1` characters are stored
(followed by the terminator); the value returned is the length of the whole formatted
text, whether or not it fitted. -/
def snprintf (bufSize : Nat) (fmt : List Char) (args : List FmtArg) : List Char × Nat :=
  let out := vformat fmt args
  (out.take (bufSize - 1), out.length)

/-! ## Configuration and frames -/

/-- The value of a `float` configuration constant, as a fraction `num / den`. -/
structure Multiplier where
  num : Nat
  den : Nat
deriving DecidableEq, Repr

/-- The fields of `StreamConfig` read by the pipeline. -/
structure StreamConfig where
  boundary : List Char := "wheelbot".toList
  maxDataSize : Nat := 100000000
  reconnectInterval : Nat := 5000
  maxReconnectInterval : Nat := 60000
  reconnectMultiplier : Multiplier := ⟨2, 1⟩
  metricsUpdateInterval : Nat := 1000
  maxFPS : Nat := 30
  taskQueueSize : Nat := 16
  taskDelayMs : Nat := 1
  sendErrorDelayMs : Nat := 100
  maxSendFailures : Nat := 3
deriving DecidableEq, Repr

/-- Pixel format tag of a frame. -/
inductive PixFormat where
  | jpeg
  | other
deriving DecidableEq, Repr

/-- A frame buffer `camera_fb_t`; `id` stands for the address of the buffer. -/
structure Frame where
  id : Nat
  buf : List Nat
  len : Nat
  format : PixFormat
  tv_sec : Int
  tv_usec : Int
deriving DecidableEq, Repr

/-- The format string `PART_HEADER` of `HttpStreamTransport::formatMultipartHeader`. -/
def PART_HEADER : List Char :=
  "\r\n--%s\r\nContent-Type: image/jpeg\r\nContent-Length: %u\r\nX-Timestamp: %d.%06d\r\n\r\n".toList

/-- Model of `HttpStreamTransport::formatMultipartHeader`: the characters stored in `buf`
and the value stored in `*outLen`. -/
def formatMultipartHeader (cfg : StreamConfig) (fb : Frame) (bufSize : Nat) : List Char × Nat :=
  snprintf bufSize PART_HEADER
    [FmtArg.str cfg.boundary, FmtArg.uint fb.len, FmtArg.int fb.tv_sec, FmtArg.int fb.tv_usec]


/-! ## HttpClient -/

/-- The connection object `HttpClient`. `client` is the `esp_http_client` handle (`none` is
the null handle). `wire` is not a member of the class: it records the bytes the library
accepted for transmission, in order. The mutex only serialises access and is not modelled;
every method is one atomic step. -/
structure HttpClient where
  client : Option Nat := none
  isConnected : Bool := false
  bytesSent : Nat := 0
  lastError : List Char := []
  wire : List Nat := []
deriving DecidableEq, Repr

/-- What the library answers during `HttpClient::startMultipartStream`:
the handle returned by `esp_http_client_init`, the code returned by `esp_http_client_open`
(`ESP_OK` is `0`) and the text `esp_err_to_name` gives for it. -/
structure ConnectEnv where
  init : Option Nat
  openErr : Int
  errName : List Char
deriving DecidableEq, Repr

/-- Model of `HttpClient::startMultipartStream`. The choice of buffer sizes from the PSRAM size
only feeds the library's configuration record and is left out. -/
def HttpClient.startMultipartStream (h : HttpClient) (env : ConnectEnv) : Bool × HttpClient :=
  match env.init with
  | none =>
      (false, { h with client := none,
                       lastError := (snprintf 256 "Failed to init HTTP client".toList []).1 })
  | some c =>
      if env.openErr ≠ 0 then
        (false, { h with client := none,
                         lastError := (snprintf 256 "Failed to open connection: %s".toList
                                         [FmtArg.str env.errName]).1 })
      else
        (true, { h with client := some c, isConnected := true, bytesSent := 0 })

/-- Model of `HttpClient::stopMultipartStream`. -/
def HttpClient.stopMultipartStream (h : HttpClient) : HttpClient :=
  { h with client := none, isConnected := false }

/-! ## HttpStreamTransport -/

/-- The transport `HttpStreamTransport`: its `HttpClient` and its own error text. -/
structure HttpStreamTransport where
  httpClient : HttpClient := {}
  lastError : List Char := []
deriving DecidableEq, Repr

namespace HttpStreamTransport

/-- Model of `HttpStreamTransport::connect`. -/
def connect (t : HttpStreamTransport) (env : ConnectEnv) : Bool × HttpStreamTransport :=
  let r := t.httpClient.startMultipartStream env
  if r.1 then (true, { t with httpClient := r.2 })
  else (false, { httpClient := r.2, lastError := (snprintf 256 "%s".toList [FmtArg.str r.2.lastError]).1 })

/-- Model of `HttpStreamTransport::disconnect`. -/
def disconnect (t : HttpStreamTransport) : HttpStreamTransport :=
  { t with httpClient := t.httpClient.stopMultipartStream }

/-- Model of `HttpStreamTransport::isConnected`. -/
def isConnected (t : HttpStreamTransport) : Bool := t.httpClient.isConnected

/-- Model of `HttpStreamTransport::getHttpClient`. -/
def getHttpClient (t : HttpStreamTransport) : Option Nat := t.httpClient.client

/-- Model of `HttpStreamTransport::getLastError`. -/
def getLastError (t : HttpStreamTransport) : List Char := t.lastError

/-- Model of `HttpStreamTransport::send(data, len)`. `result` is the value
`esp_http_client_write` returns if the call is reached; when it is non-negative that many
leading bytes of `data` went out. -/
def send (t : HttpStreamTransport) (data : List Nat) (len : Nat) (result : Int) :
    Bool × HttpStreamTransport :=
  if !t.httpClient.isConnected then
    (false, { t with lastError := (snprintf 256 "Client not connected".toList []).1 })
  else
    match t.httpClient.client with
    | none =>
        (false, { t with lastError := (snprintf 256 "HTTP client handle is null".toList []).1 })
    | some _ =>
        let h := { t.httpClient with wire := t.httpClient.wire ++ data.take result.toNat }
        if result ≠ toInt32 len then
          (false, { httpClient := h.stopMultipartStream,
                    lastError := (snprintf 256 "Write incomplete: %d/%u bytes".toList
                                    [FmtArg.int result, FmtArg.uint len]).1 })
        else
          (true, { t with httpClient := h })

end HttpStreamTransport

/-! ## TaskSender and Streamer: the state -/

/-- A queue entry `FrameChunk`. `fb` is `none` for a null frame pointer. -/
structure FrameChunk where
  fb : Option Frame
  header : List Char
  headerLen : Nat
  timestamp : Nat
deriving DecidableEq, Repr

/-- The members of `TaskSender`. `queue` is `none` for a null queue handle; the capacity of a
created queue is `config.taskQueueSize`. `eventsHandler` tells whether `_eventsHandler` is
set (it is only ever set to the owning `Streamer`). -/
structure TaskSender where
  eventsHandler : Bool := false
  taskHandle : Bool := false
  queue : Option (List FrameChunk) := none
  isRunning : Bool := false
  taskEnded : Bool := false
  bytesSent : Nat := 0
  framesSent : Nat := 0
  sendFailureCount : Nat := 0
deriving DecidableEq, Repr

/-- The controller's `Streamer::State`. -/
inductive State where
  | IDLE
  | CONNECTING
  | STREAMING
  | ERROR
deriving DecidableEq, Repr

/-- A call received by an events handler. `onSendError` is the call `TaskSender` makes on its
handler (the `Streamer`); the others are the calls the `Streamer` makes on the handler
registered with `setEventsHandler`. -/
inductive Event where
  | onConnected
  | onDisconnected
  | onError (message : List Char)
  | onFrameSent (size : Nat)
  | onMetricsUpdate (fps : Nat) (bytesSent : Nat)
  | onSendError (message : List Char)
deriving DecidableEq, Repr

/-- The `Streamer` with the objects it owns, followed by the observable effects on its
surroundings: `released` lists the frames passed to `esp_camera_fb_return` (by `id`), `events`
the handler calls, `led` the levels written to the LED pin (`true` is `HIGH`),
`forceCaptivePortal` the arguments of `set_force_captive_portal`, and `restarted` is set by
`ESP.restart()`, which does not return. -/
structure Streamer where
  config : StreamConfig := {}
  transport : HttpStreamTransport := {}
  taskSender : TaskSender := {}
  eventsHandler : Bool := false
  state : State := State.IDLE
  lastReconnectAttempt : Nat := 0
  currentReconnectInterval : Nat := 5000
  lastMetricsUpdate : Nat := 0
  lastFrameTime : Nat := 0
  frameDelayMs : Nat := 0
  currentFPS : Nat := 0
  totalBytesSent : Nat := 0
  totalFramesSent : Nat := 0
  reconnectFailureCount : Nat := 0
  isInCaptivePortal : Bool := false
  lastLedUpdate : Nat := 0
  ledState : Bool := false
  blinkCount : Nat := 0
  blinkPhase : Nat := 0
  released : List Nat := []
  events : List Event := []
  led : List Bool := []
  forceCaptivePortal : List Bool := []
  restarted : Bool := false
deriving DecidableEq, Repr

def LED_BLINK_CONNECTING : Nat := 500
def LED_BLINK_IDLE : Nat := 1000
def LED_BLINK_ERROR : Nat := 100
def LED_BLINK_CAPTIVE : Nat := 200

/-- Model of `esp_camera_fb_return(fb)`. -/
def esp_camera_fb_return (s : Streamer) (fb : Frame) : Streamer :=
  { s with released := s.released ++ [fb.id] }

/-- Model of `CameraModule::return_frame`. -/
def return_frame (s : Streamer) (frame : Option Frame) : Streamer :=
  match frame with
  | some fb => esp_camera_fb_return s fb
  | none => s

/-! ## Streamer: notifications and the status LED -/

namespace Streamer

/-- A call on the handler registered with `setEventsHandler`, skipped when there is none
(the common body of the `_notify...` methods). -/
def notify (s : Streamer) (e : Event) : Streamer :=
  if s.eventsHandler then { s with events := s.events ++ [e] } else s

/-- Model of `Streamer::_notifyConnected`. -/
def _notifyConnected (s : Streamer) : Streamer := s.notify Event.onConnected

/-- Model of `Streamer::_notifyDisconnected`. -/
def _notifyDisconnected (s : Streamer) : Streamer := s.notify Event.onDisconnected

/-- Model of `Streamer::_notifyError`. -/
def _notifyError (s : Streamer) (message : List Char) : Streamer :=
  s.notify (Event.onError message)

/-- Model of `Streamer::_notifyFrameSent`. -/
def _notifyFrameSent (s : Streamer) (size : Nat) : Streamer :=
  s.notify (Event.onFrameSent size)

/-- Model of `Streamer::_notifyMetricsUpdate`. -/
def _notifyMetricsUpdate (s : Streamer) : Streamer :=
  s.notify (Event.onMetricsUpdate s.currentFPS s.totalBytesSent)

/-- The toggle `_ledState = !_ledState; digitalWrite(...); _lastLedUpdate = now`. -/
def toggleLed (s : Streamer) (now : Nat) : Streamer :=
  { s with ledState := !s.ledState, led := s.led ++ [!s.ledState], lastLedUpdate := now }

/-- Model of `Streamer::_updateLED`; `now` is the value `millis()` returns. -/
def _updateLED (s : Streamer) (now : Nat) : Streamer :=
  match s.state with
  | State.STREAMING => { s with led := s.led ++ [false] }
  | State.CONNECTING =>
      if sub32 now s.lastLedUpdate ≥ LED_BLINK_CONNECTING then s.toggleLed now else s
  | State.IDLE =>
      if sub32 now s.lastLedUpdate ≥ LED_BLINK_IDLE then s.toggleLed now else s
  | State.ERROR =>
      if s.isInCaptivePortal then
        if s.blinkPhase = 0 then
          if sub32 now s.lastLedUpdate ≥ LED_BLINK_CAPTIVE then
            let s1 := s.toggleLed now
            if !s1.ledState then
              let s2 := { s1 with blinkCount := u32 (s1.blinkCount + 1) }
              if s2.blinkCount ≥ 5 then { s2 with blinkCount := 0, blinkPhase := 1, lastLedUpdate := now }
              else s2
            else s1
          else s
        else
          if sub32 now s.lastLedUpdate ≥ 2000 then { s with blinkPhase := 0, lastLedUpdate := now }
          else s
      else
        if sub32 now s.lastLedUpdate ≥ LED_BLINK_ERROR then s.toggleLed now else s

/-! ## Streamer: error handling and reconnection -/

/-- Model of `Streamer::_handleStreamError`. After `ESP.restart()` nothing more runs, which
the callers observe through `restarted`. -/
def _handleStreamError (s : Streamer) (now : Nat) (error : List Char) : Streamer :=
  let s1 := { s with state := State.ERROR, transport := s.transport.disconnect }
  let s2 := s1._notifyError error
  let s3 := { s2 with reconnectFailureCount := u32 (s2.reconnectFailureCount + 1) }
  let s4 := s3._updateLED now
  if s4.reconnectFailureCount ≥ s4.config.maxSendFailures then
    { s4 with reconnectFailureCount := 0,
              forceCaptivePortal := s4.forceCaptivePortal ++ [true],
              restarted := true }
  else s4

/-- Model of `Streamer::_handleSendError`. -/
def _handleSendError (s : Streamer) (now : Nat) (error : List Char) : Streamer :=
  let s1 := { s with state := State.ERROR, transport := s.transport.disconnect }
  (s1._notifyError error)._updateLED now

/-- Model of `Streamer::onSendError`. -/
def onSendError (s : Streamer) (now : Nat) (message : List Char) : Streamer :=
  s._handleSendError now message

/-- Model of `Streamer::_attemptReconnect`; `env` is what the library answers if
`connect` is reached. -/
def _attemptReconnect (s : Streamer) (now : Nat) (env : ConnectEnv) : Streamer :=
  if s.state = State.CONNECTING then s
  else
    let s1 := ({ s with state := State.CONNECTING })._updateLED now
    let r := s1.transport.connect env
    let s2 := { s1 with transport := r.2 }
    if r.1 then
      let s3 := { s2 with state := State.STREAMING,
                          currentReconnectInterval := s2.config.reconnectInterval,
                          reconnectFailureCount := 0 }
      let s4 := (s3._notifyConnected)._updateLED now
      { s4 with lastReconnectAttempt := now }
    else
      let s3 := ({ s2 with state := State.ERROR })._handleStreamError now s2.transport.getLastError
      if s3.restarted then s3 else { s3 with lastReconnectAttempt := now }

/-- The expression `(uint32_t)(_currentReconnectInterval * _config.reconnectMultiplier)`:
the product with the multiplier, truncated toward zero. The rounding of `float` is not
modelled; the expression is exact whenever the interval and the product are below `2^24`
and the multiplier is a small integer, as with the shipped `2.0f`. -/
def scaleInterval (interval : Nat) (m : Multiplier) : Nat := u32 (interval * m.num / m.den)

/-- Model of `Streamer::_updateMetrics`. `_lastMetricsUpdate`, `now` and `elapsed` are `long`. -/
def _updateMetrics (s : Streamer) (now : Nat) : Streamer :=
  if s.lastMetricsUpdate = 0 then { s with lastMetricsUpdate := u32 now }
  else
    let elapsed := toInt32 (sub32 now s.lastMetricsUpdate)
    if elapsed < 900 then s
    else if elapsed ≥ toInt32 s.config.metricsUpdateInterval then
      let s1 := s._notifyMetricsUpdate
      { s1 with currentFPS := 0, lastMetricsUpdate := u32 now }
    else s

end Streamer

/-! ## TaskSender -/

namespace Streamer

/-- What FreeRTOS answers during `TaskSender::start`: whether `xQueueCreate` returned a queue
and whether `xTaskCreate` returned `pdPASS`. -/
structure StartEnv where
  queueOk : Bool
  taskOk : Bool
deriving DecidableEq, Repr

/-- Model of `TaskSender::start`. -/
def start (s : Streamer) (env : StartEnv) : Bool × Streamer :=
  if !env.queueOk then (false, { s with taskSender.queue := none })
  else if !env.taskOk then (false, { s with taskSender.queue := none })
  else (true, { s with taskSender.queue := some [], taskSender.taskHandle := true,
                       taskSender.isRunning := true })

/-- Model of `TaskSender::sendFrame(fb, header, headerLen)`; `now` is the value of
`millis()`. `xQueueSend` with its 10 ms wait is one step: it succeeds exactly when the queue
holds fewer chunks than its capacity. -/
def sendFrame (s : Streamer) (fb : Option Frame) (header : List Char) (headerLen : Nat)
    (now : Nat) : Bool × Streamer :=
  match s.taskSender.isRunning, s.taskSender.queue, fb with
  | true, some q, some f =>
      if headerLen > 255 then (false, esp_camera_fb_return s f)
      else
        let chunk : FrameChunk :=
          { fb := some f, headerLen := headerLen, timestamp := now, header := header.take headerLen }
        if q.length < s.config.taskQueueSize then
          (true, { s with taskSender.queue := some (q ++ [chunk]) })
        else (false, esp_camera_fb_return s f)
  | _, _, _ => (false, s)

/-- Model of `TaskSender::_notifySendError`: the handler of the sender is the `Streamer`,
whose `onSendError` runs inside the call. -/
def _notifySendError (s : Streamer) (now : Nat) (message : List Char) : Streamer :=
  if s.taskSender.eventsHandler then
    ({ s with events := s.events ++ [Event.onSendError message] }).onSendError now message
  else s

/-- One `send` of the worker followed by its failure handling
(`++_sendFailureCount; _notifySendError(_transport->getLastError())`). -/
def workerSend (s : Streamer) (now : Nat) (data : List Nat) (len : Nat) (result : Int) :
    Bool × Streamer :=
  let r := s.transport.send data len result
  let s1 := { s with transport := r.2 }
  if r.1 then (true, s1)
  else
    let s2 := { s1 with taskSender.sendFailureCount := u32 (s1.taskSender.sendFailureCount + 1) }
    (false, s2._notifySendError now s2.transport.getLastError)

/-- The body of the `while (_isRunning)` loop of `TaskSender::taskFunction`, entered after the
loop condition held. `resultH` and `resultP` are the values `esp_http_client_write` returns
for the header and for the payload if those writes are reached. The result is `none` where
the source dereferences a null pointer. The closing `vTaskDelay` only spends time. -/
def taskBody (s : Streamer) (now : Nat) (resultH resultP : Int) : Option Streamer :=
  match s.taskSender.queue with
  | none => none
  | some [] => some s
  | some (chunk :: rest) =>
      let s0 := { s with taskSender.queue := some rest }
      if !s0.taskSender.isRunning then some s0
      else
        let a : Bool × Streamer :=
          if chunk.headerLen > 0 then
            s0.workerSend now (chunk.header.map Char.toNat) chunk.headerLen resultH
          else (true, s0)
        let b : Bool × Streamer :=
          match a.1, chunk.fb with
          | true, some f => a.2.workerSend now f.buf f.len resultP
          | _, _ => a
        match b.1, chunk.fb with
        | true, some f =>
            some (esp_camera_fb_return
              { b.2 with taskSender.bytesSent := u64 (b.2.taskSender.bytesSent + f.len),
                         taskSender.framesSent := u32 (b.2.taskSender.framesSent + 1),
                         taskSender.sendFailureCount := 0 } f)
        | true, none => none
        | false, fb => some (return_frame b.2 fb)

/-- One turn of `TaskSender::taskFunction`: the loop condition, then the body; when the
condition fails the task marks itself ended. -/
def taskFunction (s : Streamer) (now : Nat) (resultH resultP : Int) : Option Streamer :=
  if s.taskSender.isRunning then s.taskBody now resultH resultP
  else some { s with taskSender.taskEnded := true }

/-- The frames released by the drain loop of `TaskSender::stop`. -/
def drain (s : Streamer) : List FrameChunk → Streamer
  | [] => s
  | chunk :: rest => drain (return_frame s chunk.fb) rest

/-- The first statements of `TaskSender::stop`: the early return and `_isRunning = false`. -/
def stopSignal (s : Streamer) : Streamer :=
  if !s.taskSender.isRunning then s else { s with taskSender.isRunning := false }

/-- The rest of `TaskSender::stop`, after the wait: the task is deleted (whether or not it
ended by itself), the queue is drained and deleted. -/
def stopFinish (s : Streamer) : Streamer :=
  let s1 := { s with taskSender.taskHandle := false }
  match s1.taskSender.queue with
  | some q => { drain s1 q with taskSender.queue := none }
  | none => s1

/-- Model of `TaskSender::stop` run without the worker in between. -/
def stop (s : Streamer) : Streamer :=
  if !s.taskSender.isRunning then s else (s.stopSignal).stopFinish

end Streamer

/-! ## Streamer: construction and the cooperative tick -/

namespace Streamer

/-- Model of the constructor `Streamer::Streamer` with `_initializeTransport`. In the firmware
`_config` is always the default `StreamConfig`; the model takes it as a parameter. Note that
the initial reconnect interval is the literal `5000`, not `config.reconnectInterval`. -/
def create (cfg : StreamConfig) (env : StartEnv) : Streamer :=
  let s : Streamer :=
    { config := cfg,
      state := State.IDLE,
      currentReconnectInterval := 5000,
      frameDelayMs := if cfg.maxFPS > 0 then 1000 / cfg.maxFPS else 0 }
  (({ s with taskSender.eventsHandler := true }).start env).2

/-- Model of `Streamer::setEventsHandler` with a non-null handler. -/
def setEventsHandler (s : Streamer) : Streamer := { s with eventsHandler := true }

/-- Model of `Streamer::setup`. -/
def setup (s : Streamer) (now : Nat) (env : ConnectEnv) : Streamer :=
  ({ s with state := State.IDLE })._attemptReconnect now env

/-- Model of `Streamer::loop`, one tick of the controller. `now` is the value of `millis()`
(the tick is taken as instantaneous), `frame` what `CameraModule::get_frame` returns if it is
reached and `env` what the library answers if a connect is attempted. The members
`_transport`, `_taskSender` and `_cameraModule` are set by the constructor and never null
afterwards, so the `!_transport` branch is not represented. -/
def loop (s : Streamer) (now : Nat) (frame : Option Frame) (env : ConnectEnv) : Streamer :=
  let s1 := s._updateLED now
  if s1.frameDelayMs > 0 ∧ sub32 now s1.lastFrameTime < s1.frameDelayMs then s1
  else if s1.state = State.IDLE ∨ s1.state = State.ERROR then
    if sub32 now s1.lastReconnectAttempt ≥ u32 s1.currentReconnectInterval then
      let s2 := s1._attemptReconnect now env
      if s2.restarted then s2
      else
        { s2 with currentReconnectInterval :=
                    min s2.config.maxReconnectInterval
                      (scaleInterval s2.currentReconnectInterval s2.config.reconnectMultiplier) }
    else s1
  else if !s1.transport.isConnected then
    (({ s1 with state := State.IDLE })._updateLED now)._notifyDisconnected
  else
    match frame with
    | some fb =>
        match s1.transport.getHttpClient with
        | none => return_frame s1 (some fb)
        | some _ =>
            let h := formatMultipartHeader s1.config fb 256
            let r := s1.sendFrame (some fb) h.1 h.2 now
            if r.1 then
              let s2 := { r.2 with totalBytesSent := u64 (r.2.totalBytesSent + fb.len),
                                   totalFramesSent := u32 (r.2.totalFramesSent + 1),
                                   currentFPS := u32 (r.2.currentFPS + 1) }
              let s3 := s2._notifyFrameSent fb.len
              ({ s3 with lastFrameTime := now })._updateMetrics now
            else (return_frame r.2 (some fb))._updateMetrics now
    | none => s1._updateMetrics now

end Streamer

/-! ## Sample inputs -/

/-- The library accepts the connection and hands out handle `1`. -/
def connectOk : ConnectEnv := { init := some 1, openErr := 0, errName := "ESP_OK".toList }

/-- The library fails to open the connection. -/
def connectFail : ConnectEnv := { init := some 1, openErr := -1, errName := "ESP_FAIL".toList }

/-- FreeRTOS creates both the queue and the task. -/
def startOk : Streamer.StartEnv := { queueOk := true, taskOk := true }

/-- A frame with `n` payload bytes and address `i`. -/
def frameOf (i n : Nat) : Frame :=
  { id := i, buf := List.replicate n 0, len := n, format := PixFormat.jpeg, tv_sec := 100, tv_usec := 500000 }

/-! ## The wire format as the protocol describes it -/

/-- Decimal numeral of a natural number, as the wire format writes `{n}`. -/
def decimal (n : Nat) : List Char := (toString n).toList

/-- Decimal numeral of an integer, with a leading `-` when negative. -/
def decimalInt (i : Int) : List Char := (toString i).toList

/-- Left-pad with zeros to a width of `w` characters. -/
def zeroPadLeft (w : Nat) (s : List Char) : List Char := List.replicate (w - s.length) '0' ++ s

/-- The part header of the wire protocol:
`\r\n--{boundary}\r\nContent-Type: image/jpeg\r\nContent-Length: {n}\r\nX-Timestamp: {sec}.{usec:06d}\r\n\r\n`. -/
def wireHeader (b : List Char) (n : Nat) (sec : Int) (usec : Int) : List Char :=
  "\r\n--".toList ++ b ++ "\r\nContent-Type: image/jpeg\r\nContent-Length: ".toList ++ decimal n
    ++ "\r\nX-Timestamp: ".toList ++ decimalInt sec ++ ".".toList
    ++ zeroPadLeft 6 (decimal usec.toNat) ++ "\r\n\r\n".toList

/-- The frame of the worked example: 12345 bytes captured at 100 s + 500000 µs. -/
def exampleFrame : Frame :=
  { id := 0, buf := [], len := 12345, format := PixFormat.jpeg, tv_sec := 100, tv_usec := 500000 }

/-- A frame with a negative seconds field and a short microseconds field. -/
def paddedFrame : Frame :=
  { id := 7, buf := [], len := 2048, format := PixFormat.jpeg, tv_sec := -3, tv_usec := 42 }

/-- A connected transport with a live handle. -/
def liveTransport : HttpStreamTransport :=
  { httpClient := { client := some 1, isConnected := true } }

/-- Whether an event is an `onSendError` call. -/
def Event.isSendError : Event → Bool
  | Event.onSendError _ => true
  | _ => false

/-- The number of `onSendError` calls in a log. -/
def countSendErrors (es : List Event) : Nat := (es.filter Event.isSendError).length

/-- The error text `HttpStreamTransport::send` leaves after an incomplete write. -/
def shortWriteMessage (result : Int) (len : Nat) : List Char :=
  (snprintf 256 "Write incomplete: %d/%u bytes".toList [FmtArg.int result, FmtArg.uint len]).1

/-- The controller after construction and a `setup()` whose connect succeeded at time `0`. -/
def bootStreaming : Streamer := (Streamer.create {} startOk).setup 0 connectOk

/-- Ticks of the controller at the given times, each obtaining the given frame. -/
def enqueueTicks (s : Streamer) : List (Nat × Frame) → Streamer
  | [] => s
  | tf :: r => enqueueTicks (s.loop tf.1 (some tf.2) connectOk) r

/-- One frame queued: a tick at time `100` obtained frame `1` (10 bytes). -/
def oneQueued : Streamer := enqueueTicks bootStreaming [(100, frameOf 1 10)]

/-- The chunk that tick queued. -/
def firstChunk : FrameChunk :=
  { fb := some (frameOf 1 10), header := (formatMultipartHeader {} (frameOf 1 10) 256).1,
    headerLen := 87, timestamp := 100 }

/-- A full queue: sixteen ticks, 40 ms apart, queued frames `1` to `16` while the worker
did not run. -/
def backlog : Streamer :=
  enqueueTicks bootStreaming ((List.range 16).map fun i => (100 + 40 * i, frameOf (i + 1) 10))

/-! ## Runs of connect attempts -/

/-- The library's answers make `HttpClient::startMultipartStream` fail. -/
def ConnectEnv.fails (env : ConnectEnv) : Prop := env.init = none ∨ env.openErr ≠ 0

instance (env : ConnectEnv) : Decidable env.fails := by
  unfold ConnectEnv.fails
  infer_instance

/-- A tick at time `now` reaches `_attemptReconnect`: the frame-cadence throttle lets it
through, the state is `IDLE` or `ERROR`, and the retry interval has elapsed. -/
def Streamer.attempts (s : Streamer) (now : Nat) : Prop :=
  ¬ (s.frameDelayMs > 0 ∧ sub32 now s.lastFrameTime < s.frameDelayMs) ∧
  (s.state = State.IDLE ∨ s.state = State.ERROR) ∧
  sub32 now s.lastReconnectAttempt ≥ u32 s.currentReconnectInterval

instance (s : Streamer) (now : Nat) : Decidable (s.attempts now) := by
  unfold Streamer.attempts
  infer_instance

/-- Controller ticks at the given times with the given answers of the library. -/
def connectTicks (s : Streamer) : List (Nat × ConnectEnv) → Streamer
  | [] => s
  | te :: r => connectTicks (s.loop te.1 none te.2) r

/-- Every tick of the run reaches a connect attempt, and that attempt fails. -/
def eachAttemptFails (s : Streamer) : List (Nat × ConnectEnv) → Prop
  | [] => True
  | te :: r => s.attempts te.1 ∧ te.2.fails ∧ eachAttemptFails (s.loop te.1 none te.2) r

instance decEachAttemptFails (s : Streamer) (l : List (Nat × ConnectEnv)) :
    Decidable (eachAttemptFails s l) := by
  induction l generalizing s with
  | nil => exact isTrue trivial
  | cons te r ih =>
      unfold eachAttemptFails
      have := ih (s.loop te.1 none te.2)
      infer_instance

/-- A configuration with the shipped backoff constants and a high escalation threshold. -/
def patientConfig : StreamConfig := { maxSendFailures := 1000 }

/-- The controller after construction and a `setup()` whose connect failed at time `0`. -/
def bootFailed : Streamer := (Streamer.create {} startOk).setup 0 connectFail

/-- Seven retries of a controller that never reaches the server, each made as soon as the
current interval has elapsed. -/
def retrySchedule : List (Nat × ConnectEnv) :=
  [(5000, connectFail), (15000, connectFail), (35000, connectFail), (75000, connectFail),
   (135000, connectFail), (195000, connectFail), (255000, connectFail)]

/-! ## Byte accounting of the transport -/

/-- Model of `HttpClient::getBytesSent`. -/
def HttpClient.getBytesSent (h : HttpClient) : Nat := h.bytesSent

/-- Model of `HttpStreamTransport::getBytesSent`. -/
def HttpStreamTransport.getBytesSent (t : HttpStreamTransport) : Nat := t.httpClient.getBytesSent

/-- Model of `HttpClient::sendMultipartChunk`, the combined header-and-data write that
`HttpStreamTransport::sendFrame` uses. `resultH` and `resultD` are the values the two calls
of `esp_http_client_write` return if reached. On an incomplete write the connection is
closed but the handle is kept. -/
def HttpClient.sendMultipartChunk (h : HttpClient) (header : List Nat) (headerLen : Nat)
    (data : List Nat) (dataLen : Nat) (resultH resultD : Int) : Bool × HttpClient :=
  match h.client, h.isConnected with
  | some _, true =>
      let h1 := { h with wire := h.wire ++ header.take resultH.toNat }
      if resultH ≠ toInt32 headerLen then
        (false, { h1 with isConnected := false,
                          lastError := (snprintf 256 "Header write incomplete: %d/%u bytes".toList
                                          [FmtArg.int resultH, FmtArg.uint headerLen]).1 })
      else
        let h2 := { h1 with wire := h1.wire ++ data.take resultD.toNat }
        if resultD ≠ toInt32 dataLen then
          (false, { h2 with isConnected := false,
                            lastError := (snprintf 256 "Data write incomplete: %d/%u bytes".toList
                                            [FmtArg.int resultD, FmtArg.uint dataLen]).1 })
        else
          (true, { h2 with bytesSent := (((h2.bytesSent : Int) + resultD) % 2 ^ 64).toNat })
  | _, _ => (false, { h with lastError := (snprintf 256 "Client not connected".toList []).1 })

/-- Model of `HttpStreamTransport::sendFrame(fb)`, the direct path that no caller in the
firmware uses; `cfg` is the transport's copy of the configuration. It reports `false` after
a successful write once `maxDataSize < fb->len * 2 + bytesSent`. -/
def HttpStreamTransport.sendFrame (t : HttpStreamTransport) (cfg : StreamConfig)
    (fb : Option Frame) (resultH resultD : Int) : Bool × HttpStreamTransport :=
  match fb with
  | none => (false, { t with lastError := (snprintf 256 "Frame buffer is null".toList []).1 })
  | some f =>
      if f.format ≠ PixFormat.jpeg then
        (false, { t with lastError := (snprintf 256 "Non-JPEG frame format".toList []).1 })
      else
        let h := formatMultipartHeader cfg f 256
        let r := t.httpClient.sendMultipartChunk (h.1.map Char.toNat) h.2 f.buf f.len resultH resultD
        if r.1 then
          if cfg.maxDataSize < u64 (u32 (f.len * 2) + r.2.getBytesSent) then
            (false, { t with httpClient := r.2 })
          else (true, { t with httpClient := r.2 })
        else
          (false, { httpClient := r.2,
                    lastError := (snprintf 256 "%s".toList [FmtArg.str r.2.lastError]).1 })

/-! ## Accessors of the sender and the controller -/

/-- Model of `TaskSender::getQueueCount`. -/
def TaskSender.getQueueCount (t : TaskSender) : Nat :=
  match t.queue with
  | none => 0
  | some q => q.length

/-- Model of `TaskSender::getBytesSent`. -/
def TaskSender.getBytesSent (t : TaskSender) : Nat := t.bytesSent

/-- Model of `TaskSender::getFramesSent`. -/
def TaskSender.getFramesSent (t : TaskSender) : Nat := t.framesSent

/-- Model of `Streamer::getBytesSent`. -/
def Streamer.getBytesSent (s : Streamer) : Nat := s.totalBytesSent

/-- Model of `Streamer::getFramesSent`. -/
def Streamer.getFramesSent (s : Streamer) : Nat := s.totalFramesSent

/-- Model of `Streamer::getQueueCount`. -/
def Streamer.getQueueCount (s : Streamer) : Nat := s.taskSender.getQueueCount

/-! ## Runs of send errors and of connect attempts -/

/-- Calls of `Streamer::onSendError`, each with the time it is made at and its message. -/
def sendErrorRun (s : Streamer) : List (Nat × List Char) → Streamer
  | [] => s
  | e :: r => sendErrorRun (s.onSendError e.1 e.2) r

/-- Calls of `Streamer::_attemptReconnect`, each with its time and the library's answers. -/
def attemptRun (s : Streamer) : List (Nat × ConnectEnv) → Streamer
  | [] => s
  | a :: r => attemptRun (s._attemptReconnect a.1 a.2) r

/-- The addresses of the frames held by a list of chunks, in queue order. -/
def queuedFrames (q : List FrameChunk) : List Nat := q.filterMap fun c => c.fb.map Frame.id

/-! ## Runs of the sender -/

/-- A step on the sender's queue: a `sendFrame` call by the controller, one turn of the
worker's loop with the values the two writes return if they are reached, or `stop()`. -/
inductive SenderOp where
  | enqueue (fb : Option Frame) (header : List Char) (headerLen : Nat) (now : Nat)
  | work (now : Nat) (resultH resultP : Int)
  | stop
deriving DecidableEq, Repr

/-- The effect of one step; `none` where the source dereferences a null pointer. -/
def SenderOp.apply (s : Streamer) : SenderOp → Option Streamer
  | SenderOp.enqueue fb header headerLen now => some (s.sendFrame fb header headerLen now).2
  | SenderOp.work now resultH resultP => s.taskFunction now resultH resultP
  | SenderOp.stop => some s.stop

/-- The steps of a run, one after another. -/
def runSender (s : Streamer) : List SenderOp → Option Streamer
  | [] => some s
  | op :: r =>
      match op.apply s with
      | some s1 => runSender s1 r
      | none => none

/-- The bytes a chunk stands for on the wire: the first `headerLen` bytes of its header,
then the `len` bytes of its frame. -/
def chunkBytes (c : FrameChunk) : List Nat :=
  (c.header.map Char.toNat).take c.headerLen ++
    (match c.fb with
     | some f => f.buf.take f.len
     | none => [])

/-- The bytes the chunks of a queue stand for, in queue order. -/
def pendingBytes : List FrameChunk → List Nat
  | [] => []
  | c :: r => chunkBytes c ++ pendingBytes r

/-- The bytes a `sendFrame` call hands over when it is accepted: the first `headerLen` bytes
passed to it, then the frame's payload. -/
def offeredBytes (fb : Option Frame) (header : List Char) (headerLen : Nat) : List Nat :=
  (header.take headerLen).map Char.toNat ++
    (match fb with
     | some f => f.buf.take f.len
     | none => [])

/-- The bytes handed over by the accepted `sendFrame` calls of a run, in call order. -/
def acceptedBytes (s : Streamer) : List SenderOp → List Nat
  | [] => []
  | op :: r =>
      (match op with
       | SenderOp.enqueue fb header headerLen now =>
           if (s.sendFrame fb header headerLen now).1 then offeredBytes fb header headerLen
           else []
       | _ => []) ++
      (match op.apply s with
       | some s1 => acceptedBytes s1 r
       | none => [])

/-- The write results a worker turn is given are those of complete writes for the chunk at
the head of the queue. -/
def headWritesComplete (s : Streamer) (resultH resultP : Int) : Bool :=
  match s.taskSender.queue with
  | some (c :: _) =>
      decide (resultH = toInt32 c.headerLen) &&
        (match c.fb with
         | some f => decide (resultP = toInt32 f.len)
         | none => true)
  | _ => true

/-- A run in which all writes succeed, nothing stops the sender, and every frame offered has
a length that fits the `int` parameter of the write. -/
def streamsCleanly (s : Streamer) : List SenderOp → Bool
  | [] => true
  | op :: r =>
      (match op with
       | SenderOp.enqueue fb _ _ _ =>
           (match fb with
            | some f => decide (f.len < 2 ^ 31)
            | none => true)
       | SenderOp.work _ resultH resultP => headWritesComplete s resultH resultP
       | SenderOp.stop => false) &&
      (match op.apply s with
       | some s1 => streamsCleanly s1 r
       | none => true)

/-- A chunk as `sendFrame` builds it: a header of at most 255 bytes and a frame whose length
fits an `int`. -/
def GoodChunk (c : FrameChunk) : Prop :=
  c.headerLen ≤ 255 ∧ ∃ f, c.fb = some f ∧ f.len < 2 ^ 31

/-- Three frames with distinct payloads, offered with distinct headers, and three worker
turns whose writes are complete. -/
def demoOps : List SenderOp :=
  [SenderOp.enqueue
     (some { id := 1, buf := [10, 11, 12], len := 3, format := PixFormat.jpeg, tv_sec := 0, tv_usec := 0 })
     "ab".toList 2 10,
   SenderOp.enqueue
     (some { id := 2, buf := [20, 21], len := 2, format := PixFormat.jpeg, tv_sec := 0, tv_usec := 0 })
     "cde".toList 3 20,
   SenderOp.work 30 2 3,
   SenderOp.enqueue
     (some { id := 3, buf := [30], len := 1, format := PixFormat.jpeg, tv_sec := 0, tv_usec := 0 })
     "f".toList 1 40,
   SenderOp.work 50 3 2,
   SenderOp.work 60 1 1]

/-- The state of the sender's queue as `start` and `sendFrame` leave it: a running sender has
a queue, a queue holds at most `taskQueueSize` chunks, and every chunk has a frame. -/
def SenderInv (s : Streamer) : Prop :=
  (s.taskSender.isRunning = true → s.taskSender.queue ≠ none) ∧
  ∀ q, s.taskSender.queue = some q →
    q.length ≤ s.config.taskQueueSize ∧ ∀ c ∈ q, c.fb ≠ none

/-- The statements of the worker's loop body that follow a successful dequeue of `chunk`
while the sender is running (see `taskBody_cons`). -/
def Streamer.processChunk (s0 : Streamer) (now : Nat) (chunk : FrameChunk)
    (resultH resultP : Int) : Option Streamer :=
  let a : Bool × Streamer :=
    if chunk.headerLen > 0 then
      s0.workerSend now (chunk.header.map Char.toNat) chunk.headerLen resultH
    else (true, s0)
  let b : Bool × Streamer :=
    match a.1, chunk.fb with
    | true, some f => a.2.workerSend now f.buf f.len resultP
    | _, _ => a
  match b.1, chunk.fb with
  | true, some f =>
      some (esp_camera_fb_return
        { b.2 with taskSender.bytesSent := u64 (b.2.taskSender.bytesSent + f.len),
                   taskSender.framesSent := u32 (b.2.taskSender.framesSent + 1),
                   taskSender.sendFailureCount := 0 } f)
  | true, none => none
  | false, fb => some (return_frame b.2 fb)

/-! ## A long stream on one connection -/

/-- A frame of 100000 bytes with address `i`. -/
def bigFrame (i : Nat) : Frame := frameOf i 100000

/-- Round `i` of a stream: at time `100 + 40 * i` a controller tick obtains frame `i` and the
worker then writes its 91-byte header and its 100000-byte payload completely. -/
def streamRound (s : Streamer) (i : Nat) : Option Streamer :=
  (s.loop (100 + 40 * i) (some (bigFrame i)) connectOk).taskBody (100 + 40 * i) 91 100000

/-- Rounds `1` to `n` of the stream, one after another. -/
def streamRounds (s : Streamer) : Nat → Option Streamer
  | 0 => some s
  | n + 1 =>
      match streamRounds s n with
      | some s1 => streamRound s1 (n + 1)
      | none => none

/-- The state between two rounds of the stream after `n` rounds: still streaming on the
connection opened by `setup()` at time `0`, the queue empty, `n * 100000` payload bytes
sent. -/
def StreamingSteady (s : Streamer) (n : Nat) : Prop :=
  s.config = {} ∧ s.state = State.STREAMING ∧ s.transport.isConnected = true ∧
  s.transport.getHttpClient = some 1 ∧ s.taskSender.isRunning = true ∧
  s.taskSender.queue = some [] ∧ s.frameDelayMs = 33 ∧ s.lastFrameTime ≤ 100 + 40 * n ∧
  s.taskSender.bytesSent = n * 100000 ∧ s.lastReconnectAttempt = 0 ∧
  s.transport.getBytesSent = 0

/-! ## The address check of the configuration portal -/

/-- Reduction of an `int` expression to 32 bits, two's complement. -/
def wrapInt32 (i : Int) : Int := toInt32 (i % 2 ^ 32).toNat

/-- The `for` loop of `isValidIP`: `none` for an early `return false`, otherwise the final
values of `octets` and `current`. The arithmetic on `current` is reduced to 32 bits. -/
def isValidIPLoop : List Char → Int → Int → Option (Int × Int)
  | [], octets, current => some (octets, current)
  | ch :: r, octets, current =>
      if ch = '.' then
        if current > 255 then none else isValidIPLoop r (octets + 1) 0
      else if '0' ≤ ch ∧ ch ≤ '9' then
        isValidIPLoop r octets (wrapInt32 (current * 10 + ((ch.toNat : Int) - ('0'.toNat : Int))))
      else none

/-- Model of `isValidIP` (WiFiPortal.cpp). -/
def isValidIP (ip : List Char) : Bool :=
  if ip.length < 7 ∨ ip.length > 15 then false
  else
    match isValidIPLoop ip 0 0 with
    | none => false
    | some r => decide (r.1 = 3) && decide (r.2 ≤ 255)

/-- The groups of a text between its dots. -/
def dotGroups : List Char → List (List Char)
  | [] => [[]]
  | c :: r =>
      if c = '.' then [] :: dotGroups r
      else
        match dotGroups r with
        | g :: gs => (c :: g) :: gs
        | [] => [[c]]

/-- The value of a group of decimal digits. -/
def decimalValue (g : List Char) : Nat := g.foldl (fun a c => 10 * a + (c.toNat - '0'.toNat)) 0

/-- A non-empty group of decimal digits with a value in `0..255`. -/
def isOctet (g : List Char) : Bool := !g.isEmpty && g.all Char.isDigit && decide (decimalValue g ≤ 255)

/-- A well-formed dotted-decimal IPv4 address: exactly four non-empty groups of decimal
digits separated by single dots, each with a value in `0..255`. -/
def wellFormedIPv4 (ip : List Char) : Bool :=
  decide ((dotGroups ip).length = 4) && (dotGroups ip).all isOctet

/-! ## Steps of the whole pipeline -/

/-- An atomic step of the running pipeline: `Streamer::setup`, a controller tick
(`Streamer::loop`), a call of `Streamer::onSendError`, or one turn of the sender's worker. -/
inductive SystemStep where
  | setup (now : Nat) (env : ConnectEnv)
  | tick (now : Nat) (frame : Option Frame) (env : ConnectEnv)
  | sendError (now : Nat) (message : List Char)
  | work (now : Nat) (resultH resultP : Int)
deriving DecidableEq, Repr

/-- The effect of one step; `none` where the source dereferences a null pointer. -/
def SystemStep.apply (s : Streamer) : SystemStep → Option Streamer
  | SystemStep.setup now env => some (s.setup now env)
  | SystemStep.tick now frame env => some (s.loop now frame env)
  | SystemStep.sendError now message => some (s.onSendError now message)
  | SystemStep.work now resultH resultP => s.taskFunction now resultH resultP

/-- The steps of a run, one after another. -/
def runSystem (s : Streamer) : List SystemStep → Option Streamer
  | [] => some s
  | st :: r =>
      match st.apply s with
      | some s1 => runSystem s1 r
      | none => none

/-- The times of the ticks of a run that queued a frame, in order. -/
def enqueueTimes (s : Streamer) : List SystemStep → List Nat
  | [] => []
  | st :: r =>
      (match st with
       | SystemStep.tick now frame env =>
           if (s.loop now frame env).taskSender.queue ≠ s.taskSender.queue then [now] else []
       | _ => []) ++
      (match st.apply s with
       | some s1 => enqueueTimes s1 r
       | none => [])

/-- The header step of the worker: the header is sent when `headerLen > 0`; otherwise the
step counts as successful without a write. -/
def headerStep (t : HttpStreamTransport) (c : FrameChunk) (resultH : Int) :
    Bool × HttpStreamTransport :=
  if c.headerLen > 0 then t.send (c.header.map Char.toNat) c.headerLen resultH else (true, t)

/-- The transport as the failing write of a worker turn leaves it: after the header step if
that failed, after the payload write otherwise. -/
def transportAfterFailure (t : HttpStreamTransport) (c : FrameChunk) (f : Frame)
    (resultH resultP : Int) : HttpStreamTransport :=
  if (headerStep t c resultH).1 then ((headerStep t c resultH).2.send f.buf f.len resultP).2
  else (headerStep t c resultH).2


/-! ## The transport a connect is invoked on -/

/-- The transport on which `Streamer::_attemptReconnect` calls `connect`, if it calls it: the
call is skipped in `CONNECTING` and otherwise follows `_state = CONNECTING; _updateLED()`. -/
def Streamer.connectTarget (s : Streamer) (now : Nat) : Option HttpStreamTransport :=
  if s.state = State.CONNECTING then none
  else some (({ s with state := State.CONNECTING })._updateLED now).transport

/-- The transport on which a step calls `connect`, if it calls it: `setup` goes through
`_attemptReconnect` after `_state = IDLE`, a tick goes through it on the reconnect branch of
`loop`, and no other step reaches a `connect`. -/
def SystemStep.connectTarget (s : Streamer) : SystemStep → Option HttpStreamTransport
  | SystemStep.setup now _ => ({ s with state := State.IDLE }).connectTarget now
  | SystemStep.tick now _ _ =>
      let s1 := s._updateLED now
      if s1.frameDelayMs > 0 ∧ sub32 now s1.lastFrameTime < s1.frameDelayMs then none
      else if s1.state = State.IDLE ∨ s1.state = State.ERROR then
        if sub32 now s1.lastReconnectAttempt ≥ u32 s1.currentReconnectInterval then
          s1.connectTarget now
        else none
      else none
  | _ => none

/-- A transport without a connection: the connected flag is clear and there is no handle. -/
def HttpStreamTransport.Disconnected (t : HttpStreamTransport) : Prop :=
  t.isConnected = false ∧ t.getHttpClient = none

instance (t : HttpStreamTransport) : Decidable t.Disconnected := by
  unfold HttpStreamTransport.Disconnected
  infer_instance

/-- The relation between the controller's state and its transport: the state is not
`CONNECTING` between steps, a transport whose flag is clear has no handle, and in `IDLE` or
`ERROR` the flag is clear. -/
def TransportInv (s : Streamer) : Prop :=
  s.state ≠ State.CONNECTING ∧
  (s.transport.isConnected = false → s.transport.getHttpClient = none) ∧
  ((s.state = State.IDLE ∨ s.state = State.ERROR) → s.transport.isConnected = false)

/-- No step after the first is a `setup`: the firmware calls `setup()` once, before the first
`loop()`. -/
def setupOnlyFirst : List SystemStep → Bool
  | [] => true
  | _ :: r => r.all (fun st => match st with
                               | SystemStep.setup _ _ => false
                               | _ => true)

/-- Three ticks after `oneQueued` (last enqueue at `100`, spacing 33 ms): one that comes too
early, then two that each obtain a frame. -/
def cadenceDemo : List SystemStep :=
  [SystemStep.tick 120 (some (frameOf 2 10)) connectOk,
   SystemStep.tick 140 (some (frameOf 3 10)) connectOk,
   SystemStep.tick 200 (some (frameOf 4 10)) connectOk]

/-- A run from construction: `setup()` connects, a tick queues a frame, and a send error is
reported. -/
def lifecycleDemo : List SystemStep :=
  [SystemStep.setup 0 connectOk,
   SystemStep.tick 100 (some (frameOf 1 10)) connectOk,
   SystemStep.sendError 150 "Write incomplete".toList]

/-! ## What the worker has served -/

/-- Whether a step is a `sendFrame` call. -/
def SenderOp.isEnqueue : SenderOp → Bool
  | SenderOp.enqueue _ _ _ _ => true
  | _ => false

/-- Whether a step is a turn of the worker. -/
def SenderOp.isWork : SenderOp → Bool
  | SenderOp.work _ _ _ => true
  | _ => false

/-- The byte blocks handed over by the accepted `sendFrame` calls of a run, one block per
accepted call, in call order. -/
def acceptedOffers (s : Streamer) : List SenderOp → List (List Nat)
  | [] => []
  | op :: r =>
      (match op with
       | SenderOp.enqueue fb header headerLen now =>
           if (s.sendFrame fb header headerLen now).1 then [offeredBytes fb header headerLen]
           else []
       | _ => []) ++
      (match op.apply s with
       | some s1 => acceptedOffers s1 r
       | none => [])

/-- The number of worker turns of a run that found a chunk in the queue. -/
def servedTurns (s : Streamer) : List SenderOp → Nat
  | [] => 0
  | op :: r =>
      (match op with
       | SenderOp.work _ _ _ =>
           (match s.taskSender.queue with
            | some (_ :: _) => 1
            | _ => 0)
       | _ => 0) +
      (match op.apply s with
       | some s1 => servedTurns s1 r
       | none => 0)

/-- The bytes of a list of blocks, one block after another. -/
def blockBytes : List (List Nat) → List Nat
  | [] => []
  | b :: r => b ++ blockBytes r

/-- The three calls of `demoOps` followed by its three worker turns. -/
def drainDemo : List SenderOp :=
  demoOps.filter SenderOp.isEnqueue ++ demoOps.filter SenderOp.isWork
/-! # Theorems -/

/-! ## The multipart header -/

theorem decimal_eq_fmtU (n : Nat) : decimal n = fmtU n := rfl

theorem decimalInt_eq_fmtD (i : Int) : decimalInt i = fmtD i := by
  cases i with
  | ofNat m => 
    simp [decimalInt, fmtD]
    rfl
  | negSucc m =>
    have h : Int.negSucc m < 0 := Int.negSucc_lt_zero m
    simp only [decimalInt, fmtD, h, if_true]
    rfl

theorem zeroPadLeft_eq_fmtD0 (w : Nat) (i : Int) (h : 0 ≤ i) :
    zeroPadLeft w (decimal i.toNat) = fmtD0 w i := by
  have h1 : ¬ i < 0 := not_lt.mpr h
  have h2 : i.toNat = i.natAbs := by omega
  simp only [zeroPadLeft, fmtD0, h1, if_false, decimal_eq_fmtU, fmtU, h2]

theorem vformat_PART_HEADER (b : List Char) (n : Nat) (s u : Int) :
    vformat PART_HEADER [FmtArg.str b, FmtArg.uint n, FmtArg.int s, FmtArg.int u]
      = "\r\n--".toList ++ b ++ "\r\nContent-Type: image/jpeg\r\nContent-Length: ".toList
          ++ fmtU n ++ "\r\nX-Timestamp: ".toList ++ fmtD s ++ ".".toList ++ fmtD0 6 u
          ++ "\r\n\r\n".toList := by
  simp [PART_HEADER, vformat]

/-- C3 (as stated, refuted). -/
theorem formatMultipartHeader_example_not_000500 :
    (formatMultipartHeader {} exampleFrame 256).1 ≠
      "\r\n--wheelbot\r\nContent-Type: image/jpeg\r\nContent-Length: 12345\r\nX-Timestamp: 100.000500\r\n\r\n".toList := by
  decide

/-- C3 (amended). -/
theorem formatMultipartHeader_example (cfg : StreamConfig) (fb : Frame)
    (hb : cfg.boundary = "wheelbot".toList) (hl : fb.len = 12345)
    (hs : fb.tv_sec = 100) (hu : fb.tv_usec = 500000) :
    formatMultipartHeader cfg fb 256 =
      ("\r\n--wheelbot\r\nContent-Type: image/jpeg\r\nContent-Length: 12345\r\nX-Timestamp: 100.500000\r\n\r\n".toList, 90) := by
  simp only [formatMultipartHeader, hb, hl, hs, hu]
  rfl

theorem formatMultipartHeader_example_witness :
    formatMultipartHeader {} exampleFrame 256 =
      ("\r\n--wheelbot\r\nContent-Type: image/jpeg\r\nContent-Length: 12345\r\nX-Timestamp: 100.500000\r\n\r\n".toList, 90) :=
  formatMultipartHeader_example {} exampleFrame rfl rfl rfl rfl

/-- C4. -/
theorem formatMultipartHeader_eq_wireHeader (cfg : StreamConfig) (fb : Frame) (bufSize : Nat)
    (h0 : 0 ≤ fb.tv_usec) (_h1 : fb.tv_usec ≤ 999999)
    (hfit : (wireHeader cfg.boundary fb.len fb.tv_sec fb.tv_usec).length < bufSize) :
    formatMultipartHeader cfg fb bufSize =
      (wireHeader cfg.boundary fb.len fb.tv_sec fb.tv_usec,
       (wireHeader cfg.boundary fb.len fb.tv_sec fb.tv_usec).length) := by
  have hw : vformat PART_HEADER
      [FmtArg.str cfg.boundary, FmtArg.uint fb.len, FmtArg.int fb.tv_sec, FmtArg.int fb.tv_usec]
        = wireHeader cfg.boundary fb.len fb.tv_sec fb.tv_usec := by
    rw [vformat_PART_HEADER, ← zeroPadLeft_eq_fmtD0 6 _ h0]
    simp only [wireHeader, decimal_eq_fmtU, decimalInt_eq_fmtD]
  simp only [formatMultipartHeader, snprintf, hw]
  rw [List.take_of_length_le (by omega)]

theorem formatMultipartHeader_eq_wireHeader_witness :
    wireHeader "wheelbot".toList 2048 (-3) 42 =
        "\r\n--wheelbot\r\nContent-Type: image/jpeg\r\nContent-Length: 2048\r\nX-Timestamp: -3.000042\r\n\r\n".toList
      ∧ formatMultipartHeader {} paddedFrame 256 =
        (wireHeader "wheelbot".toList 2048 (-3) 42, (wireHeader "wheelbot".toList 2048 (-3) 42).length) :=
  ⟨by decide, formatMultipartHeader_eq_wireHeader {} paddedFrame 256 (by decide) (by decide) (by decide)⟩

/-! ## Transport.send -/

theorem send_complete (t : HttpStreamTransport) (data : List Nat) (len : Nat) (result : Int)
    (c : Nat) (hc : t.isConnected = true) (hh : t.getHttpClient = some c)
    (hr : result = toInt32 len) :
    t.send data len result =
      (true, { t with httpClient :=
                 { t.httpClient with wire := t.httpClient.wire ++ data.take result.toNat } }) := by
  simp only [HttpStreamTransport.isConnected, HttpStreamTransport.getHttpClient] at hc hh
  simp [HttpStreamTransport.send, hc, hh, hr]

theorem send_incomplete (t : HttpStreamTransport) (data : List Nat) (len : Nat) (result : Int)
    (c : Nat) (hc : t.isConnected = true) (hh : t.getHttpClient = some c)
    (hr : result ≠ toInt32 len) :
    t.send data len result =
      (false,
        { httpClient :=
            HttpClient.stopMultipartStream
              { t.httpClient with wire := t.httpClient.wire ++ data.take result.toNat },
          lastError := (snprintf 256 "Write incomplete: %d/%u bytes".toList
                          [FmtArg.int result, FmtArg.uint len]).1 }) := by
  simp only [HttpStreamTransport.isConnected, HttpStreamTransport.getHttpClient] at hc hh
  simp [HttpStreamTransport.send, hc, hh, hr]

/-- C7. `HttpStreamTransport::send(data, len)` returns `true` exactly when the transport is
connected, holds a non-null handle and the underlying write returns the requested length
(compared as the source compares it, against `(int)len`). When the write is reached and
returns anything else, `send` returns `false` and the connection is torn down at once:
afterwards `isConnected()` is false and the handle is null. For a length below `2^31` the
comparison is plainly `result = len`. -/
theorem send_true_iff_complete (t : HttpStreamTransport) (data : List Nat) (len : Nat)
    (result : Int) :
    ((t.send data len result).1 = true ↔
        (t.isConnected = true ∧ t.getHttpClient ≠ none ∧ result = toInt32 len)) ∧
    (t.isConnected = true → t.getHttpClient ≠ none → result ≠ toInt32 len →
        (t.send data len result).1 = false ∧
        (t.send data len result).2.isConnected = false ∧
        (t.send data len result).2.getHttpClient = none) ∧
    (len < 2 ^ 31 → (result = toInt32 len ↔ result = (len : Int))) := by
  refine ⟨?_, ?_, ?_⟩
  · simp only [HttpStreamTransport.isConnected, HttpStreamTransport.getHttpClient,
      HttpStreamTransport.send]
    cases hconn : t.httpClient.isConnected <;> cases hcl : t.httpClient.client <;>
      by_cases hr : result = toInt32 len <;> simp [hr]
  · intro hc hh hr
    obtain ⟨c, hc'⟩ := Option.ne_none_iff_exists'.mp hh
    rw [send_incomplete t data len result c hc hc' hr]
    simp [HttpStreamTransport.isConnected, HttpStreamTransport.getHttpClient,
      HttpClient.stopMultipartStream]
  · intro hl
    have : toInt32 len = (len : Int) := by
      have h1 : len % 2 ^ 32 = len := Nat.mod_eq_of_lt (by omega)
      simp only [toInt32, h1]
      rw [if_pos (by omega)]
    rw [this]

theorem send_true_iff_complete_witness :
    (liveTransport.send [1, 2, 3, 4] 4 2).1 = false ∧
    (liveTransport.send [1, 2, 3, 4] 4 2).2.isConnected = false ∧
    (liveTransport.send [1, 2, 3, 4] 4 2).2.getHttpClient = none :=
  (send_true_iff_complete liveTransport [1, 2, 3, 4] 4 2).2.1 (by decide) (by decide) (by decide)

/-! ## The status LED touches only its own members -/

theorem updateLED_shape (s : Streamer) (now : Nat) :
    ∃ a b c d e, s._updateLED now =
      { s with lastLedUpdate := a, ledState := b, blinkCount := c, blinkPhase := d, led := e } := by
  unfold Streamer._updateLED Streamer.toggleLed
  dsimp only
  repeat' split
  all_goals exact ⟨_, _, _, _, _, rfl⟩

@[simp] theorem updateLED_state (s : Streamer) (now : Nat) : (s._updateLED now).state = s.state := by
  obtain ⟨a, b, c, d, e, h⟩ := updateLED_shape s now
  rw [h]

@[simp] theorem updateLED_config (s : Streamer) (now : Nat) :
    (s._updateLED now).config = s.config := by
  obtain ⟨a, b, c, d, e, h⟩ := updateLED_shape s now
  rw [h]

@[simp] theorem updateLED_transport (s : Streamer) (now : Nat) :
    (s._updateLED now).transport = s.transport := by
  obtain ⟨a, b, c, d, e, h⟩ := updateLED_shape s now
  rw [h]

@[simp] theorem updateLED_taskSender (s : Streamer) (now : Nat) :
    (s._updateLED now).taskSender = s.taskSender := by
  obtain ⟨a, b, c, d, e, h⟩ := updateLED_shape s now
  rw [h]

@[simp] theorem updateLED_eventsHandler (s : Streamer) (now : Nat) :
    (s._updateLED now).eventsHandler = s.eventsHandler := by
  obtain ⟨a, b, c, d, e, h⟩ := updateLED_shape s now
  rw [h]

@[simp] theorem updateLED_events (s : Streamer) (now : Nat) :
    (s._updateLED now).events = s.events := by
  obtain ⟨a, b, c, d, e, h⟩ := updateLED_shape s now
  rw [h]

@[simp] theorem updateLED_released (s : Streamer) (now : Nat) :
    (s._updateLED now).released = s.released := by
  obtain ⟨a, b, c, d, e, h⟩ := updateLED_shape s now
  rw [h]

@[simp] theorem updateLED_restarted (s : Streamer) (now : Nat) :
    (s._updateLED now).restarted = s.restarted := by
  obtain ⟨a, b, c, d, e, h⟩ := updateLED_shape s now
  rw [h]

@[simp] theorem updateLED_forceCaptivePortal (s : Streamer) (now : Nat) :
    (s._updateLED now).forceCaptivePortal = s.forceCaptivePortal := by
  obtain ⟨a, b, c, d, e, h⟩ := updateLED_shape s now
  rw [h]

@[simp] theorem updateLED_currentReconnectInterval (s : Streamer) (now : Nat) :
    (s._updateLED now).currentReconnectInterval = s.currentReconnectInterval := by
  obtain ⟨a, b, c, d, e, h⟩ := updateLED_shape s now
  rw [h]

@[simp] theorem updateLED_reconnectFailureCount (s : Streamer) (now : Nat) :
    (s._updateLED now).reconnectFailureCount = s.reconnectFailureCount := by
  obtain ⟨a, b, c, d, e, h⟩ := updateLED_shape s now
  rw [h]

@[simp] theorem updateLED_lastReconnectAttempt (s : Streamer) (now : Nat) :
    (s._updateLED now).lastReconnectAttempt = s.lastReconnectAttempt := by
  obtain ⟨a, b, c, d, e, h⟩ := updateLED_shape s now
  rw [h]

@[simp] theorem updateLED_lastFrameTime (s : Streamer) (now : Nat) :
    (s._updateLED now).lastFrameTime = s.lastFrameTime := by
  obtain ⟨a, b, c, d, e, h⟩ := updateLED_shape s now
  rw [h]

@[simp] theorem updateLED_frameDelayMs (s : Streamer) (now : Nat) :
    (s._updateLED now).frameDelayMs = s.frameDelayMs := by
  obtain ⟨a, b, c, d, e, h⟩ := updateLED_shape s now
  rw [h]

@[simp] theorem updateLED_lastMetricsUpdate (s : Streamer) (now : Nat) :
    (s._updateLED now).lastMetricsUpdate = s.lastMetricsUpdate := by
  obtain ⟨a, b, c, d, e, h⟩ := updateLED_shape s now
  rw [h]

@[simp] theorem updateLED_currentFPS (s : Streamer) (now : Nat) :
    (s._updateLED now).currentFPS = s.currentFPS := by
  obtain ⟨a, b, c, d, e, h⟩ := updateLED_shape s now
  rw [h]

@[simp] theorem updateLED_totalBytesSent (s : Streamer) (now : Nat) :
    (s._updateLED now).totalBytesSent = s.totalBytesSent := by
  obtain ⟨a, b, c, d, e, h⟩ := updateLED_shape s now
  rw [h]

@[simp] theorem updateLED_totalFramesSent (s : Streamer) (now : Nat) :
    (s._updateLED now).totalFramesSent = s.totalFramesSent := by
  obtain ⟨a, b, c, d, e, h⟩ := updateLED_shape s now
  rw [h]

/-! ## The sender's worker -/

/-- C5. In a worker iteration that dequeues a chunk with header length `H = chunk.headerLen`
and payload length `L = f.len` and in which both transport writes succeed (the transport is
connected and each underlying write returns the requested length), the cumulative byte
counter grows by `L` (as a `uint64_t`; the header bytes are not counted), the cumulative frame
counter grows by `1` (as a `uint32_t`) and the consecutive send-failure counter becomes `0`.
Short of wrap-around of the counters the increase is exactly `L` and exactly `1`. -/
theorem taskBody_success_counters (s : Streamer) (now : Nat) (chunk : FrameChunk)
    (rest : List FrameChunk) (f : Frame) (c : Nat) (resultH resultP : Int)
    (hq : s.taskSender.queue = some (chunk :: rest))
    (hrun : s.taskSender.isRunning = true)
    (hfb : chunk.fb = some f)
    (hconn : s.transport.isConnected = true)
    (hcl : s.transport.getHttpClient = some c)
    (hH : chunk.headerLen = 0 ∨ resultH = toInt32 chunk.headerLen)
    (hP : resultP = toInt32 f.len) :
    ∃ s', s.taskBody now resultH resultP = some s' ∧
      s'.taskSender.bytesSent = (s.taskSender.bytesSent + f.len) % 2 ^ 64 ∧
      s'.taskSender.framesSent = (s.taskSender.framesSent + 1) % 2 ^ 32 ∧
      s'.taskSender.sendFailureCount = 0 ∧
      (s.taskSender.bytesSent + f.len < 2 ^ 64 →
        s'.taskSender.bytesSent = s.taskSender.bytesSent + f.len) ∧
      (s.taskSender.framesSent + 1 < 2 ^ 32 →
        s'.taskSender.framesSent = s.taskSender.framesSent + 1) := by
  simp only [HttpStreamTransport.isConnected, HttpStreamTransport.getHttpClient] at hconn hcl
  by_cases h0 : chunk.headerLen = 0
  · simp [Streamer.taskBody, hq, hrun, hfb, h0, Streamer.workerSend, HttpStreamTransport.send,
      hconn, hcl, hP, esp_camera_fb_return, u64, u32]
  · have hrH : resultH = toInt32 chunk.headerLen := hH.resolve_left h0
    have hpos : 0 < chunk.headerLen := Nat.pos_of_ne_zero h0
    simp [Streamer.taskBody, hq, hrun, hfb, hpos, Streamer.workerSend, HttpStreamTransport.send,
      hconn, hcl, hP, hrH, esp_camera_fb_return, u64, u32]

/-- C6. In a worker iteration whose header write succeeds but whose payload write is short
(the underlying write returns a value other than the payload length, compared as the source
compares it, against `(int)L`), afterwards the transport reports not connected, the sender's
handler has received `onSendError` exactly once more (with the transport's
`Write incomplete` text), and the cumulative byte and frame counters are unchanged. The
frame is released once, the failure counter grows by one and the controller is in `ERROR`. -/
theorem taskBody_short_payload (s : Streamer) (now : Nat) (chunk : FrameChunk)
    (rest : List FrameChunk) (f : Frame) (c : Nat) (resultH resultP : Int)
    (hq : s.taskSender.queue = some (chunk :: rest))
    (hrun : s.taskSender.isRunning = true)
    (hhandler : s.taskSender.eventsHandler = true)
    (hfb : chunk.fb = some f)
    (hconn : s.transport.isConnected = true)
    (hcl : s.transport.getHttpClient = some c)
    (hH : chunk.headerLen = 0 ∨ resultH = toInt32 chunk.headerLen)
    (hP : resultP ≠ toInt32 f.len) :
    ∃ s', s.taskBody now resultH resultP = some s' ∧
      s'.transport.isConnected = false ∧
      countSendErrors s'.events = countSendErrors s.events + 1 ∧
      s'.events = s.events ++
        Event.onSendError (shortWriteMessage resultP f.len) ::
          (if s.eventsHandler then [Event.onError (shortWriteMessage resultP f.len)] else []) ∧
      s'.taskSender.bytesSent = s.taskSender.bytesSent ∧
      s'.taskSender.framesSent = s.taskSender.framesSent ∧
      s'.taskSender.sendFailureCount = (s.taskSender.sendFailureCount + 1) % 2 ^ 32 ∧
      s'.released = s.released ++ [f.id] ∧
      s'.state = State.ERROR := by
  simp only [HttpStreamTransport.isConnected, HttpStreamTransport.getHttpClient] at hconn hcl
  by_cases h0 : chunk.headerLen = 0
  · cases hev : s.eventsHandler <;>
    simp [Streamer.taskBody, hq, hrun, hfb, h0, Streamer.workerSend, HttpStreamTransport.send,
      hconn, hcl, hP, esp_camera_fb_return, return_frame, u32, Streamer._notifySendError, hhandler,
      Streamer.onSendError, Streamer._handleSendError, Streamer._notifyError, Streamer.notify,
      HttpStreamTransport.disconnect, HttpClient.stopMultipartStream,
      HttpStreamTransport.isConnected, HttpStreamTransport.getLastError, shortWriteMessage,
      countSendErrors, hev, List.filter_cons, Event.isSendError]
  · have hrH : resultH = toInt32 chunk.headerLen := hH.resolve_left h0
    have hpos : 0 < chunk.headerLen := Nat.pos_of_ne_zero h0
    cases hev : s.eventsHandler <;>
    simp [Streamer.taskBody, hq, hrun, hfb, hpos, Streamer.workerSend, HttpStreamTransport.send,
      hconn, hcl, hP, hrH, esp_camera_fb_return, return_frame, u32, Streamer._notifySendError,
      hhandler, Streamer.onSendError, Streamer._handleSendError, Streamer._notifyError,
      Streamer.notify, HttpStreamTransport.disconnect, HttpClient.stopMultipartStream,
      HttpStreamTransport.isConnected, HttpStreamTransport.getLastError, shortWriteMessage,
      countSendErrors, hev, List.filter_cons, Event.isSendError]

/-! ## Frame ownership on a full queue -/

theorem updateMetrics_released (s : Streamer) (now : Nat) :
    (s._updateMetrics now).released = s.released := by
  unfold Streamer._updateMetrics Streamer._notifyMetricsUpdate Streamer.notify
  dsimp only
  repeat' split
  all_goals rfl

theorem sendFrame_queue_full (s : Streamer) (f : Frame) (header : List Char) (headerLen now : Nat)
    (q : List FrameChunk) (hrun : s.taskSender.isRunning = true)
    (hq : s.taskSender.queue = some q) (hfull : s.config.taskQueueSize ≤ q.length) :
    s.sendFrame (some f) header headerLen now = (false, esp_camera_fb_return s f) := by
  have h : ¬ q.length < s.config.taskQueueSize := by omega
  simp [Streamer.sendFrame, hrun, hq, h]

theorem loop_queue_full_released (s : Streamer) (now : Nat) (f : Frame) (env : ConnectEnv)
    (c : Nat) (q : List FrameChunk)
    (hthr : ¬ (s.frameDelayMs > 0 ∧ sub32 now s.lastFrameTime < s.frameDelayMs))
    (hst : s.state = State.STREAMING)
    (hconn : s.transport.isConnected = true) (hcl : s.transport.getHttpClient = some c)
    (hrun : s.taskSender.isRunning = true)
    (hq : s.taskSender.queue = some q) (hfull : s.config.taskQueueSize ≤ q.length) :
    (s.loop now (some f) env).released = s.released ++ [f.id, f.id] := by
  have h1 := sendFrame_queue_full (s._updateLED now) f
    (formatMultipartHeader s.config f 256).1 (formatMultipartHeader s.config f 256).2 now q
    (by simpa using hrun) (by simpa using hq) (by simpa using hfull)
  simp [Streamer.loop, hthr, hst, hconn, hcl, h1, updateMetrics_released, return_frame,
    esp_camera_fb_return]

set_option maxRecDepth 100000 in
/-- C1 (the code departs from it). With the queue full, one controller tick that obtains
frame `17` passes it to `esp_camera_fb_return` twice: once inside `TaskSender::sendFrame`
and once more in `Streamer::loop`. -/
theorem loop_on_backlog_releases_twice :
    backlog.state = State.STREAMING ∧
    backlog.taskSender.queue.map List.length = some 16 ∧
    backlog.released = [] ∧
    (backlog.loop 1000 (some (frameOf 17 10)) connectOk).released = [17, 17] := by
  decide

set_option maxRecDepth 100000 in
/-- C2 (the code departs from it). On the full queue `TaskSender::sendFrame` returns `false`
and leaves the queue as it was, but it has already released the frame itself. -/
theorem sendFrame_on_backlog_releases :
    (backlog.sendFrame (some (frameOf 17 10)) (formatMultipartHeader {} (frameOf 17 10) 256).1
        87 1000).1 = false ∧
    (backlog.sendFrame (some (frameOf 17 10)) (formatMultipartHeader {} (frameOf 17 10) 256).1
        87 1000).2.taskSender.queue = backlog.taskSender.queue ∧
    (backlog.sendFrame (some (frameOf 17 10)) (formatMultipartHeader {} (frameOf 17 10) 256).1
        87 1000).2.released = backlog.released ++ [17] := by
  decide

/-- A chunk received after `stop()` has cleared `_isRunning` is dropped by the worker without
a release, and the drain in `stop()` no longer finds it. -/
theorem stop_race_loses_frame :
    (oneQueued.stopSignal.taskBody 200 87 10).map (fun s => s.stopFinish.released) = some [] ∧
    (oneQueued.stopSignal.taskBody 200 87 10).map (fun s => s.stopFinish.taskSender.queue)
      = some none := by
  decide

theorem taskBody_success_counters_witness :
    ∃ s', oneQueued.taskBody 200 87 10 = some s' ∧
      s'.taskSender.bytesSent = (oneQueued.taskSender.bytesSent + (frameOf 1 10).len) % 2 ^ 64 ∧
      s'.taskSender.framesSent = (oneQueued.taskSender.framesSent + 1) % 2 ^ 32 ∧
      s'.taskSender.sendFailureCount = 0 ∧
      (oneQueued.taskSender.bytesSent + (frameOf 1 10).len < 2 ^ 64 →
        s'.taskSender.bytesSent = oneQueued.taskSender.bytesSent + (frameOf 1 10).len) ∧
      (oneQueued.taskSender.framesSent + 1 < 2 ^ 32 →
        s'.taskSender.framesSent = oneQueued.taskSender.framesSent + 1) :=
  taskBody_success_counters oneQueued 200 firstChunk [] (frameOf 1 10) 1 87 10
    (by decide) (by decide) (by decide) (by decide) (by decide) (by decide) (by decide)

theorem taskBody_short_payload_witness :
    ∃ s', oneQueued.taskBody 200 87 4 = some s' ∧
      s'.transport.isConnected = false ∧
      countSendErrors s'.events = countSendErrors oneQueued.events + 1 ∧
      s'.taskSender.bytesSent = oneQueued.taskSender.bytesSent ∧
      s'.taskSender.framesSent = oneQueued.taskSender.framesSent :=
  (taskBody_short_payload oneQueued 200 firstChunk [] (frameOf 1 10) 1 87 4
    (by decide) (by decide) (by decide) (by decide) (by decide) (by decide) (by decide)
    (by decide)).imp fun _ h => ⟨h.1, h.2.1, h.2.2.1, h.2.2.2.2.1, h.2.2.2.2.2.1⟩

/-! ## Reconnection and backoff -/

theorem connect_fails (t : HttpStreamTransport) (env : ConnectEnv) (hf : env.fails) :
    (t.connect env).1 = false := by
  unfold ConnectEnv.fails at hf
  unfold HttpStreamTransport.connect HttpClient.startMultipartStream
  rcases hf with h | h
  · simp [h]
  · cases hi : env.init <;> simp [h]

theorem connect_true_iff (t : HttpStreamTransport) (env : ConnectEnv) :
    (t.connect env).1 = true ↔ env.init ≠ none ∧ env.openErr = 0 := by
  unfold HttpStreamTransport.connect HttpClient.startMultipartStream
  cases hi : env.init <;> by_cases h : env.openErr = 0 <;> simp [h]

theorem attemptReconnect_fails (s : Streamer) (now : Nat) (env : ConnectEnv)
    (hst : s.state ≠ State.CONNECTING) (hf : env.fails) (hnr : s.restarted = false)
    (hcnt : s.reconnectFailureCount + 1 < s.config.maxSendFailures)
    (hty : s.config.maxSendFailures < 2 ^ 32) :
    (s._attemptReconnect now env).state = State.ERROR ∧
    (s._attemptReconnect now env).restarted = false ∧
    (s._attemptReconnect now env).config = s.config ∧
    (s._attemptReconnect now env).reconnectFailureCount = s.reconnectFailureCount + 1 ∧
    (s._attemptReconnect now env).currentReconnectInterval = s.currentReconnectInterval ∧
    (s._attemptReconnect now env).lastReconnectAttempt = now := by
  have hc := connect_fails s.transport env hf
  have hu : u32 (s.reconnectFailureCount + 1) = s.reconnectFailureCount + 1 :=
    Nat.mod_eq_of_lt (by omega)
  have hlt : ¬ s.config.maxSendFailures ≤ s.reconnectFailureCount + 1 := by omega
  simp [Streamer._attemptReconnect, hst, hc, Streamer._handleStreamError, Streamer._notifyError,
    Streamer.notify, hu, hlt, hnr, apply_ite]

theorem attemptReconnect_succeeds (s : Streamer) (now : Nat) (env : ConnectEnv)
    (hst : s.state ≠ State.CONNECTING) (hok : (s.transport.connect env).1 = true) :
    (s._attemptReconnect now env).state = State.STREAMING ∧
    (s._attemptReconnect now env).reconnectFailureCount = 0 ∧
    (s._attemptReconnect now env).currentReconnectInterval = s.config.reconnectInterval ∧
    (s._attemptReconnect now env).restarted = s.restarted ∧
    (s._attemptReconnect now env).config = s.config ∧
    (s._attemptReconnect now env).events =
      s.events ++ (if s.eventsHandler then [Event.onConnected] else []) := by
  cases he : s.eventsHandler <;>
  simp [Streamer._attemptReconnect, hst, hok, Streamer._notifyConnected, Streamer.notify, he]

theorem loop_attempt_fails (s : Streamer) (now : Nat) (frame : Option Frame) (env : ConnectEnv)
    (hatt : s.attempts now) (hf : env.fails) (hnr : s.restarted = false)
    (hcnt : s.reconnectFailureCount + 1 < s.config.maxSendFailures)
    (hty : s.config.maxSendFailures < 2 ^ 32) :
    (s.loop now frame env).state = State.ERROR ∧
    (s.loop now frame env).restarted = false ∧
    (s.loop now frame env).config = s.config ∧
    (s.loop now frame env).reconnectFailureCount = s.reconnectFailureCount + 1 ∧
    (s.loop now frame env).currentReconnectInterval =
      min s.config.maxReconnectInterval
        (Streamer.scaleInterval s.currentReconnectInterval s.config.reconnectMultiplier) := by
  obtain ⟨hthr, hstate, hdue⟩ := hatt
  have hst : (s._updateLED now).state ≠ State.CONNECTING := by
    rw [updateLED_state]
    rcases hstate with h | h <;> simp [h]
  obtain ⟨a1, a2, a3, a4, a5, _⟩ := attemptReconnect_fails (s._updateLED now) now env hst hf
    (by simpa using hnr) (by simpa using hcnt) (by simpa using hty)
  simp only [updateLED_config, updateLED_reconnectFailureCount,
    updateLED_currentReconnectInterval] at a3 a4 a5
  have hdue' : u32 s.currentReconnectInterval ≤ sub32 now s.lastReconnectAttempt := hdue
  simp [Streamer.loop, hthr, hstate, hdue', a1, a2, a3, a4, a5]

theorem loop_attempt_succeeds (s : Streamer) (now : Nat) (frame : Option Frame)
    (env : ConnectEnv) (hatt : s.attempts now) (hnr : s.restarted = false)
    (hok : (s.transport.connect env).1 = true) :
    (s.loop now frame env).state = State.STREAMING ∧
    (s.loop now frame env).reconnectFailureCount = 0 ∧
    (s.loop now frame env).currentReconnectInterval =
      min s.config.maxReconnectInterval
        (Streamer.scaleInterval s.config.reconnectInterval s.config.reconnectMultiplier) := by
  obtain ⟨hthr, hstate, hdue⟩ := hatt
  have hst : (s._updateLED now).state ≠ State.CONNECTING := by
    rw [updateLED_state]
    rcases hstate with h | h <;> simp [h]
  obtain ⟨a1, a2, a3, a4, a5, _⟩ := attemptReconnect_succeeds (s._updateLED now) now env hst
    (by simpa using hok)
  simp only [updateLED_config, updateLED_restarted] at a3 a4 a5
  have hdue' : u32 s.currentReconnectInterval ≤ sub32 now s.lastReconnectAttempt := hdue
  simp [Streamer.loop, hthr, hstate, hdue', a1, a2, a3, a4, a5, hnr]

/-- The interval in force after `k` further failed attempts, starting from `5000`. -/
theorem backoff_value (k : Nat) :
    min 60000 (5000 * 2 ^ k) = [5000, 10000, 20000, 40000].getD k 60000 := by
  rcases k with _ | _ | _ | _ | k
  · rfl
  · rfl
  · rfl
  · rfl
  · have h := Nat.one_le_two_pow (n := k)
    simp only [List.getD_cons_succ, List.getD_nil, pow_succ]
    omega

theorem connectTicks_backoff (cfg : StreamConfig) (ticks : List (Nat × ConnectEnv))
    (hmul : cfg.reconnectMultiplier = ⟨2, 1⟩) (hcap : cfg.maxReconnectInterval = 60000)
    (hty : cfg.maxSendFailures < 2 ^ 32) :
    ∀ (s : Streamer) (k : Nat), s.config = cfg → s.restarted = false →
      s.reconnectFailureCount = k + 1 →
      s.currentReconnectInterval = min 60000 (5000 * 2 ^ k) →
      k + ticks.length + 1 < cfg.maxSendFailures →
      eachAttemptFails s ticks →
      (connectTicks s ticks).reconnectFailureCount = k + ticks.length + 1 ∧
      (connectTicks s ticks).currentReconnectInterval = min 60000 (5000 * 2 ^ (k + ticks.length)) := by
  induction ticks with
  | nil =>
      intro s k _ _ hc hi _ _
      exact ⟨by simpa [connectTicks] using hc, by simpa [connectTicks] using hi⟩
  | cons te r ih =>
      intro s k hcfg hnr hc hi hlen hall
      obtain ⟨hatt, hf, hrest⟩ := hall
      simp only [List.length_cons] at hlen
      obtain ⟨_, b2, b3, b4, b5⟩ := loop_attempt_fails s te.1 none te.2 hatt hf hnr
        (by rw [hcfg, hc]; omega) (by rw [hcfg]; exact hty)
      have hi' : (s.loop te.1 none te.2).currentReconnectInterval
          = min 60000 (5000 * 2 ^ (k + 1)) := by
        rw [b5, hcfg, hmul, hcap, hi]
        simp only [Streamer.scaleInterval, u32]
        have h2 : min 60000 (5000 * 2 ^ k) * 2 / 1 < 2 ^ 32 := by
          have := Nat.min_le_left 60000 (5000 * 2 ^ k)
          omega
        rw [Nat.mod_eq_of_lt h2, pow_succ]
        omega
      have := ih (s.loop te.1 none te.2) (k + 1) (b3.trans hcfg) b2 (by rw [b4, hc]) hi'
        (by omega) hrest
      simp only [connectTicks, List.length_cons]
      rw [show k + (r.length + 1) = k + 1 + r.length by omega]
      exact this

theorem create_fields (cfg : StreamConfig) (env : Streamer.StartEnv) :
    (Streamer.create cfg env).config = cfg ∧
    (Streamer.create cfg env).restarted = false ∧
    (Streamer.create cfg env).reconnectFailureCount = 0 ∧
    (Streamer.create cfg env).currentReconnectInterval = 5000 := by
  unfold Streamer.create Streamer.start
  dsimp only
  repeat' split
  all_goals exact ⟨rfl, rfl, rfl, rfl⟩

/-- C8 (as stated, refuted). A controller that connected in `setup()`, lost the connection
through a short write, and then fails its next connect attempt has one consecutive connect
failure and waits `10000` ms, not `5000`. -/
theorem backoff_after_lost_connection :
    (oneQueued.taskBody 200 87 4).map (fun s =>
        (s.config.reconnectInterval, s.config.reconnectMultiplier, s.config.maxReconnectInterval,
         s.reconnectFailureCount,
         (s.loop 6000 none connectFail).reconnectFailureCount,
         (s.loop 6000 none connectFail).currentReconnectInterval))
      = some (5000, ⟨2, 1⟩, 60000, 0, 1, 10000) := by
  decide

/-- C8 (amended). With multiplier `2.0` and cap `60000`, a newly constructed controller
(whose interval starts at `5000`) whose `setup()` attempt fails and whose every later attempt
in `loop()` fails, with the escalation threshold above the number of failures, waits
`5000, 10000, 20000, 40000, 60000` ms after the 1st to 5th consecutive failure and `60000` ms
after every further one: after failure number `ticks.length + 1` the interval is the entry
of that list at `ticks.length`, or `60000` beyond it. -/
theorem backoff_from_boot (cfg : StreamConfig) (startEnv : Streamer.StartEnv) (t0 : Nat)
    (env0 : ConnectEnv) (ticks : List (Nat × ConnectEnv))
    (hmul : cfg.reconnectMultiplier = ⟨2, 1⟩) (hcap : cfg.maxReconnectInterval = 60000)
    (hty : cfg.maxSendFailures < 2 ^ 32)
    (hthr : ticks.length + 1 < cfg.maxSendFailures)
    (h0 : env0.fails)
    (hticks : eachAttemptFails ((Streamer.create cfg startEnv).setup t0 env0) ticks) :
    (connectTicks ((Streamer.create cfg startEnv).setup t0 env0) ticks).reconnectFailureCount
      = ticks.length + 1 ∧
    (connectTicks ((Streamer.create cfg startEnv).setup t0 env0) ticks).currentReconnectInterval
      = [5000, 10000, 20000, 40000].getD ticks.length 60000 := by
  obtain ⟨c1, c2, c3, c4⟩ := create_fields cfg startEnv
  obtain ⟨_, a2, a3, a4, a5, _⟩ :=
    attemptReconnect_fails ({ Streamer.create cfg startEnv with state := State.IDLE }) t0 env0
      (by simp) h0 c2 (by simp only [c1, c3]; omega) (by simp only [c1]; exact hty)
  have h := connectTicks_backoff cfg ticks hmul hcap hty
    ((Streamer.create cfg startEnv).setup t0 env0) 0 (a3.trans c1) a2
    (by rw [Streamer.setup, a4, c3]) (by rw [Streamer.setup, a5, c4]; rfl) (by omega) hticks
  rw [← backoff_value]
  simpa using h

set_option maxRecDepth 100000 in
theorem backoff_from_boot_witness :
    (connectTicks ((Streamer.create patientConfig startOk).setup 0 connectFail)
        (retrySchedule.take 4)).currentReconnectInterval = 60000 ∧
    (connectTicks ((Streamer.create patientConfig startOk).setup 0 connectFail)
        retrySchedule).currentReconnectInterval = 60000 :=
  ⟨(backoff_from_boot patientConfig startOk 0 connectFail (retrySchedule.take 4) rfl rfl
      (by decide) (by decide) (by decide) (by decide)).2,
   (backoff_from_boot patientConfig startOk 0 connectFail retrySchedule rfl rfl
      (by decide) (by decide) (by decide) (by decide)).2⟩

/-- C9 (the code departs from it). After a failed `setup()`, a tick at time `5000` whose
connect succeeds leaves the controller streaming with a current interval of `10000`, while
the configured base is `5000`: `loop()` scales the interval after `_attemptReconnect` has
reset it. -/
theorem loop_success_interval_not_base :
    bootFailed.attempts 5000 ∧
    (bootFailed.loop 5000 none connectOk).state = State.STREAMING ∧
    (bootFailed.loop 5000 none connectOk).config.reconnectInterval = 5000 ∧
    (bootFailed.loop 5000 none connectOk).currentReconnectInterval = 10000 := by
  decide

/-- C10. For every prior value of the consecutive-connect-failure counter, a connect attempt
(`_attemptReconnect` entered in a state other than `CONNECTING`) in which `Transport.connect`
succeeds leaves the counter at `0` and the state at `STREAMING`, and calls `onConnected` on
the registered handler exactly once (the log grows by that one call; with no handler
registered there is nobody to call and the log is unchanged). -/
theorem attemptReconnect_success_resets_counter (s : Streamer) (now : Nat) (env : ConnectEnv)
    (hst : s.state ≠ State.CONNECTING) (hok : (s.transport.connect env).1 = true) :
    (s._attemptReconnect now env).reconnectFailureCount = 0 ∧
    (s._attemptReconnect now env).state = State.STREAMING ∧
    (s._attemptReconnect now env).events =
      s.events ++ (if s.eventsHandler then [Event.onConnected] else []) := by
  obtain ⟨h1, h2, _, _, _, h6⟩ := attemptReconnect_succeeds s now env hst hok
  exact ⟨h2, h1, h6⟩

theorem attemptReconnect_success_resets_counter_witness :
    bootFailed.reconnectFailureCount = 1 ∧
    (bootFailed.setEventsHandler._attemptReconnect 5000 connectOk).reconnectFailureCount = 0 ∧
    (bootFailed.setEventsHandler._attemptReconnect 5000 connectOk).state = State.STREAMING ∧
    (bootFailed.setEventsHandler._attemptReconnect 5000 connectOk).events = [Event.onConnected] :=
  ⟨by decide,
   attemptReconnect_success_resets_counter bootFailed.setEventsHandler 5000 connectOk
     (by decide) (by decide)⟩


/-! ## Disconnect -/

/-- C15. `HttpStreamTransport::disconnect` on an already-disconnected transport (null handle,
not connected) leaves the transport as it is; for every transport, disconnecting twice gives
the same state as disconnecting once, and after a disconnect `isConnected()` is false and the
handle is null. -/
theorem disconnect_idempotent (t : HttpStreamTransport) :
    (t.getHttpClient = none → t.isConnected = false → t.disconnect = t) ∧
    t.disconnect.disconnect = t.disconnect ∧
    t.disconnect.isConnected = false ∧
    t.disconnect.getHttpClient = none := by
  refine ⟨?_, rfl, rfl, rfl⟩
  intro hc hn
  obtain ⟨⟨c, i, b, e, w⟩, l⟩ := t
  simp only [HttpStreamTransport.getHttpClient, HttpStreamTransport.isConnected] at hc hn
  subst hc hn
  rfl

theorem disconnect_idempotent_witness :
    ({} : HttpStreamTransport).disconnect = {} :=
  (disconnect_idempotent {}).1 rfl rfl

/-! ## The transport's byte counter -/

theorem send_keeps_bytesSent (t : HttpStreamTransport) (data : List Nat) (len : Nat)
    (result : Int) : (t.send data len result).2.getBytesSent = t.getBytesSent := by
  unfold HttpStreamTransport.send
  dsimp only
  repeat' split
  all_goals rfl

theorem connect_resets_bytesSent (t : HttpStreamTransport) (env : ConnectEnv)
    (h : (t.connect env).1 = true) : (t.connect env).2.getBytesSent = 0 := by
  unfold HttpStreamTransport.connect HttpClient.startMultipartStream at *
  cases hi : env.init <;> by_cases ho : env.openErr = 0 <;> simp_all [HttpStreamTransport.getBytesSent, HttpClient.getBytesSent]

theorem sendMultipartChunk_counts (h : HttpClient) (header data : List Nat)
    (headerLen dataLen : Nat) (resultH resultD : Int)
    (hok : (h.sendMultipartChunk header headerLen data dataLen resultH resultD).1 = true)
    (hlen : dataLen < 2 ^ 31) (hb : h.bytesSent + dataLen < 2 ^ 64) :
    (h.sendMultipartChunk header headerLen data dataLen resultH resultD).2.getBytesSent
      = h.getBytesSent + dataLen := by
  have ht : toInt32 dataLen = (dataLen : Int) := by
    have : dataLen % 2 ^ 32 = dataLen := Nat.mod_eq_of_lt (by omega)
    simp only [toInt32, this]
    rw [if_pos (by omega)]
  have hsum : (((h.bytesSent : Int) + (dataLen : Int)) % 18446744073709551616).toNat
      = h.bytesSent + dataLen := by
    rw [Int.emod_eq_of_lt (by omega) (by omega)]
    omega
  unfold HttpClient.sendMultipartChunk at hok ⊢
  cases hc : h.client with
  | none => simp [hc] at hok
  | some c =>
      cases hi : h.isConnected with
      | false => simp [hc, hi] at hok
      | true =>
          by_cases h1 : resultH = toInt32 headerLen
          · by_cases h2 : resultD = toInt32 dataLen
            · simp [hc, hi, h1, h2, HttpClient.getBytesSent, ht, hsum]
            · simp [hc, hi, h1, h2] at hok
          · simp [hc, hi, h1] at hok

/-- C18 (the code departs from it). On a connected transport with a live handle a complete
write of 4 bytes makes `send` return `true`, yet `getBytesSent()` is `0` before and after:
`send` never adds to the counter. -/
theorem send_success_bytesSent_unchanged :
    liveTransport.getBytesSent = 0 ∧
    (liveTransport.send [1, 2, 3, 4] 4 4).1 = true ∧
    (liveTransport.send [1, 2, 3, 4] 4 4).2.httpClient.wire = [1, 2, 3, 4] ∧
    (liveTransport.send [1, 2, 3, 4] 4 4).2.getBytesSent = 0 := by
  decide

/-! ## Send errors reported by the sender -/

theorem onSendError_fields (s : Streamer) (now : Nat) (message : List Char) :
    (s.onSendError now message).state = State.ERROR ∧
    (s.onSendError now message).transport = s.transport.disconnect ∧
    (s.onSendError now message).events =
      s.events ++ (if s.eventsHandler then [Event.onError message] else []) ∧
    (s.onSendError now message).reconnectFailureCount = s.reconnectFailureCount ∧
    (s.onSendError now message).currentReconnectInterval = s.currentReconnectInterval ∧
    (s.onSendError now message).forceCaptivePortal = s.forceCaptivePortal ∧
    (s.onSendError now message).restarted = s.restarted := by
  cases he : s.eventsHandler <;>
  simp [Streamer.onSendError, Streamer._handleSendError, Streamer._notifyError, Streamer.notify, he]

theorem sendErrorRun_fields (errs : List (Nat × List Char)) :
    ∀ s : Streamer,
      (sendErrorRun s errs).reconnectFailureCount = s.reconnectFailureCount ∧
      (sendErrorRun s errs).currentReconnectInterval = s.currentReconnectInterval ∧
      (sendErrorRun s errs).forceCaptivePortal = s.forceCaptivePortal ∧
      (sendErrorRun s errs).restarted = s.restarted := by
  induction errs with
  | nil => intro s; exact ⟨rfl, rfl, rfl, rfl⟩
  | cons e r ih =>
      intro s
      obtain ⟨_, _, _, h4, h5, h6, h7⟩ := onSendError_fields s e.1 e.2
      obtain ⟨i1, i2, i3, i4⟩ := ih (s.onSendError e.1 e.2)
      exact ⟨i1.trans h4, i2.trans h5, i3.trans h6, i4.trans h7⟩

/-- C12. `Streamer::onSendError` sets the state to `ERROR`, disconnects the transport and
passes the message to `onError` of the registered handler, and leaves the
consecutive-connect-failure counter and the reconnect interval unchanged; it does not
escalate (no write of the force-captive-portal flag, no restart), and neither does any run
of send errors, however long. -/
theorem onSendError_no_escalation (s : Streamer) (now : Nat) (message : List Char)
    (errs : List (Nat × List Char)) :
    ((s.onSendError now message).state = State.ERROR ∧
     (s.onSendError now message).transport = s.transport.disconnect ∧
     (s.onSendError now message).transport.isConnected = false ∧
     (s.onSendError now message).events =
       s.events ++ (if s.eventsHandler then [Event.onError message] else []) ∧
     (s.onSendError now message).reconnectFailureCount = s.reconnectFailureCount ∧
     (s.onSendError now message).currentReconnectInterval = s.currentReconnectInterval ∧
     (s.onSendError now message).forceCaptivePortal = s.forceCaptivePortal ∧
     (s.onSendError now message).restarted = s.restarted) ∧
    ((sendErrorRun s errs).reconnectFailureCount = s.reconnectFailureCount ∧
     (sendErrorRun s errs).currentReconnectInterval = s.currentReconnectInterval ∧
     (sendErrorRun s errs).forceCaptivePortal = s.forceCaptivePortal ∧
     (sendErrorRun s errs).restarted = s.restarted) := by
  obtain ⟨h1, h2, h3, h4, h5, h6, h7⟩ := onSendError_fields s now message
  exact ⟨⟨h1, h2, by rw [h2]; rfl, h3, h4, h5, h6, h7⟩, sendErrorRun_fields errs s⟩

/-! ## Stopping the sender -/

theorem drain_eq (q : List FrameChunk) :
    ∀ s : Streamer, Streamer.drain s q = { s with released := s.released ++ queuedFrames q } := by
  induction q with
  | nil => intro s; simp [Streamer.drain, queuedFrames]
  | cons c r ih =>
      intro s
      rw [Streamer.drain, ih]
      cases hfb : c.fb <;>
        simp [return_frame, esp_camera_fb_return, queuedFrames, List.filterMap_cons, hfb]

theorem stop_of_running (s : Streamer) (q : List FrameChunk)
    (hrun : s.taskSender.isRunning = true) (hq : s.taskSender.queue = some q) :
    s.stop =
      { s with taskSender := { s.taskSender with isRunning := false, taskHandle := false,
                                                 queue := none },
               released := s.released ++ queuedFrames q } := by
  simp [Streamer.stop, Streamer.stopSignal, Streamer.stopFinish, hrun, hq, drain_eq]

/-- C16. `TaskSender::stop` on a running sender passes the frame of every chunk in the queue
to `esp_camera_fb_return` once, in queue order, and leaves the queue deleted (so it counts
`0` chunks) and the sender not running; a second `stop` changes nothing and so releases
nothing further, and every later `sendFrame` returns `false` and leaves the state, the
queue included, as it is. -/
theorem stop_drains_queue_once (s : Streamer) (q : List FrameChunk)
    (hrun : s.taskSender.isRunning = true) (hq : s.taskSender.queue = some q) :
    s.stop.released = s.released ++ queuedFrames q ∧
    s.stop.taskSender.queue = none ∧
    s.stop.getQueueCount = 0 ∧
    s.stop.taskSender.isRunning = false ∧
    s.stop.stop = s.stop ∧
    s.stop.stop.released = s.stop.released ∧
    (∀ (fb : Option Frame) (header : List Char) (headerLen now : Nat),
      s.stop.sendFrame fb header headerLen now = (false, s.stop)) := by
  have hstop := stop_of_running s q hrun hq
  have hnot : s.stop.taskSender.isRunning = false := by rw [hstop]
  have hss : s.stop.stop = s.stop := by
    rw [Streamer.stop]
    simp [hnot]
  refine ⟨by rw [hstop], by rw [hstop], ?_, hnot, hss, by rw [hss], ?_⟩
  · rw [hstop]
    rfl
  · intro fb header headerLen now
    simp [Streamer.sendFrame, hnot]

set_option maxRecDepth 100000 in
theorem stop_drains_queue_once_witness :
    backlog.stop.released = List.range' 1 16 ∧
    backlog.stop.taskSender.queue = none ∧
    backlog.stop.stop.released = backlog.stop.released := by
  have h := stop_drains_queue_once backlog (backlog.taskSender.queue.getD []) (by decide)
    (by decide)
  exact ⟨h.1.trans (by decide), h.2.1, h.2.2.2.2.2.1⟩

/-! ## Escalation after repeated connect failures -/

theorem attemptReconnect_fails_quietly (s : Streamer) (now : Nat) (env : ConnectEnv)
    (hst : s.state ≠ State.CONNECTING) (hf : env.fails) (hnr : s.restarted = false)
    (hcnt : s.reconnectFailureCount + 1 < s.config.maxSendFailures)
    (hty : s.config.maxSendFailures < 2 ^ 32) :
    (s._attemptReconnect now env).state = State.ERROR ∧
    (s._attemptReconnect now env).restarted = false ∧
    (s._attemptReconnect now env).config = s.config ∧
    (s._attemptReconnect now env).reconnectFailureCount = s.reconnectFailureCount + 1 ∧
    (s._attemptReconnect now env).forceCaptivePortal = s.forceCaptivePortal := by
  have hc := connect_fails s.transport env hf
  have hu : u32 (s.reconnectFailureCount + 1) = s.reconnectFailureCount + 1 :=
    Nat.mod_eq_of_lt (by omega)
  have hlt : ¬ s.config.maxSendFailures ≤ s.reconnectFailureCount + 1 := by omega
  simp [Streamer._attemptReconnect, hst, hc, Streamer._handleStreamError, Streamer._notifyError,
    Streamer.notify, hu, hlt, hnr, apply_ite]

theorem attemptReconnect_escalates (s : Streamer) (now : Nat) (env : ConnectEnv)
    (hst : s.state ≠ State.CONNECTING) (hf : env.fails)
    (hcnt : s.config.maxSendFailures ≤ s.reconnectFailureCount + 1)
    (hty : s.reconnectFailureCount + 1 < 2 ^ 32) :
    (s._attemptReconnect now env).state = State.ERROR ∧
    (s._attemptReconnect now env).restarted = true ∧
    (s._attemptReconnect now env).reconnectFailureCount = 0 ∧
    (s._attemptReconnect now env).forceCaptivePortal = s.forceCaptivePortal ++ [true] := by
  have hc := connect_fails s.transport env hf
  have hu : u32 (s.reconnectFailureCount + 1) = s.reconnectFailureCount + 1 :=
    Nat.mod_eq_of_lt hty
  simp [Streamer._attemptReconnect, hst, hc, Streamer._handleStreamError, Streamer._notifyError,
    Streamer.notify, hu, hcnt, apply_ite]

theorem attemptRun_append (a b : List (Nat × ConnectEnv)) :
    ∀ s : Streamer, attemptRun s (a ++ b) = attemptRun (attemptRun s a) b := by
  induction a with
  | nil => intro s; rfl
  | cons x r ih => intro s; exact ih (s._attemptReconnect x.1 x.2)

theorem attemptRun_below_threshold (attempts : List (Nat × ConnectEnv)) :
    ∀ s : Streamer, s.state ≠ State.CONNECTING → s.restarted = false →
      s.config.maxSendFailures < 2 ^ 32 →
      s.reconnectFailureCount + attempts.length < s.config.maxSendFailures →
      (∀ a ∈ attempts, a.2.fails) →
      (attemptRun s attempts).state ≠ State.CONNECTING ∧
      (attemptRun s attempts).restarted = false ∧
      (attemptRun s attempts).config = s.config ∧
      (attemptRun s attempts).reconnectFailureCount = s.reconnectFailureCount + attempts.length ∧
      (attemptRun s attempts).forceCaptivePortal = s.forceCaptivePortal := by
  induction attempts with
  | nil => intro s hst hnr _ _ _; exact ⟨hst, hnr, rfl, rfl, rfl⟩
  | cons a r ih =>
      intro s hst hnr hty hlen hfail
      simp only [List.length_cons] at hlen
      obtain ⟨b1, b2, b3, b4, b5⟩ := attemptReconnect_fails_quietly s a.1 a.2 hst
        (hfail a (List.mem_cons_self _ _)) hnr (by omega) hty
      obtain ⟨c1, c2, c3, c4, c5⟩ := ih (s._attemptReconnect a.1 a.2) (by simp [b1]) b2
        (by rw [b3]; exact hty) (by rw [b3, b4]; omega)
        (fun x hx => hfail x (List.mem_cons_of_mem _ hx))
      refine ⟨c1, c2, c3.trans b3, ?_, c5.trans b5⟩
      simp only [attemptRun, List.length_cons]
      rw [c4, b4]
      omega

/-- C11. For every `maxSendFailures >= 1`, starting from a connect-failure counter of `0`,
a run of exactly `maxSendFailures` consecutive failed connect attempts escalates exactly once:
after each of the earlier failures the force-captive-portal flag has not been written, the
device has not restarted and the counter equals the number of failures so far; the last
failure writes the flag once (to `true`), restarts the device and leaves the counter at `0`;
a connect success immediately afterwards keeps the counter at `0`. -/
theorem escalation_on_last_failure (s : Streamer) (attempts : List (Nat × ConnectEnv))
    (hst : s.state ≠ State.CONNECTING) (hnr : s.restarted = false)
    (hcnt : s.reconnectFailureCount = 0)
    (hmax : 1 ≤ s.config.maxSendFailures) (hty : s.config.maxSendFailures < 2 ^ 32)
    (hlen : attempts.length = s.config.maxSendFailures)
    (hfail : ∀ a ∈ attempts, a.2.fails) :
    (∀ k, k < attempts.length →
      (attemptRun s (attempts.take k)).forceCaptivePortal = s.forceCaptivePortal ∧
      (attemptRun s (attempts.take k)).restarted = false ∧
      (attemptRun s (attempts.take k)).reconnectFailureCount = k) ∧
    (attemptRun s attempts).forceCaptivePortal = s.forceCaptivePortal ++ [true] ∧
    (attemptRun s attempts).restarted = true ∧
    (attemptRun s attempts).reconnectFailureCount = 0 ∧
    (∀ (now : Nat) (env : ConnectEnv),
      ((attemptRun s attempts).transport.connect env).1 = true →
      ((attemptRun s attempts)._attemptReconnect now env).reconnectFailureCount = 0) := by
  have hpre : ∀ k, k < attempts.length →
      (attemptRun s (attempts.take k)).state ≠ State.CONNECTING ∧
      (attemptRun s (attempts.take k)).restarted = false ∧
      (attemptRun s (attempts.take k)).config = s.config ∧
      (attemptRun s (attempts.take k)).reconnectFailureCount = k ∧
      (attemptRun s (attempts.take k)).forceCaptivePortal = s.forceCaptivePortal := by
    intro k hk
    have hl : (attempts.take k).length = k := by
      rw [List.length_take]
      omega
    have h := attemptRun_below_threshold (attempts.take k) s hst hnr hty (by rw [hl, hcnt]; omega)
      (fun a ha => hfail a (List.mem_of_mem_take ha))
    rw [hl, hcnt, Nat.zero_add] at h
    exact h
  obtain ⟨last, hlast⟩ : ∃ last, attempts = attempts.take (attempts.length - 1) ++ [last] := by
    have hne : attempts ≠ [] := by
      intro h
      rw [h] at hlen
      simp at hlen
      omega
    refine ⟨attempts.getLast hne, ?_⟩
    rw [← List.dropLast_eq_take]
    exact (List.dropLast_append_getLast hne).symm
  obtain ⟨p1, _, p3, p4, p5⟩ := hpre (attempts.length - 1) (by omega)
  have hrun : attemptRun s attempts
      = (attemptRun s (attempts.take (attempts.length - 1)))._attemptReconnect last.1 last.2 := by
    conv_lhs => rw [hlast]
    rw [attemptRun_append]
    rfl
  have hlastfail : last.2.fails := hfail last (by rw [hlast]; simp)
  obtain ⟨e1, e2, e3, e4⟩ := attemptReconnect_escalates
    (attemptRun s (attempts.take (attempts.length - 1))) last.1 last.2 p1 hlastfail
    (by rw [p3, p4]; omega) (by rw [p4]; omega)
  refine ⟨fun k hk => ?_, ?_, ?_, ?_, ?_⟩
  · obtain ⟨_, q2, _, q4, q5⟩ := hpre k hk
    exact ⟨q5, q2, q4⟩
  · rw [hrun, e4, p5]
  · rw [hrun, e2]
  · rw [hrun, e3]
  · intro now env hok
    have hstf : (attemptRun s attempts).state ≠ State.CONNECTING := by
      rw [hrun, e1]
      simp
    exact (attemptReconnect_succeeds (attemptRun s attempts) now env hstf hok).2.1

theorem escalation_on_last_failure_witness :
    (attemptRun (Streamer.create {} startOk)
        [(0, connectFail), (5000, connectFail)]).forceCaptivePortal = [] ∧
    (attemptRun (Streamer.create {} startOk)
        [(0, connectFail), (5000, connectFail), (15000, connectFail)]).forceCaptivePortal = [true] ∧
    (attemptRun (Streamer.create {} startOk)
        [(0, connectFail), (5000, connectFail), (15000, connectFail)]).restarted = true ∧
    (attemptRun (Streamer.create {} startOk)
        [(0, connectFail), (5000, connectFail), (15000, connectFail)]).reconnectFailureCount = 0 := by
  have h := escalation_on_last_failure (Streamer.create {} startOk)
    [(0, connectFail), (5000, connectFail), (15000, connectFail)]
    (by decide) (by decide) (by decide) (by decide) (by decide) (by decide) (by decide)
  exact ⟨(h.1 2 (by decide)).1, h.2.1, h.2.2.1, h.2.2.2.1⟩

/-! ## Metrics -/

theorem toInt32_of_lt (n : Nat) (h : n < 2 ^ 31) : toInt32 n = (n : Int) := by
  have h1 : n % 2 ^ 32 = n := Nat.mod_eq_of_lt (by omega)
  simp only [toInt32, h1]
  rw [if_pos (by omega)]

theorem sub32_of_le (a b : Nat) (ha : a < 2 ^ 32) (hb : b ≤ a) : sub32 a b = a - b := by
  unfold sub32
  omega

/-- C20. `Streamer::_updateMetrics`: with no baseline yet (`_lastMetricsUpdate == 0`) it only
records the current time as baseline and emits nothing. With a baseline and
`elapsed = now - baseline` (a `long`), it emits `onMetricsUpdate` exactly when
`elapsed >= 900` and `elapsed >= metricsUpdateInterval`; when it emits it passes the
per-interval frame count accumulated so far together with the cumulative byte count, then
sets the per-interval count to `0` and the baseline to `now`; when it does not emit, nothing
changes. The last two parts relate the `long` arithmetic to the plain difference when the
clock has not wrapped since the baseline. -/
theorem updateMetrics_behaviour (s : Streamer) (now : Nat) :
    (s.lastMetricsUpdate = 0 → s._updateMetrics now = { s with lastMetricsUpdate := u32 now }) ∧
    (s.lastMetricsUpdate ≠ 0 →
      ((900 ≤ toInt32 (sub32 now s.lastMetricsUpdate) ∧
          toInt32 s.config.metricsUpdateInterval ≤ toInt32 (sub32 now s.lastMetricsUpdate)) →
        s._updateMetrics now =
          { s with events := s.events ++
                     (if s.eventsHandler then
                        [Event.onMetricsUpdate s.currentFPS s.totalBytesSent] else []),
                   currentFPS := 0,
                   lastMetricsUpdate := u32 now }) ∧
      (¬ (900 ≤ toInt32 (sub32 now s.lastMetricsUpdate) ∧
          toInt32 s.config.metricsUpdateInterval ≤ toInt32 (sub32 now s.lastMetricsUpdate)) →
        s._updateMetrics now = s)) ∧
    (now < 2 ^ 32 → s.lastMetricsUpdate ≤ now → now - s.lastMetricsUpdate < 2 ^ 31 →
      toInt32 (sub32 now s.lastMetricsUpdate) = ((now - s.lastMetricsUpdate : Nat) : Int) ∧
      u32 now = now) ∧
    (s.config.metricsUpdateInterval < 2 ^ 31 →
      toInt32 s.config.metricsUpdateInterval = (s.config.metricsUpdateInterval : Int)) := by
  refine ⟨?_, ?_, ?_, ?_⟩
  · intro h0
    simp [Streamer._updateMetrics, h0]
  · intro h0
    refine ⟨?_, ?_⟩
    · rintro ⟨h1, h2⟩
      have h1' : ¬ toInt32 (sub32 now s.lastMetricsUpdate) < 900 := not_lt.mpr h1
      cases he : s.eventsHandler <;>
        simp [Streamer._updateMetrics, h0, h1', h2, Streamer._notifyMetricsUpdate,
          Streamer.notify, he]
    · intro hn
      by_cases h1 : toInt32 (sub32 now s.lastMetricsUpdate) < 900
      · simp [Streamer._updateMetrics, h0, h1]
      · have h2 : ¬ toInt32 s.config.metricsUpdateInterval
            ≤ toInt32 (sub32 now s.lastMetricsUpdate) := fun h => hn ⟨not_lt.mp h1, h⟩
        simp [Streamer._updateMetrics, h0, h1, h2]
  · intro hn hle hd
    rw [sub32_of_le now _ hn hle, toInt32_of_lt _ hd]
    exact ⟨rfl, Nat.mod_eq_of_lt hn⟩
  · intro hi
    exact toInt32_of_lt _ hi

theorem updateMetrics_behaviour_witness :
    (bootStreaming._updateMetrics 6000).lastMetricsUpdate = 6000 ∧
    (bootStreaming._updateMetrics 6000).events = [] ∧
    (({ oneQueued.setEventsHandler with lastMetricsUpdate := 6000 })._updateMetrics 7000).events
      = [Event.onMetricsUpdate 1 10] ∧
    ({ oneQueued.setEventsHandler with lastMetricsUpdate := 6000 })._updateMetrics 6950
      = { oneQueued.setEventsHandler with lastMetricsUpdate := 6000 } := by
  have h0 := (updateMetrics_behaviour bootStreaming 6000).1 (by decide)
  have h1 := ((updateMetrics_behaviour
    ({ oneQueued.setEventsHandler with lastMetricsUpdate := 6000 }) 7000).2.1 (by decide)).1
    (by decide)
  have h2 := ((updateMetrics_behaviour
    ({ oneQueued.setEventsHandler with lastMetricsUpdate := 6000 }) 6950).2.1 (by decide)).2
    (by decide)
  refine ⟨by rw [h0]; rfl, by rw [h0]; rfl, by rw [h1]; rfl, h2⟩

/-! ## The sender's queue: order of transmission and capacity -/

theorem sendFrame_accepted (s : Streamer) (fb : Option Frame) (header : List Char)
    (headerLen now : Nat) (h : (s.sendFrame fb header headerLen now).1 = true) :
    ∃ f q, fb = some f ∧ s.taskSender.queue = some q ∧ s.taskSender.isRunning = true ∧
      headerLen ≤ 255 ∧ q.length < s.config.taskQueueSize ∧
      (s.sendFrame fb header headerLen now).2 =
        { s with taskSender.queue := some (q ++
            [{ fb := some f, headerLen := headerLen, timestamp := now,
               header := header.take headerLen }]) } := by
  unfold Streamer.sendFrame at h ⊢
  cases hr : s.taskSender.isRunning with
  | false => simp [hr] at h
  | true =>
      cases hq : s.taskSender.queue with
      | none => simp [hr, hq] at h
      | some q =>
          cases hf : fb with
          | none => simp [hr, hq, hf] at h
          | some f =>
              by_cases h1 : headerLen > 255
              · simp [hr, hq, hf, h1] at h
              · by_cases h2 : q.length < s.config.taskQueueSize
                · refine ⟨f, q, rfl, rfl, rfl, by omega, h2, ?_⟩
                  simp [h1, h2]
                · simp [hr, hq, hf, h1, h2] at h

theorem sendFrame_rejected (s : Streamer) (fb : Option Frame) (header : List Char)
    (headerLen now : Nat) (h : (s.sendFrame fb header headerLen now).1 = false) :
    (s.sendFrame fb header headerLen now).2.taskSender = s.taskSender ∧
    (s.sendFrame fb header headerLen now).2.transport = s.transport ∧
    (s.sendFrame fb header headerLen now).2.config = s.config := by
  unfold Streamer.sendFrame at h ⊢
  cases hr : s.taskSender.isRunning with
  | false => simp
  | true =>
      cases hq : s.taskSender.queue with
      | none => simp
      | some q =>
          cases hf : fb with
          | none => simp
          | some f =>
              by_cases h1 : headerLen > 255
              · simp [h1, esp_camera_fb_return]
              · by_cases h2 : q.length < s.config.taskQueueSize
                · simp [hr, hq, hf, h1, h2] at h
                · simp [h1, h2, esp_camera_fb_return]

theorem toInt32_toNat_of_lt (n : Nat) (h : n < 2 ^ 31) : (toInt32 n).toNat = n := by
  rw [toInt32_of_lt n h]
  exact Int.toNat_natCast n

theorem taskBody_complete (s : Streamer) (now : Nat) (c : FrameChunk) (rest : List FrameChunk)
    (f : Frame) (cl : Nat) (resultH resultP : Int)
    (hq : s.taskSender.queue = some (c :: rest))
    (hrun : s.taskSender.isRunning = true)
    (hfb : c.fb = some f)
    (hconn : s.transport.isConnected = true)
    (hcl : s.transport.getHttpClient = some cl)
    (hH : resultH = toInt32 c.headerLen) (hP : resultP = toInt32 f.len)
    (hhl : c.headerLen ≤ 255) (hfl : f.len < 2 ^ 31) :
    ∃ s', s.taskBody now resultH resultP = some s' ∧
      s'.taskSender.queue = some rest ∧
      s'.taskSender.isRunning = true ∧
      s'.transport.isConnected = true ∧
      s'.transport.getHttpClient = some cl ∧
      s'.transport.httpClient.wire = s.transport.httpClient.wire ++ chunkBytes c ∧
      s'.config = s.config := by
  simp only [HttpStreamTransport.isConnected, HttpStreamTransport.getHttpClient] at hconn hcl ⊢
  have hn1 := toInt32_toNat_of_lt c.headerLen (by omega)
  have hn2 := toInt32_toNat_of_lt f.len hfl
  by_cases h0 : c.headerLen = 0
  · simp [Streamer.taskBody, hq, hrun, hfb, h0, Streamer.workerSend, HttpStreamTransport.send,
      hconn, hcl, hP, esp_camera_fb_return, chunkBytes, hn2]
  · have hpos : 0 < c.headerLen := Nat.pos_of_ne_zero h0
    simp [Streamer.taskBody, hq, hrun, hfb, hpos, Streamer.workerSend, HttpStreamTransport.send,
      hconn, hcl, hP, hH, esp_camera_fb_return, chunkBytes, hn1, hn2]

theorem pendingBytes_append (a b : List FrameChunk) :
    pendingBytes (a ++ b) = pendingBytes a ++ pendingBytes b := by
  induction a with
  | nil => rfl
  | cons c r ih => simp [pendingBytes, ih]

theorem chunkBytes_of_offer (f : Frame) (header : List Char) (headerLen now : Nat) :
    chunkBytes { fb := some f, headerLen := headerLen, timestamp := now,
                 header := header.take headerLen }
      = offeredBytes (some f) header headerLen := by
  simp only [chunkBytes, offeredBytes]
  rw [List.take_of_length_le]
  rw [List.length_map, List.length_take]
  exact Nat.min_le_left _ _

theorem runSender_fifo (ops : List SenderOp) :
    ∀ (s : Streamer) (q0 : List FrameChunk) (cl : Nat),
      s.taskSender.isRunning = true → s.taskSender.queue = some q0 →
      (∀ c ∈ q0, GoodChunk c) →
      s.transport.isConnected = true → s.transport.getHttpClient = some cl →
      streamsCleanly s ops = true →
      ∃ s' q, runSender s ops = some s' ∧ s'.taskSender.queue = some q ∧
        s'.transport.httpClient.wire ++ pendingBytes q
          = s.transport.httpClient.wire ++ pendingBytes q0 ++ acceptedBytes s ops := by
  induction ops with
  | nil =>
      intro s q0 cl _ hq _ _ _ _
      exact ⟨s, q0, rfl, hq, by simp [acceptedBytes]⟩
  | cons op r ih =>
      intro s q0 cl hrun hq hgood hconn hcl hclean
      cases op with
      | enqueue fb header headerLen now =>
          simp only [streamsCleanly, SenderOp.apply, Bool.and_eq_true] at hclean
          obtain ⟨hlen, hrest⟩ := hclean
          cases hacc : (s.sendFrame fb header headerLen now).1 with
          | true =>
              obtain ⟨f, q, hf, hq', _, hh, _, hs1⟩ := sendFrame_accepted s fb header headerLen now hacc
              have hqq : q = q0 := by
                rw [hq] at hq'
                exact (Option.some.inj hq').symm
              subst hqq
              subst hf
              have hfl : f.len < 2 ^ 31 := by simpa using hlen
              let ck : FrameChunk := ⟨some f, header.take headerLen, headerLen, now⟩
              have hgood1 : ∀ c ∈ q ++ [ck], GoodChunk c := by
                intro c hc
                rcases List.mem_append.mp hc with h | h
                · exact hgood c h
                · rw [List.mem_singleton.mp h]
                  exact ⟨hh, f, rfl, hfl⟩
              obtain ⟨s', q', h1, h2, h3⟩ := ih (s.sendFrame (some f) header headerLen now).2
                (q ++ [ck]) cl
                (by rw [hs1]; exact hrun) (by rw [hs1]) hgood1
                (by rw [hs1]; exact hconn) (by rw [hs1]; exact hcl) hrest
              refine ⟨s', q', by simpa [runSender, SenderOp.apply] using h1, h2, ?_⟩
              have hw : (s.sendFrame (some f) header headerLen now).2.transport = s.transport := by
                rw [hs1]
              have hck : pendingBytes [ck] = offeredBytes (some f) header headerLen := by
                simp only [pendingBytes, List.append_nil]
                exact chunkBytes_of_offer f header headerLen now
              rw [h3, pendingBytes_append, hw, hck]
              simp [acceptedBytes, SenderOp.apply, hacc]
          | false =>
              obtain ⟨e1, e2, _⟩ := sendFrame_rejected s fb header headerLen now hacc
              obtain ⟨s', q', h1, h2, h3⟩ := ih (s.sendFrame fb header headerLen now).2 q0 cl
                (by rw [e1]; exact hrun) (by rw [e1]; exact hq) hgood
                (by rw [e2]; exact hconn) (by rw [e2]; exact hcl) hrest
              refine ⟨s', q', by simpa [runSender, SenderOp.apply] using h1, h2, ?_⟩
              rw [h3, e2]
              simp [acceptedBytes, SenderOp.apply, hacc]
      | work now resultH resultP =>
          simp only [streamsCleanly, SenderOp.apply, Bool.and_eq_true] at hclean
          obtain ⟨hhead, hrest⟩ := hclean
          cases q0 with
          | nil =>
              have hb : s.taskFunction now resultH resultP = some s := by
                simp [Streamer.taskFunction, hrun, Streamer.taskBody, hq]
              rw [hb] at hrest
              obtain ⟨s', q', h1, h2, h3⟩ := ih s [] cl hrun hq hgood hconn hcl hrest
              refine ⟨s', q', by simpa [runSender, SenderOp.apply, hb] using h1, h2, ?_⟩
              rw [h3]
              simp [acceptedBytes, SenderOp.apply, hb]
          | cons c rest =>
              obtain ⟨hh, f, hf, hfl⟩ := hgood c (List.mem_cons_self _ _)
              simp only [headWritesComplete, hq, hf, Bool.and_eq_true, decide_eq_true_eq] at hhead
              obtain ⟨s1, b1, b2, b3, b4, b5, b6, _⟩ := taskBody_complete s now c rest f cl
                resultH resultP hq hrun hf hconn hcl hhead.1 hhead.2 hh hfl
              have hb : s.taskFunction now resultH resultP = some s1 := by
                simp [Streamer.taskFunction, hrun, b1]
              rw [hb] at hrest
              obtain ⟨s', q', h1, h2, h3⟩ := ih s1 rest cl b3 b2
                (fun x hx => hgood x (List.mem_cons_of_mem _ hx)) b4 b5 hrest
              refine ⟨s', q', by simpa [runSender, SenderOp.apply, hb] using h1, h2, ?_⟩
              rw [h3, b6]
              simp [acceptedBytes, SenderOp.apply, hb, pendingBytes]
      | stop =>
          simp [streamsCleanly] at hclean

theorem runSender_served (ops : List SenderOp) :
    ∀ (s : Streamer) (q0 : List FrameChunk) (cl : Nat),
      s.taskSender.isRunning = true → s.taskSender.queue = some q0 →
      (∀ c ∈ q0, GoodChunk c) →
      s.transport.isConnected = true → s.transport.getHttpClient = some cl →
      streamsCleanly s ops = true →
      ∃ s' q, runSender s ops = some s' ∧ s'.taskSender.queue = some q ∧
        s'.taskSender.isRunning = true ∧ s'.transport.isConnected = true ∧
        s'.transport.getHttpClient = some cl ∧ (∀ c ∈ q, GoodChunk c) ∧
        servedTurns s ops ≤ (q0.map chunkBytes ++ acceptedOffers s ops).length ∧
        s'.transport.httpClient.wire
          = s.transport.httpClient.wire ++
              blockBytes ((q0.map chunkBytes ++ acceptedOffers s ops).take (servedTurns s ops)) ∧
        q.map chunkBytes
          = (q0.map chunkBytes ++ acceptedOffers s ops).drop (servedTurns s ops) := by
  induction ops with
  | nil =>
      intro s q0 cl hrun hq hgood hconn hcl _
      exact ⟨s, q0, rfl, hq, hrun, hconn, hcl, hgood, by simp [servedTurns],
        by simp [servedTurns, blockBytes], by simp [servedTurns, acceptedOffers]⟩
  | cons op r ih =>
      intro s q0 cl hrun hq hgood hconn hcl hclean
      cases op with
      | enqueue fb header headerLen now =>
          simp only [streamsCleanly, SenderOp.apply, Bool.and_eq_true] at hclean
          obtain ⟨hlen, hrest⟩ := hclean
          cases hacc : (s.sendFrame fb header headerLen now).1 with
          | true =>
              obtain ⟨f, q, hf, hq', _, hh, _, hs1⟩ :=
                sendFrame_accepted s fb header headerLen now hacc
              have hqq : q = q0 := by
                rw [hq] at hq'
                exact (Option.some.inj hq').symm
              subst hqq
              subst hf
              have hfl : f.len < 2 ^ 31 := by simpa using hlen
              let ck : FrameChunk := ⟨some f, header.take headerLen, headerLen, now⟩
              have hgood1 : ∀ c ∈ q ++ [ck], GoodChunk c := by
                intro c hc
                rcases List.mem_append.mp hc with h | h
                · exact hgood c h
                · rw [List.mem_singleton.mp h]
                  exact ⟨hh, f, rfl, hfl⟩
              obtain ⟨s', q', h1, h2, h3, h4, h5, h6, h7, h8, h9⟩ :=
                ih (s.sendFrame (some f) header headerLen now).2 (q ++ [ck]) cl
                  (by rw [hs1]; exact hrun) (by rw [hs1]) hgood1
                  (by rw [hs1]; exact hconn) (by rw [hs1]; exact hcl) hrest
              have hw : (s.sendFrame (some f) header headerLen now).2.transport = s.transport := by
                rw [hs1]
              have hck : chunkBytes ck = offeredBytes (some f) header headerLen :=
                chunkBytes_of_offer f header headerLen now
              have hB : (q ++ [ck]).map chunkBytes ++
                    acceptedOffers (s.sendFrame (some f) header headerLen now).2 r
                  = q.map chunkBytes ++
                    acceptedOffers s (SenderOp.enqueue (some f) header headerLen now :: r) := by
                simp [acceptedOffers, SenderOp.apply, hacc, hck]
              have hk : servedTurns s (SenderOp.enqueue (some f) header headerLen now :: r)
                  = servedTurns (s.sendFrame (some f) header headerLen now).2 r := by
                simp [servedTurns, SenderOp.apply]
              rw [hB] at h7 h8 h9
              rw [hw] at h8
              rw [← hk] at h7 h8 h9
              exact ⟨s', q', by simpa [runSender, SenderOp.apply] using h1, h2, h3, h4, h5, h6,
                h7, h8, h9⟩
          | false =>
              obtain ⟨e1, e2, _⟩ := sendFrame_rejected s fb header headerLen now hacc
              obtain ⟨s', q', h1, h2, h3, h4, h5, h6, h7, h8, h9⟩ :=
                ih (s.sendFrame fb header headerLen now).2 q0 cl
                  (by rw [e1]; exact hrun) (by rw [e1]; exact hq) hgood
                  (by rw [e2]; exact hconn) (by rw [e2]; exact hcl) hrest
              have hB : acceptedOffers (s.sendFrame fb header headerLen now).2 r
                  = acceptedOffers s (SenderOp.enqueue fb header headerLen now :: r) := by
                simp [acceptedOffers, SenderOp.apply, hacc]
              have hk : servedTurns s (SenderOp.enqueue fb header headerLen now :: r)
                  = servedTurns (s.sendFrame fb header headerLen now).2 r := by
                simp [servedTurns, SenderOp.apply]
              rw [hB] at h7 h8 h9
              rw [e2] at h8
              rw [← hk] at h7 h8 h9
              exact ⟨s', q', by simpa [runSender, SenderOp.apply] using h1, h2, h3, h4, h5, h6,
                h7, h8, h9⟩
      | work now resultH resultP =>
          simp only [streamsCleanly, SenderOp.apply, Bool.and_eq_true] at hclean
          obtain ⟨hhead, hrest⟩ := hclean
          cases q0 with
          | nil =>
              have hb : s.taskFunction now resultH resultP = some s := by
                simp [Streamer.taskFunction, hrun, Streamer.taskBody, hq]
              rw [hb] at hrest
              obtain ⟨s', q', h1, h2, h3, h4, h5, h6, h7, h8, h9⟩ :=
                ih s [] cl hrun hq hgood hconn hcl hrest
              have hB : acceptedOffers s r
                  = acceptedOffers s (SenderOp.work now resultH resultP :: r) := by
                simp [acceptedOffers, SenderOp.apply, hb]
              have hk : servedTurns s (SenderOp.work now resultH resultP :: r)
                  = servedTurns s r := by
                simp [servedTurns, SenderOp.apply, hb, hq]
              rw [hB] at h7 h8 h9
              rw [← hk] at h7 h8 h9
              exact ⟨s', q', by simpa [runSender, SenderOp.apply, hb] using h1, h2, h3, h4, h5,
                h6, h7, h8, h9⟩
          | cons c rest =>
              obtain ⟨hh, f, hf, hfl⟩ := hgood c (List.mem_cons_self _ _)
              simp only [headWritesComplete, hq, hf, Bool.and_eq_true, decide_eq_true_eq] at hhead
              obtain ⟨s1, b1, b2, b3, b4, b5, b6, _⟩ := taskBody_complete s now c rest f cl
                resultH resultP hq hrun hf hconn hcl hhead.1 hhead.2 hh hfl
              have hb : s.taskFunction now resultH resultP = some s1 := by
                simp [Streamer.taskFunction, hrun, b1]
              rw [hb] at hrest
              obtain ⟨s', q', h1, h2, h3, h4, h5, h6, h7, h8, h9⟩ := ih s1 rest cl b3 b2
                (fun x hx => hgood x (List.mem_cons_of_mem _ hx)) b4 b5 hrest
              have hB : acceptedOffers s1 r
                  = acceptedOffers s (SenderOp.work now resultH resultP :: r) := by
                simp [acceptedOffers, SenderOp.apply, hb]
              have hk : servedTurns s (SenderOp.work now resultH resultP :: r)
                  = servedTurns s1 r + 1 := by
                simp [servedTurns, SenderOp.apply, hb, hq, Nat.add_comm]
              rw [hB] at h7 h8 h9
              refine ⟨s', q', by simpa [runSender, SenderOp.apply, hb] using h1, h2, h3, h4, h5,
                h6, ?_, ?_, ?_⟩
              · rw [hk]
                simp only [List.map_cons, List.cons_append, List.length_cons]
                omega
              · rw [hk, h8, b6]
                simp [blockBytes, List.append_assoc]
              · rw [hk, h9]
                simp
      | stop =>
          simp [streamsCleanly] at hclean

theorem servedTurns_drains (turns : List SenderOp) :
    ∀ (s : Streamer) (q0 : List FrameChunk) (cl : Nat),
      s.taskSender.isRunning = true → s.taskSender.queue = some q0 →
      (∀ c ∈ q0, GoodChunk c) →
      s.transport.isConnected = true → s.transport.getHttpClient = some cl →
      turns.all SenderOp.isWork = true → streamsCleanly s turns = true →
      q0.length ≤ turns.length →
      (q0.map chunkBytes ++ acceptedOffers s turns).length ≤ servedTurns s turns := by
  induction turns with
  | nil =>
      intro s q0 cl _ _ _ _ _ _ _ hlen
      have : q0 = [] := List.eq_nil_of_length_eq_zero (Nat.le_zero.mp hlen)
      subst this
      simp [acceptedOffers]
  | cons op r ih =>
      intro s q0 cl hrun hq hgood hconn hcl hall hclean hlen
      cases op with
      | enqueue fb header headerLen now => simp [SenderOp.isWork] at hall
      | stop => simp [SenderOp.isWork] at hall
      | work now resultH resultP =>
          have hall1 : r.all SenderOp.isWork = true := by
            simp only [List.all_cons, Bool.and_eq_true] at hall
            exact hall.2
          simp only [streamsCleanly, SenderOp.apply, Bool.and_eq_true] at hclean
          obtain ⟨hhead, hrest⟩ := hclean
          cases q0 with
          | nil =>
              have hb : s.taskFunction now resultH resultP = some s := by
                simp [Streamer.taskFunction, hrun, Streamer.taskBody, hq]
              rw [hb] at hrest
              have h := ih s [] cl hrun hq hgood hconn hcl hall1 hrest (Nat.zero_le _)
              have hB : acceptedOffers s (SenderOp.work now resultH resultP :: r)
                  = acceptedOffers s r := by
                simp [acceptedOffers, SenderOp.apply, hb]
              have hk : servedTurns s (SenderOp.work now resultH resultP :: r)
                  = servedTurns s r := by
                simp [servedTurns, SenderOp.apply, hb, hq]
              rw [hB, hk]
              exact h
          | cons c rest =>
              obtain ⟨hh, f, hf, hfl⟩ := hgood c (List.mem_cons_self _ _)
              simp only [headWritesComplete, hq, hf, Bool.and_eq_true, decide_eq_true_eq] at hhead
              obtain ⟨s1, b1, b2, b3, b4, b5, _, _⟩ := taskBody_complete s now c rest f cl
                resultH resultP hq hrun hf hconn hcl hhead.1 hhead.2 hh hfl
              have hb : s.taskFunction now resultH resultP = some s1 := by
                simp [Streamer.taskFunction, hrun, b1]
              rw [hb] at hrest
              have hlen1 : rest.length ≤ r.length := by
                simp only [List.length_cons] at hlen
                omega
              have h := ih s1 rest cl b3 b2 (fun x hx => hgood x (List.mem_cons_of_mem _ hx))
                b4 b5 hall1 hrest hlen1
              have hB : acceptedOffers s (SenderOp.work now resultH resultP :: r)
                  = acceptedOffers s1 r := by
                simp [acceptedOffers, SenderOp.apply, hb]
              have hk : servedTurns s (SenderOp.work now resultH resultP :: r)
                  = servedTurns s1 r + 1 := by
                simp [servedTurns, SenderOp.apply, hb, hq, Nat.add_comm]
              rw [hB, hk]
              simp only [List.map_cons, List.cons_append, List.length_cons]
              omega

theorem servedTurns_after_offers (offers turns : List SenderOp) :
    ∀ (s : Streamer) (q0 : List FrameChunk) (cl : Nat),
      s.taskSender.isRunning = true → s.taskSender.queue = some q0 →
      (∀ c ∈ q0, GoodChunk c) →
      s.transport.isConnected = true → s.transport.getHttpClient = some cl →
      offers.all SenderOp.isEnqueue = true → turns.all SenderOp.isWork = true →
      streamsCleanly s (offers ++ turns) = true →
      q0.length + offers.length ≤ turns.length →
      (q0.map chunkBytes ++ acceptedOffers s (offers ++ turns)).length
        ≤ servedTurns s (offers ++ turns) := by
  induction offers with
  | nil =>
      intro s q0 cl hrun hq hgood hconn hcl _ hall hclean hlen
      exact servedTurns_drains turns s q0 cl hrun hq hgood hconn hcl hall
        (by simpa using hclean) (by simpa using hlen)
  | cons op r ih =>
      intro s q0 cl hrun hq hgood hconn hcl hoff hall hclean hlen
      cases op with
      | work now resultH resultP => simp [SenderOp.isEnqueue] at hoff
      | stop => simp [SenderOp.isEnqueue] at hoff
      | enqueue fb header headerLen now =>
          have hoff1 : r.all SenderOp.isEnqueue = true := by
            simp only [List.all_cons, Bool.and_eq_true] at hoff
            exact hoff.2
          simp only [List.cons_append, streamsCleanly, SenderOp.apply, Bool.and_eq_true]
            at hclean
          obtain ⟨hfit, hrest⟩ := hclean
          simp only [List.length_cons] at hlen
          cases hacc : (s.sendFrame fb header headerLen now).1 with
          | true =>
              obtain ⟨f, q, hf, hq', _, hh, _, hs1⟩ :=
                sendFrame_accepted s fb header headerLen now hacc
              have hqq : q = q0 := by
                rw [hq] at hq'
                exact (Option.some.inj hq').symm
              subst hqq
              subst hf
              have hfl : f.len < 2 ^ 31 := by simpa using hfit
              let ck : FrameChunk := ⟨some f, header.take headerLen, headerLen, now⟩
              have hgood1 : ∀ c ∈ q ++ [ck], GoodChunk c := by
                intro c hc
                rcases List.mem_append.mp hc with h | h
                · exact hgood c h
                · rw [List.mem_singleton.mp h]
                  exact ⟨hh, f, rfl, hfl⟩
              have h := ih (s.sendFrame (some f) header headerLen now).2 (q ++ [ck]) cl
                (by rw [hs1]; exact hrun) (by rw [hs1]) hgood1
                (by rw [hs1]; exact hconn) (by rw [hs1]; exact hcl) hoff1 hall hrest
                (by simp only [List.length_append, List.length_singleton]; omega)
              have hk : servedTurns s
                    (SenderOp.enqueue (some f) header headerLen now :: (r ++ turns))
                  = servedTurns (s.sendFrame (some f) header headerLen now).2 (r ++ turns) := by
                simp [servedTurns, SenderOp.apply]
              have hB : (q.map chunkBytes ++ acceptedOffers s
                    (SenderOp.enqueue (some f) header headerLen now :: (r ++ turns))).length
                  = ((q ++ [ck]).map chunkBytes ++
                      acceptedOffers (s.sendFrame (some f) header headerLen now).2
                        (r ++ turns)).length := by
                simp [acceptedOffers, SenderOp.apply, hacc]
              rw [List.cons_append, hk, hB]
              exact h
          | false =>
              obtain ⟨e1, e2, _⟩ := sendFrame_rejected s fb header headerLen now hacc
              have h := ih (s.sendFrame fb header headerLen now).2 q0 cl
                (by rw [e1]; exact hrun) (by rw [e1]; exact hq) hgood
                (by rw [e2]; exact hconn) (by rw [e2]; exact hcl) hoff1 hall hrest (by omega)
              have hk : servedTurns s (SenderOp.enqueue fb header headerLen now :: (r ++ turns))
                  = servedTurns (s.sendFrame fb header headerLen now).2 (r ++ turns) := by
                simp [servedTurns, SenderOp.apply]
              have hB : acceptedOffers s
                    (SenderOp.enqueue fb header headerLen now :: (r ++ turns))
                  = acceptedOffers (s.sendFrame fb header headerLen now).2 (r ++ turns) := by
                simp [acceptedOffers, SenderOp.apply, hacc]
              rw [List.cons_append, hk, hB]
              exact h

theorem blockBytes_append (a b : List (List Nat)) :
    blockBytes (a ++ b) = blockBytes a ++ blockBytes b := by
  induction a with
  | nil => rfl
  | cons x xs ihx => simp [blockBytes, ihx]

theorem pendingBytes_eq_blockBytes (q : List FrameChunk) :
    pendingBytes q = blockBytes (q.map chunkBytes) := by
  induction q with
  | nil => rfl
  | cons c r ih => simp [pendingBytes, blockBytes, ih]

theorem blockBytes_acceptedOffers (ops : List SenderOp) :
    ∀ s : Streamer, blockBytes (acceptedOffers s ops) = acceptedBytes s ops := by
  induction ops with
  | nil => intro s; rfl
  | cons op r ih =>
      intro s
      simp only [acceptedOffers, acceptedBytes, blockBytes_append]
      congr 1
      · cases op with
        | enqueue fb header headerLen now =>
            dsimp only
            split <;> simp [blockBytes]
        | work now resultH resultP => rfl
        | stop => rfl
      · cases h : op.apply s with
        | none => rfl
        | some s1 => exact ih s1

/-- C13. Starting with an empty queue on a connected transport, take any run of `sendFrame`
calls and worker turns in which all writes succeed (and the sender is not stopped). Every
worker turn that finds a chunk queued takes the oldest one and writes its bytes, so after
`k` such turns the bytes written to the transport are exactly the blocks of the first `k`
accepted calls, in call order, each block being the first `headerLen` header bytes passed to
the call followed by the frame's payload; the chunks still queued are the remaining accepted
calls, in order. In particular, when the run is a series of calls followed by at least as
many worker turns, the queue ends empty and the transport has received the concatenation of
all accepted blocks: nothing is reordered, skipped or interleaved. Frame lengths are taken
to fit the `int` parameter of the write. -/
theorem wire_is_fifo_of_accepted (s : Streamer) (ops : List SenderOp) (cl : Nat)
    (hrun : s.taskSender.isRunning = true) (hq : s.taskSender.queue = some [])
    (hconn : s.transport.isConnected = true) (hcl : s.transport.getHttpClient = some cl)
    (hclean : streamsCleanly s ops = true) :
    ∃ s' q, runSender s ops = some s' ∧ s'.taskSender.queue = some q ∧
      servedTurns s ops ≤ (acceptedOffers s ops).length ∧
      s'.transport.httpClient.wire
        = s.transport.httpClient.wire ++
            blockBytes ((acceptedOffers s ops).take (servedTurns s ops)) ∧
      q.map chunkBytes = (acceptedOffers s ops).drop (servedTurns s ops) ∧
      s'.transport.httpClient.wire ++ pendingBytes q
        = s.transport.httpClient.wire ++ acceptedBytes s ops ∧
      (q = [] →
        s'.transport.httpClient.wire = s.transport.httpClient.wire ++ acceptedBytes s ops) ∧
      (∀ offers turns : List SenderOp, ops = offers ++ turns →
        offers.all SenderOp.isEnqueue = true → turns.all SenderOp.isWork = true →
        offers.length ≤ turns.length →
        q = [] ∧
        s'.transport.httpClient.wire = s.transport.httpClient.wire ++ acceptedBytes s ops) := by
  obtain ⟨s', q, h1, h2, _, _, _, _, h7, h8, h9⟩ :=
    runSender_served ops s [] cl hrun hq (by simp) hconn hcl hclean
  simp only [List.map_nil, List.nil_append] at h7 h8 h9
  have hcons : s'.transport.httpClient.wire ++ pendingBytes q
      = s.transport.httpClient.wire ++ acceptedBytes s ops := by
    rw [pendingBytes_eq_blockBytes, h8, h9, List.append_assoc, ← blockBytes_append,
      List.take_append_drop, blockBytes_acceptedOffers]
  refine ⟨s', q, h1, h2, h7, h8, h9, hcons, ?_, ?_⟩
  · intro hq0
    subst hq0
    simpa [pendingBytes] using hcons
  · intro offers turns hops hoff hall hlen
    subst hops
    have hge := servedTurns_after_offers offers turns s [] cl hrun hq (by simp) hconn hcl
      hoff hall hclean (by simpa using hlen)
    simp only [List.map_nil, List.nil_append] at hge
    have hq0 : q = [] := by
      have hm : q.map chunkBytes = [] := by
        rw [h9]
        exact List.drop_eq_nil_of_le hge
      simpa using hm
    subst hq0
    exact ⟨rfl, by simpa [pendingBytes] using hcons⟩

theorem wire_is_fifo_of_accepted_witness :
    (servedTurns bootStreaming demoOps = 3 ∧
      acceptedOffers bootStreaming demoOps
        = [[97, 98, 10, 11, 12], [99, 100, 101, 20, 21], [102, 30]] ∧
      acceptedBytes bootStreaming demoOps
        = [97, 98, 10, 11, 12, 99, 100, 101, 20, 21, 102, 30] ∧
      (runSender bootStreaming demoOps).map
          (fun x => (x.taskSender.queue, x.transport.httpClient.wire))
        = some (some [], [97, 98, 10, 11, 12, 99, 100, 101, 20, 21, 102, 30]) ∧
      (runSender bootStreaming (demoOps.take 3)).map
          (fun x => (x.taskSender.queue.map (List.map chunkBytes),
            x.transport.httpClient.wire))
        = some (some [[99, 100, 101, 20, 21]], [97, 98, 10, 11, 12])) ∧
    (∃ s' q, runSender bootStreaming demoOps = some s' ∧ s'.taskSender.queue = some q ∧
      servedTurns bootStreaming demoOps ≤ (acceptedOffers bootStreaming demoOps).length ∧
      s'.transport.httpClient.wire
        = bootStreaming.transport.httpClient.wire ++
            blockBytes ((acceptedOffers bootStreaming demoOps).take
              (servedTurns bootStreaming demoOps)) ∧
      q.map chunkBytes
        = (acceptedOffers bootStreaming demoOps).drop (servedTurns bootStreaming demoOps) ∧
      s'.transport.httpClient.wire ++ pendingBytes q
        = bootStreaming.transport.httpClient.wire ++ acceptedBytes bootStreaming demoOps ∧
      (q = [] →
        s'.transport.httpClient.wire
          = bootStreaming.transport.httpClient.wire ++ acceptedBytes bootStreaming demoOps) ∧
      (∀ offers turns : List SenderOp, demoOps = offers ++ turns →
        offers.all SenderOp.isEnqueue = true → turns.all SenderOp.isWork = true →
        offers.length ≤ turns.length →
        q = [] ∧
        s'.transport.httpClient.wire
          = bootStreaming.transport.httpClient.wire ++ acceptedBytes bootStreaming demoOps)) ∧
    (∃ s', runSender bootStreaming drainDemo = some s' ∧ s'.taskSender.queue = some [] ∧
      s'.transport.httpClient.wire = [97, 98, 10, 11, 12, 99, 100, 101, 20, 21, 102, 30]) :=
  ⟨by decide,
   wire_is_fifo_of_accepted bootStreaming demoOps 1 (by decide) (by decide) (by decide)
     (by decide) (by decide),
   by
    obtain ⟨s', q, h1, h2, _, _, _, _, _, h8⟩ :=
      wire_is_fifo_of_accepted bootStreaming drainDemo 1 (by decide) (by decide) (by decide)
        (by decide) (by decide)
    obtain ⟨hq0, hw⟩ := h8 (demoOps.filter SenderOp.isEnqueue) (demoOps.filter SenderOp.isWork)
      rfl (by decide) (by decide) (by decide)
    subst hq0
    refine ⟨s', h1, h2, ?_⟩
    rw [hw]
    decide⟩

theorem workerSend_sender (s : Streamer) (now : Nat) (data : List Nat) (len : Nat)
    (result : Int) :
    (s.workerSend now data len result).2.taskSender.queue = s.taskSender.queue ∧
    (s.workerSend now data len result).2.taskSender.isRunning = s.taskSender.isRunning ∧
    (s.workerSend now data len result).2.config = s.config ∧
    (s.workerSend now data len result).2.totalBytesSent = s.totalBytesSent ∧
    (s.workerSend now data len result).2.totalFramesSent = s.totalFramesSent := by
  unfold Streamer.workerSend
  cases hok : (s.transport.send data len result).1 with
  | true => simp [hok]
  | false =>
      cases hh : s.taskSender.eventsHandler <;> cases he : s.eventsHandler <;>
        simp [Streamer._notifySendError, Streamer.onSendError,
          Streamer._handleSendError, Streamer._notifyError, Streamer.notify, hh, he, hok]

theorem taskBody_cons (s : Streamer) (now : Nat) (c : FrameChunk) (rest : List FrameChunk)
    (resultH resultP : Int)
    (hq : s.taskSender.queue = some (c :: rest)) (hrun : s.taskSender.isRunning = true) :
    s.taskBody now resultH resultP =
      Streamer.processChunk { s with taskSender.queue := some rest } now c resultH resultP := by
  unfold Streamer.taskBody Streamer.processChunk
  rw [hq]
  simp only [hrun, Bool.not_true, Bool.false_eq_true, if_false]

theorem processChunk_sender (s0 : Streamer) (now : Nat) (c : FrameChunk) (f : Frame)
    (resultH resultP : Int) (hfb : c.fb = some f) :
    ∃ s', s0.processChunk now c resultH resultP = some s' ∧
      s'.taskSender.queue = s0.taskSender.queue ∧
      s'.taskSender.isRunning = s0.taskSender.isRunning ∧
      s'.config = s0.config ∧
      s'.totalBytesSent = s0.totalBytesSent ∧
      s'.totalFramesSent = s0.totalFramesSent := by
  unfold Streamer.processChunk
  rw [hfb]
  have ha : ∀ a : Bool × Streamer,
      a = (if c.headerLen > 0 then
             s0.workerSend now (c.header.map Char.toNat) c.headerLen resultH
           else (true, s0)) →
      (a.2.taskSender.queue = s0.taskSender.queue ∧
        a.2.taskSender.isRunning = s0.taskSender.isRunning ∧
        a.2.config = s0.config ∧ a.2.totalBytesSent = s0.totalBytesSent ∧
        a.2.totalFramesSent = s0.totalFramesSent) := by
    intro a hdef
    by_cases h0 : c.headerLen > 0
    · rw [if_pos h0] at hdef
      rw [hdef]
      exact workerSend_sender s0 now (c.header.map Char.toNat) c.headerLen resultH
    · rw [if_neg h0] at hdef
      rw [hdef]
      exact ⟨rfl, rfl, rfl, rfl, rfl⟩
  generalize (if c.headerLen > 0 then
             s0.workerSend now (c.header.map Char.toNat) c.headerLen resultH
           else (true, s0)) = a at ha ⊢
  have pa := ha a rfl
  dsimp only
  cases ha1 : a.1 with
  | false =>
      simp only [ha1]
      exact ⟨_, rfl, pa⟩
  | true =>
      obtain ⟨w1, w2, w3, w4, w5⟩ := workerSend_sender a.2 now f.buf f.len resultP
      cases hb1 : (a.2.workerSend now f.buf f.len resultP).1 with
      | false =>
          simp only [ha1, hb1]
          exact ⟨_, rfl, w1.trans pa.1, w2.trans pa.2.1, w3.trans pa.2.2.1,
            w4.trans pa.2.2.2.1, w5.trans pa.2.2.2.2⟩
      | true =>
          simp only [ha1, hb1]
          exact ⟨_, rfl, w1.trans pa.1, w2.trans pa.2.1, w3.trans pa.2.2.1,
            w4.trans pa.2.2.2.1, w5.trans pa.2.2.2.2⟩

theorem taskBody_dequeues (s : Streamer) (now : Nat) (c : FrameChunk) (rest : List FrameChunk)
    (f : Frame) (resultH resultP : Int)
    (hq : s.taskSender.queue = some (c :: rest))
    (hrun : s.taskSender.isRunning = true) (hfb : c.fb = some f) :
    ∃ s', s.taskBody now resultH resultP = some s' ∧
      s'.taskSender.queue = some rest ∧
      s'.taskSender.isRunning = true ∧
      s'.config = s.config ∧
      s'.totalBytesSent = s.totalBytesSent ∧
      s'.totalFramesSent = s.totalFramesSent := by
  rw [taskBody_cons s now c rest resultH resultP hq hrun]
  obtain ⟨s', h1, h2, h3, h4, h5, h6⟩ :=
    processChunk_sender { s with taskSender.queue := some rest } now c f resultH resultP hfb
  exact ⟨s', h1, h2, h3.trans hrun, h4, h5, h6⟩

theorem senderOp_preserves_inv (s : Streamer) (op : SenderOp) (h : SenderInv s) :
    ∃ s', op.apply s = some s' ∧ SenderInv s' ∧ s'.config = s.config := by
  obtain ⟨hr, hb⟩ := h
  cases op with
  | enqueue fb header headerLen now =>
      refine ⟨_, rfl, ?_⟩
      cases hacc : (s.sendFrame fb header headerLen now).1 with
      | true =>
          obtain ⟨f, q, _, hq, _, _, hlt, hs1⟩ := sendFrame_accepted s fb header headerLen now hacc
          rw [hs1]
          refine ⟨⟨fun _ => by simp, ?_⟩, rfl⟩
          intro q' hq'
          have hq'' : q' = q ++ [⟨some f, header.take headerLen, headerLen, now⟩] := by
            simpa using hq'.symm
          subst hq''
          refine ⟨?_, ?_⟩
          · simp only [List.length_append, List.length_singleton]
            exact hlt
          · intro c hc
            rcases List.mem_append.mp hc with hc | hc
            · exact (hb q hq).2 c hc
            · rw [List.mem_singleton.mp hc]
              simp
      | false =>
          obtain ⟨e1, _, e3⟩ := sendFrame_rejected s fb header headerLen now hacc
          refine ⟨⟨?_, ?_⟩, e3⟩
          · rw [e1]
            exact hr
          · rw [e1, e3]
            exact hb
  | work now resultH resultP =>
      cases hrun : s.taskSender.isRunning with
      | false =>
          refine ⟨{ s with taskSender.taskEnded := true }, ?_, ⟨?_, ?_⟩, rfl⟩
          · simp [SenderOp.apply, Streamer.taskFunction, hrun]
          · intro h
            simp [hrun] at h
          · exact hb
      | true =>
          cases hq : s.taskSender.queue with
          | none => exact absurd hq (hr hrun)
          | some q =>
              cases q with
              | nil =>
                  refine ⟨s, ?_, ⟨hr, hb⟩, rfl⟩
                  simp [SenderOp.apply, Streamer.taskFunction, hrun, Streamer.taskBody, hq]
              | cons c rest =>
                  obtain ⟨hlen, hfbs⟩ := hb _ hq
                  obtain ⟨f, hf⟩ := Option.ne_none_iff_exists'.mp (hfbs c (List.mem_cons_self _ _))
                  obtain ⟨s', t1, t2, t3, t4, _, _⟩ :=
                    taskBody_dequeues s now c rest f resultH resultP hq hrun hf
                  refine ⟨s', ?_, ⟨?_, ?_⟩, t4⟩
                  · simp [SenderOp.apply, Streamer.taskFunction, hrun, t1]
                  · intro _
                    rw [t2]
                    simp
                  · intro q' hq'
                    rw [t2] at hq'
                    have hq'' : q' = rest := by simpa using hq'.symm
                    subst hq''
                    rw [t4]
                    refine ⟨?_, fun x hx => hfbs x (List.mem_cons_of_mem _ hx)⟩
                    simp only [List.length_cons] at hlen
                    omega
  | stop =>
      refine ⟨s.stop, rfl, ?_⟩
      cases hrun : s.taskSender.isRunning with
      | false =>
          have : s.stop = s := by simp [Streamer.stop, hrun]
          rw [this]
          exact ⟨⟨hr, hb⟩, rfl⟩
      | true =>
          cases hq : s.taskSender.queue with
          | none => exact absurd hq (hr hrun)
          | some q =>
              rw [stop_of_running s q hrun hq]
              refine ⟨⟨?_, ?_⟩, rfl⟩
              · intro h
                simp at h
              · intro q' hq'
                simp at hq'

theorem runSender_inv (ops : List SenderOp) :
    ∀ s : Streamer, SenderInv s →
      ∃ s', runSender s ops = some s' ∧ SenderInv s' ∧ s'.config = s.config := by
  induction ops with
  | nil => intro s h; exact ⟨s, rfl, h, rfl⟩
  | cons op r ih =>
      intro s h
      obtain ⟨s1, a1, a2, a3⟩ := senderOp_preserves_inv s op h
      obtain ⟨s', b1, b2, b3⟩ := ih s1 a2
      refine ⟨s', ?_, b2, b3.trans a3⟩
      simp only [runSender, a1]
      exact b1

theorem create_inv (cfg : StreamConfig) (env : Streamer.StartEnv) :
    SenderInv (Streamer.create cfg env) := by
  unfold SenderInv Streamer.create Streamer.start
  dsimp only
  repeat' split
  all_goals simp

/-- C14. From construction on, after any sequence of `sendFrame` calls, worker turns (with
any write results) and `stop` calls, the run is defined and the number of queued chunks
(`getQueueCount`) is at most `config.taskQueueSize`; as every beginning of a sequence is a
sequence, the bound holds at every moment. A `sendFrame` call made while the queue holds
`taskQueueSize` chunks returns `false` and leaves the queue as it was. -/
theorem queue_never_exceeds_capacity (cfg : StreamConfig) (env : Streamer.StartEnv)
    (ops : List SenderOp) :
    (∃ s', runSender (Streamer.create cfg env) ops = some s' ∧
       s'.getQueueCount ≤ cfg.taskQueueSize) ∧
    (∀ (s : Streamer) (q : List FrameChunk) (fb : Option Frame) (header : List Char)
        (headerLen now : Nat),
      s.taskSender.queue = some q → q.length = s.config.taskQueueSize →
      (s.sendFrame fb header headerLen now).1 = false ∧
      (s.sendFrame fb header headerLen now).2.taskSender.queue = some q) := by
  refine ⟨?_, ?_⟩
  · obtain ⟨s', h1, h2, h3⟩ := runSender_inv ops (Streamer.create cfg env) (create_inv cfg env)
    refine ⟨s', h1, ?_⟩
    have hc : s'.config = cfg := h3.trans (create_fields cfg env).1
    unfold Streamer.getQueueCount TaskSender.getQueueCount
    cases hq : s'.taskSender.queue with
    | none => exact Nat.zero_le _
    | some q =>
        rw [← hc]
        exact (h2.2 q hq).1
  · intro s q fb header headerLen now hq hfull
    have hrej : (s.sendFrame fb header headerLen now).1 = false := by
      cases hacc : (s.sendFrame fb header headerLen now).1 with
      | false => rfl
      | true =>
          obtain ⟨_, q', _, hq', _, _, hlt, _⟩ := sendFrame_accepted s fb header headerLen now hacc
          rw [hq] at hq'
          have : q = q' := Option.some.inj hq'
          subst this
          omega
    refine ⟨hrej, ?_⟩
    rw [(sendFrame_rejected s fb header headerLen now hrej).1]
    exact hq

set_option maxRecDepth 100000 in
theorem queue_never_exceeds_capacity_witness :
    (∃ s', runSender (Streamer.create {} startOk) demoOps = some s' ∧ s'.getQueueCount ≤ 16) ∧
    (backlog.sendFrame (some (frameOf 17 10)) [] 0 1000).1 = false ∧
    (backlog.sendFrame (some (frameOf 17 10)) [] 0 1000).2.taskSender.queue
      = some (backlog.taskSender.queue.getD []) :=
  ⟨(queue_never_exceeds_capacity {} startOk demoOps).1,
   (queue_never_exceeds_capacity {} startOk demoOps).2 backlog (backlog.taskSender.queue.getD [])
     (some (frameOf 17 10)) [] 0 1000 (by decide) (by decide)⟩

/-! ## The controller's own counters -/

theorem updateMetrics_shape (s : Streamer) (now : Nat) :
    ∃ a b c, s._updateMetrics now =
      { s with lastMetricsUpdate := a, currentFPS := b, events := c } := by
  unfold Streamer._updateMetrics Streamer._notifyMetricsUpdate Streamer.notify
  dsimp only
  repeat' split
  all_goals exact ⟨_, _, _, rfl⟩

theorem updateMetrics_keeps (s : Streamer) (now : Nat) :
    (s._updateMetrics now).taskSender = s.taskSender ∧
    (s._updateMetrics now).totalBytesSent = s.totalBytesSent ∧
    (s._updateMetrics now).totalFramesSent = s.totalFramesSent ∧
    (s._updateMetrics now).transport = s.transport ∧
    (s._updateMetrics now).state = s.state ∧
    (s._updateMetrics now).config = s.config := by
  obtain ⟨a, b, c, h⟩ := updateMetrics_shape s now
  rw [h]
  exact ⟨rfl, rfl, rfl, rfl, rfl, rfl⟩

theorem attemptReconnect_keeps (s : Streamer) (now : Nat) (env : ConnectEnv) :
    (s._attemptReconnect now env).taskSender = s.taskSender ∧
    (s._attemptReconnect now env).totalBytesSent = s.totalBytesSent ∧
    (s._attemptReconnect now env).totalFramesSent = s.totalFramesSent := by
  unfold Streamer._attemptReconnect Streamer._handleStreamError Streamer._notifyConnected
    Streamer._notifyError Streamer.notify
  dsimp only
  repeat' split
  all_goals simp

theorem sendFrame_keeps (s : Streamer) (fb : Option Frame) (header : List Char)
    (headerLen now : Nat) :
    (s.sendFrame fb header headerLen now).2.totalBytesSent = s.totalBytesSent ∧
    (s.sendFrame fb header headerLen now).2.totalFramesSent = s.totalFramesSent ∧
    (s.sendFrame fb header headerLen now).2.currentFPS = s.currentFPS := by
  unfold Streamer.sendFrame
  repeat' split
  all_goals exact ⟨rfl, rfl, rfl⟩

theorem loop_counts (s : Streamer) (now : Nat) (frame : Option Frame) (env : ConnectEnv) :
    ((s.loop now frame env).taskSender.queue = s.taskSender.queue ∧
      (s.loop now frame env).totalBytesSent = s.totalBytesSent ∧
      (s.loop now frame env).totalFramesSent = s.totalFramesSent) ∨
    (∃ f q c, frame = some f ∧ s.taskSender.queue = some q ∧ c.fb = some f ∧
      (s.loop now frame env).taskSender.queue = some (q ++ [c]) ∧
      (s.loop now frame env).totalBytesSent = u64 (s.totalBytesSent + f.len) ∧
      (s.loop now frame env).totalFramesSent = u32 (s.totalFramesSent + 1)) := by
  unfold Streamer.loop
  dsimp only
  split
  · left; simp
  · split
    · left
      split
      · obtain ⟨k1, k2, k3⟩ := attemptReconnect_keeps (s._updateLED now) now env
        split <;> simp [k1, k2, k3]
      · simp
    · split
      · left; simp [Streamer._notifyDisconnected, Streamer.notify, apply_ite]
      · cases frame with
        | none =>
            left
            obtain ⟨m1, m2, m3, _⟩ := updateMetrics_keeps (s._updateLED now) now
            simp [m1, m2, m3]
        | some f =>
            dsimp only
            split
            · left; simp [return_frame, esp_camera_fb_return]
            · cases hacc : ((s._updateLED now).sendFrame (some f)
                  (formatMultipartHeader (s._updateLED now).config f 256).1
                  (formatMultipartHeader (s._updateLED now).config f 256).2 now).1 with
              | false =>
                  left
                  obtain ⟨e1, _, _⟩ := sendFrame_rejected _ _ _ _ _ hacc
                  obtain ⟨k1, k2, _⟩ := sendFrame_keeps (s._updateLED now) (some f)
                      (formatMultipartHeader (s._updateLED now).config f 256).1
                      (formatMultipartHeader (s._updateLED now).config f 256).2 now
                  simp only [hacc, Bool.false_eq_true, if_false]
                  obtain ⟨m1, m2, m3, _⟩ := updateMetrics_keeps
                    (return_frame ((s._updateLED now).sendFrame (some f)
                      (formatMultipartHeader (s._updateLED now).config f 256).1
                      (formatMultipartHeader (s._updateLED now).config f 256).2 now).2 (some f)) now
                  rw [m1, m2, m3]
                  simp only [return_frame, esp_camera_fb_return, e1, k1, k2]
                  simp
              | true =>
                  right
                  obtain ⟨f', q, hf, hq, _, _, _, hs1⟩ := sendFrame_accepted _ _ _ _ _ hacc
                  obtain ⟨k1, k2, _⟩ := sendFrame_keeps (s._updateLED now) (some f)
                      (formatMultipartHeader (s._updateLED now).config f 256).1
                      (formatMultipartHeader (s._updateLED now).config f 256).2 now
                  have hff : f' = f := (Option.some.inj hf).symm
                  subst hff
                  refine ⟨f', q,
                    ⟨some f', (formatMultipartHeader (s._updateLED now).config f' 256).1.take
                        (formatMultipartHeader (s._updateLED now).config f' 256).2,
                      (formatMultipartHeader (s._updateLED now).config f' 256).2, now⟩,
                    rfl, by simpa using hq, rfl, ?_⟩
                  simp only [hacc, if_true]
                  obtain ⟨m1, m2, m3, _⟩ := updateMetrics_keeps
                    ({ (Streamer._notifyFrameSent
                        { ((s._updateLED now).sendFrame (some f')
                            (formatMultipartHeader (s._updateLED now).config f' 256).1
                            (formatMultipartHeader (s._updateLED now).config f' 256).2 now).2 with
                          totalBytesSent := u64
                            (((s._updateLED now).sendFrame (some f')
                              (formatMultipartHeader (s._updateLED now).config f' 256).1
                              (formatMultipartHeader (s._updateLED now).config f' 256).2
                              now).2.totalBytesSent + f'.len),
                          totalFramesSent := u32
                            (((s._updateLED now).sendFrame (some f')
                              (formatMultipartHeader (s._updateLED now).config f' 256).1
                              (formatMultipartHeader (s._updateLED now).config f' 256).2
                              now).2.totalFramesSent + 1),
                          currentFPS := u32
                            (((s._updateLED now).sendFrame (some f')
                              (formatMultipartHeader (s._updateLED now).config f' 256).1
                              (formatMultipartHeader (s._updateLED now).config f' 256).2
                              now).2.currentFPS + 1) } f'.len) with lastFrameTime := now }) now
                  rw [m1, m2, m3]
                  simp only [Streamer._notifyFrameSent, Streamer.notify, apply_ite, k1, k2]
                  rw [hs1]
                  simp

theorem processChunk_totals (s0 : Streamer) (now : Nat) (c : FrameChunk)
    (resultH resultP : Int) (s' : Streamer)
    (h : s0.processChunk now c resultH resultP = some s') :
    s'.totalBytesSent = s0.totalBytesSent ∧ s'.totalFramesSent = s0.totalFramesSent := by
  cases hfb : c.fb with
  | some f =>
      obtain ⟨s'', h1, _, _, _, h5, h6⟩ := processChunk_sender s0 now c f resultH resultP hfb
      rw [h1] at h
      have : s'' = s' := Option.some.inj h
      subst this
      exact ⟨h5, h6⟩
  | none =>
      unfold Streamer.processChunk at h
      rw [hfb] at h
      have ha : ∀ a : Bool × Streamer,
          a = (if c.headerLen > 0 then
                 s0.workerSend now (c.header.map Char.toNat) c.headerLen resultH
               else (true, s0)) →
          (a.2.totalBytesSent = s0.totalBytesSent ∧ a.2.totalFramesSent = s0.totalFramesSent) := by
        intro a hdef
        by_cases h0 : c.headerLen > 0
        · rw [if_pos h0] at hdef
          rw [hdef]
          exact (workerSend_sender s0 now _ _ _).2.2.2
        · rw [if_neg h0] at hdef
          rw [hdef]
          exact ⟨rfl, rfl⟩
      generalize (if c.headerLen > 0 then
                 s0.workerSend now (c.header.map Char.toNat) c.headerLen resultH
               else (true, s0)) = a at ha h
      have pa := ha a rfl
      dsimp only at h
      cases ha1 : a.1 with
      | true => simp [ha1] at h
      | false =>
          simp only [ha1, return_frame] at h
          have : a.2 = s' := Option.some.inj h
          rw [← this]
          exact pa

theorem taskFunction_totals (s : Streamer) (now : Nat) (resultH resultP : Int) (s' : Streamer)
    (h : s.taskFunction now resultH resultP = some s') :
    s'.totalBytesSent = s.totalBytesSent ∧ s'.totalFramesSent = s.totalFramesSent := by
  unfold Streamer.taskFunction at h
  cases hrun : s.taskSender.isRunning with
  | false =>
      simp only [hrun, Bool.false_eq_true, if_false] at h
      have := Option.some.inj h
      rw [← this]
      exact ⟨rfl, rfl⟩
  | true =>
      simp only [hrun, if_true] at h
      cases hq : s.taskSender.queue with
      | none => simp [Streamer.taskBody, hq] at h
      | some q =>
          cases q with
          | nil =>
              simp only [Streamer.taskBody, hq] at h
              have := Option.some.inj h
              rw [← this]
              exact ⟨rfl, rfl⟩
          | cons c rest =>
              rw [taskBody_cons s now c rest resultH resultP hq hrun] at h
              exact processChunk_totals { s with taskSender.queue := some rest } now c resultH
                resultP s' h

/-- C19 (as stated, refuted). After one tick has queued a 10-byte frame the controller
reports 1 frame and 10 bytes sent while the sender's counters are 0 and nothing has been
written; after the worker's write of that frame has failed the controller still reports
1 frame and 10 bytes, the sender 0 and 0. -/
theorem controller_counts_unsent_frame :
    oneQueued.getFramesSent = 1 ∧ oneQueued.getBytesSent = 10 ∧
    oneQueued.taskSender.getFramesSent = 0 ∧ oneQueued.taskSender.getBytesSent = 0 ∧
    oneQueued.transport.httpClient.wire = [] ∧
    (oneQueued.taskFunction 200 87 4).map (fun s =>
        (s.getFramesSent, s.getBytesSent, s.taskSender.getFramesSent, s.taskSender.getBytesSent))
      = some (1, 10, 0, 0) := by
  decide

/-- C19 (amended). The cumulative counts the controller exposes (`getBytesSent`,
`getFramesSent`, and the byte count passed to `onMetricsUpdate`) are its own members
`_totalBytesSent` and `_totalFramesSent`. A tick either leaves them and the queue unchanged,
or it queues one chunk holding the frame it obtained and adds that frame's length to the byte
count (as a `uint64_t`) and one to the frame count (as a `uint32_t`); a worker turn, whatever
its writes return, leaves them unchanged. So they count the frames accepted into the queue
and the sum of their payload lengths. -/
theorem controller_counts_accepted_frames (s : Streamer) (now : Nat) (frame : Option Frame)
    (env : ConnectEnv) (resultH resultP : Int) :
    (((s.loop now frame env).taskSender.queue = s.taskSender.queue ∧
        (s.loop now frame env).getBytesSent = s.getBytesSent ∧
        (s.loop now frame env).getFramesSent = s.getFramesSent) ∨
      (∃ f q c, frame = some f ∧ s.taskSender.queue = some q ∧ c.fb = some f ∧
        (s.loop now frame env).taskSender.queue = some (q ++ [c]) ∧
        (s.loop now frame env).getBytesSent = (s.getBytesSent + f.len) % 2 ^ 64 ∧
        (s.loop now frame env).getFramesSent = (s.getFramesSent + 1) % 2 ^ 32)) ∧
    (∀ s', s.taskFunction now resultH resultP = some s' →
        s'.getBytesSent = s.getBytesSent ∧ s'.getFramesSent = s.getFramesSent) ∧
    s._notifyMetricsUpdate.events =
      s.events ++ (if s.eventsHandler then
        [Event.onMetricsUpdate s.currentFPS s.getBytesSent] else []) := by
  refine ⟨loop_counts s now frame env, taskFunction_totals s now resultH resultP, ?_⟩
  cases he : s.eventsHandler <;>
    simp [Streamer._notifyMetricsUpdate, Streamer.notify, he, Streamer.getBytesSent]

theorem controller_counts_accepted_frames_witness :
    (oneQueued.taskFunction 200 87 4).map Streamer.getBytesSent = some oneQueued.getBytesSent := by
  cases h : oneQueued.taskFunction 200 87 4 with
  | none => exact absurd h (by decide)
  | some s' =>
      exact congrArg some
        ((controller_counts_accepted_frames oneQueued 200 none connectOk 87 4).2.1 s' h).1

/-! ## The per-connection byte cap on the streaming path -/

@[simp] theorem updateMetrics_state (s : Streamer) (now : Nat) :
    (s._updateMetrics now).state = s.state := by
  obtain ⟨a, b, c, h⟩ := updateMetrics_shape s now
  rw [h]

@[simp] theorem updateMetrics_transport (s : Streamer) (now : Nat) :
    (s._updateMetrics now).transport = s.transport := by
  obtain ⟨a, b, c, h⟩ := updateMetrics_shape s now
  rw [h]

@[simp] theorem updateMetrics_taskSender (s : Streamer) (now : Nat) :
    (s._updateMetrics now).taskSender = s.taskSender := by
  obtain ⟨a, b, c, h⟩ := updateMetrics_shape s now
  rw [h]

@[simp] theorem updateMetrics_config (s : Streamer) (now : Nat) :
    (s._updateMetrics now).config = s.config := by
  obtain ⟨a, b, c, h⟩ := updateMetrics_shape s now
  rw [h]

@[simp] theorem updateMetrics_frameDelayMs (s : Streamer) (now : Nat) :
    (s._updateMetrics now).frameDelayMs = s.frameDelayMs := by
  obtain ⟨a, b, c, h⟩ := updateMetrics_shape s now
  rw [h]

@[simp] theorem updateMetrics_lastFrameTime (s : Streamer) (now : Nat) :
    (s._updateMetrics now).lastFrameTime = s.lastFrameTime := by
  obtain ⟨a, b, c, h⟩ := updateMetrics_shape s now
  rw [h]

@[simp] theorem updateMetrics_lastReconnectAttempt (s : Streamer) (now : Nat) :
    (s._updateMetrics now).lastReconnectAttempt = s.lastReconnectAttempt := by
  obtain ⟨a, b, c, h⟩ := updateMetrics_shape s now
  rw [h]

theorem loop_enqueues (s : Streamer) (now : Nat) (f : Frame) (env : ConnectEnv) (cl : Nat)
    (q : List FrameChunk)
    (hthr : ¬ (s.frameDelayMs > 0 ∧ sub32 now s.lastFrameTime < s.frameDelayMs))
    (hst : s.state = State.STREAMING)
    (hconn : s.transport.isConnected = true) (hcl : s.transport.getHttpClient = some cl)
    (hrun : s.taskSender.isRunning = true) (hq : s.taskSender.queue = some q)
    (hlt : q.length < s.config.taskQueueSize)
    (hh : (formatMultipartHeader s.config f 256).2 ≤ 255) :
    (s.loop now (some f) env).state = State.STREAMING ∧
    (s.loop now (some f) env).transport = s.transport ∧
    (s.loop now (some f) env).taskSender =
      { s.taskSender with queue := some (q ++
          [⟨some f, (formatMultipartHeader s.config f 256).1.take
              (formatMultipartHeader s.config f 256).2,
            (formatMultipartHeader s.config f 256).2, now⟩]) } ∧
    (s.loop now (some f) env).config = s.config ∧
    (s.loop now (some f) env).frameDelayMs = s.frameDelayMs ∧
    (s.loop now (some f) env).lastFrameTime = now ∧
    (s.loop now (some f) env).lastReconnectAttempt = s.lastReconnectAttempt := by
  have hh' : ¬ (formatMultipartHeader s.config f 256).2 > 255 := by omega
  simp [Streamer.loop, hthr, hst, hconn, hcl, Streamer.sendFrame, hrun, hq, hlt, hh',
    Streamer._notifyFrameSent, Streamer.notify, apply_ite]

theorem taskBody_complete_fields (s : Streamer) (now : Nat) (c : FrameChunk)
    (rest : List FrameChunk) (f : Frame) (cl : Nat) (resultH resultP : Int)
    (hq : s.taskSender.queue = some (c :: rest))
    (hrun : s.taskSender.isRunning = true)
    (hfb : c.fb = some f)
    (hconn : s.transport.isConnected = true)
    (hcl : s.transport.getHttpClient = some cl)
    (hH : resultH = toInt32 c.headerLen) (hP : resultP = toInt32 f.len) :
    ∃ s', s.taskBody now resultH resultP = some s' ∧
      s'.taskSender.queue = some rest ∧
      s'.taskSender.isRunning = true ∧
      s'.taskSender.bytesSent = u64 (s.taskSender.bytesSent + f.len) ∧
      s'.transport.isConnected = true ∧
      s'.transport.getHttpClient = some cl ∧
      s'.transport.getBytesSent = s.transport.getBytesSent ∧
      s'.state = s.state ∧ s'.config = s.config ∧ s'.frameDelayMs = s.frameDelayMs ∧
      s'.lastFrameTime = s.lastFrameTime ∧
      s'.lastReconnectAttempt = s.lastReconnectAttempt := by
  simp only [HttpStreamTransport.isConnected, HttpStreamTransport.getHttpClient,
    HttpStreamTransport.getBytesSent, HttpClient.getBytesSent] at hconn hcl ⊢
  by_cases h0 : c.headerLen = 0
  · simp [Streamer.taskBody, hq, hrun, hfb, h0, Streamer.workerSend, HttpStreamTransport.send,
      hconn, hcl, hP, esp_camera_fb_return]
  · have hpos : 0 < c.headerLen := Nat.pos_of_ne_zero h0
    simp [Streamer.taskBody, hq, hrun, hfb, hpos, Streamer.workerSend, HttpStreamTransport.send,
      hconn, hcl, hP, hH, esp_camera_fb_return]

theorem bigFrame_header (i : Nat) : (formatMultipartHeader {} (bigFrame i) 256).2 = 91 := by
  have h : formatMultipartHeader {} (bigFrame i) 256 = formatMultipartHeader {} (bigFrame 0) 256 :=
    rfl
  rw [h]
  decide

theorem streamRound_steady (s : Streamer) (n : Nat) (h : StreamingSteady s n)
    (hn : n < 100000) :
    ∃ s', streamRound s (n + 1) = some s' ∧ StreamingSteady s' (n + 1) := by
  obtain ⟨hcfg, hst, hconn, hcl, hrun, hq, hfd, hlf, hbs, hra, hgb⟩ := h
  have hthr : ¬ (s.frameDelayMs > 0 ∧
      sub32 (100 + 40 * (n + 1)) s.lastFrameTime < s.frameDelayMs) := by
    rw [hfd, sub32_of_le _ _ (by omega) (by omega)]
    omega
  have hh : (formatMultipartHeader s.config (bigFrame (n + 1)) 256).2 = 91 := by
    rw [hcfg]
    exact bigFrame_header (n + 1)
  obtain ⟨l1, l2, l3, l4, l5, l6, l7⟩ := loop_enqueues s (100 + 40 * (n + 1)) (bigFrame (n + 1))
    connectOk 1 [] hthr hst hconn hcl hrun hq (by rw [hcfg]; decide) (by rw [hh]; omega)
  obtain ⟨s', t1, t2, t3, t4, t5, t6, t7, t8, t9, t10, t11, t12⟩ :=
    taskBody_complete_fields (s.loop (100 + 40 * (n + 1)) (some (bigFrame (n + 1))) connectOk)
      (100 + 40 * (n + 1))
      ⟨some (bigFrame (n + 1)),
        (formatMultipartHeader s.config (bigFrame (n + 1)) 256).1.take
          (formatMultipartHeader s.config (bigFrame (n + 1)) 256).2,
        (formatMultipartHeader s.config (bigFrame (n + 1)) 256).2, 100 + 40 * (n + 1)⟩
      [] (bigFrame (n + 1)) 1 91 100000
      (by rw [l3]; rfl) (by rw [l3]; exact hrun) rfl (by rw [l2]; exact hconn)
      (by rw [l2]; exact hcl)
      (by rw [hh]; show (91 : Int) = toInt32 91; decide)
      (show (100000 : Int) = toInt32 100000 from by decide)
  refine ⟨s', t1, t9.trans (l4.trans hcfg), t8.trans l1, t5, t6, t3, t2,
    (t10.trans l5).trans hfd, ?_, ?_, (t12.trans l7).trans hra, ?_⟩
  · rw [t11, l6]
  · rw [t4, l3]
    show u64 (s.taskSender.bytesSent + 100000) = (n + 1) * 100000
    rw [hbs]
    unfold u64
    omega
  · rw [t7, l2]
    exact hgb

theorem streamRounds_steady (n : Nat) (hn : n ≤ 100000) :
    ∃ s, streamRounds bootStreaming n = some s ∧ StreamingSteady s n := by
  induction n with
  | zero =>
      refine ⟨bootStreaming, rfl, ?_⟩
      unfold StreamingSteady
      decide
  | succ k ih =>
      obtain ⟨s, h1, h2⟩ := ih (by omega)
      obtain ⟨s', r1, r2⟩ := streamRound_steady s k h2 (by omega)
      exact ⟨s', by simp only [streamRounds, h1, r1], r2⟩

/-- C17 (the code departs from it). With the shipped configuration (`maxDataSize` of
100000000), 1001 rounds in which a tick queues a 100000-byte frame and the worker writes it
completely leave the controller streaming on the connection opened by `setup()`: the sender
has written 100100000 payload bytes through it, more than `maxDataSize`, no reconnect was
attempted, and the transport's own byte counter still reads `0`. -/
theorem stream_exceeds_maxDataSize :
    ∃ s, streamRounds bootStreaming 1001 = some s ∧
      s.config.maxDataSize = 100000000 ∧
      s.taskSender.getBytesSent = 100100000 ∧
      s.state = State.STREAMING ∧
      s.transport.isConnected = true ∧
      s.transport.getHttpClient = some 1 ∧
      s.lastReconnectAttempt = 0 ∧
      s.transport.getBytesSent = 0 := by
  obtain ⟨s, h1, hcfg, hst, hconn, hcl, _, _, _, _, hbs, hra, hgb⟩ :=
    streamRounds_steady 1001 (by omega)
  exact ⟨s, h1, by rw [hcfg], hbs, hst, hconn, hcl, hra, hgb⟩


/-! ## The address check of the portal -/

/-- C30 (the code departs from it). `isValidIP` accepts `1...234`, which has two empty groups
between its dots and so is not a dotted-decimal IPv4 address; it also accepts `...0000`.
A usual address is accepted by both, an out-of-range group is rejected by both. -/
theorem isValidIP_accepts_empty_groups :
    isValidIP "1...234".toList = true ∧ wellFormedIPv4 "1...234".toList = false ∧
    dotGroups "1...234".toList = ["1".toList, [], [], "234".toList] ∧
    isValidIP "...0000".toList = true ∧ wellFormedIPv4 "...0000".toList = false ∧
    isValidIP "192.168.0.2".toList = true ∧ wellFormedIPv4 "192.168.0.2".toList = true ∧
    isValidIP "256.1.1.1".toList = false ∧ wellFormedIPv4 "256.1.1.1".toList = false := by
  decide

/-! ## Patterns of the status LED -/

theorem notify_state (s : Streamer) (e : Event) : (s.notify e).state = s.state := by
  unfold Streamer.notify
  split <;> rfl

theorem attemptReconnect_state_error (s : Streamer) (now : Nat) (env : ConnectEnv)
    (hst : s.state ≠ State.CONNECTING) (hno : (s.transport.connect env).1 = false) :
    (s._attemptReconnect now env).state = State.ERROR := by
  have hno' : ((({ s with state := State.CONNECTING })._updateLED now).transport.connect
      env).1 = false := by simpa using hno
  unfold Streamer._attemptReconnect
  simp only [hst, if_false, hno', Bool.false_eq_true]
  unfold Streamer._handleStreamError Streamer._notifyError
  dsimp only
  repeat' split
  all_goals simp [notify_state]

/-- C23. In `IDLE` or `ERROR`, a tick that passes the frame-cadence throttle attempts a connect
exactly when `now - lastReconnectAttempt >= currentReconnectInterval` (unsigned 32-bit): when
due, the tick is `_attemptReconnect` (entered in a state other than `CONNECTING`, so
`Transport.connect` is called and its outcome decides between `STREAMING` and `ERROR`)
followed by the scaling of the interval; when not due, the tick is the LED update alone,
whatever the camera or the library would answer: state, counter, interval, transport, queue
and released frames are unchanged. `_attemptReconnect` entered in `CONNECTING` changes
nothing. -/
theorem idle_tick_attempts_iff_due (s : Streamer) (now : Nat) (frame : Option Frame)
    (env : ConnectEnv)
    (hst : s.state = State.IDLE ∨ s.state = State.ERROR)
    (hthr : ¬ (s.frameDelayMs > 0 ∧ sub32 now s.lastFrameTime < s.frameDelayMs)) :
    (u32 s.currentReconnectInterval ≤ sub32 now s.lastReconnectAttempt →
      s.loop now frame env =
        (if ((s._updateLED now)._attemptReconnect now env).restarted then
           (s._updateLED now)._attemptReconnect now env
         else
           { (s._updateLED now)._attemptReconnect now env with
             currentReconnectInterval :=
               min ((s._updateLED now)._attemptReconnect now env).config.maxReconnectInterval
                 (Streamer.scaleInterval
                   ((s._updateLED now)._attemptReconnect now env).currentReconnectInterval
                   ((s._updateLED now)._attemptReconnect now env).config.reconnectMultiplier) }) ∧
      (s._updateLED now).state ≠ State.CONNECTING ∧
      ((s.transport.connect env).1 = true → (s.loop now frame env).state = State.STREAMING) ∧
      ((s.transport.connect env).1 = false → (s.loop now frame env).state = State.ERROR)) ∧
    (sub32 now s.lastReconnectAttempt < u32 s.currentReconnectInterval →
      s.loop now frame env = s._updateLED now ∧
      (s.loop now frame env).state = s.state ∧
      (s.loop now frame env).reconnectFailureCount = s.reconnectFailureCount ∧
      (s.loop now frame env).currentReconnectInterval = s.currentReconnectInterval ∧
      (s.loop now frame env).transport = s.transport ∧
      (s.loop now frame env).taskSender = s.taskSender ∧
      (s.loop now frame env).released = s.released) ∧
    (∀ s0 : Streamer, s0.state = State.CONNECTING → s0._attemptReconnect now env = s0) := by
  have hst1 : (s._updateLED now).state ≠ State.CONNECTING := by
    rw [updateLED_state]
    rcases hst with h | h <;> simp [h]
  refine ⟨fun hdue => ?_, fun hnot => ?_, fun s0 h0 => ?_⟩
  · have heq : s.loop now frame env =
        (if ((s._updateLED now)._attemptReconnect now env).restarted then
           (s._updateLED now)._attemptReconnect now env
         else
           { (s._updateLED now)._attemptReconnect now env with
             currentReconnectInterval :=
               min ((s._updateLED now)._attemptReconnect now env).config.maxReconnectInterval
                 (Streamer.scaleInterval
                   ((s._updateLED now)._attemptReconnect now env).currentReconnectInterval
                   ((s._updateLED now)._attemptReconnect now env).config.reconnectMultiplier) }) := by
      simp [Streamer.loop, hthr, hst, hdue]
    refine ⟨heq, hst1, fun hok => ?_, fun hno => ?_⟩
    · have h1 := (attemptReconnect_succeeds (s._updateLED now) now env hst1
        (by simpa using hok)).1
      rw [heq]
      split <;> simp [h1]
    · have h1 : ((s._updateLED now)._attemptReconnect now env).state = State.ERROR :=
        attemptReconnect_state_error (s._updateLED now) now env hst1 (by simpa using hno)
      rw [heq]
      split <;> simp [h1]
  · have hnd : ¬ u32 s.currentReconnectInterval ≤ sub32 now s.lastReconnectAttempt :=
      Nat.not_le.mpr hnot
    have heq : s.loop now frame env = s._updateLED now := by
      simp [Streamer.loop, hthr, hst, hnd]
    rw [heq]
    exact ⟨rfl, by simp, by simp, by simp, by simp, by simp, by simp⟩
  · simp [Streamer._attemptReconnect, h0]

theorem idle_tick_attempts_iff_due_witness :
    (bootFailed.loop 4999 none connectOk).state = State.ERROR ∧
    (bootFailed.loop 5000 none connectOk).state = State.STREAMING := by
  have h := idle_tick_attempts_iff_due bootFailed 4999 none connectOk (by decide) (by decide)
  have h' := idle_tick_attempts_iff_due bootFailed 5000 none connectOk (by decide) (by decide)
  exact ⟨(h.2.1 (by decide)).2.1, (h'.1 (by decide)).2.2.1 (by decide)⟩

/-- C24. In `STREAMING`, a tick that passes the cadence throttle and finds the transport not
connected sets the state to `IDLE`, calls `onDisconnected` on the registered handler exactly
once, obtains no frame (the result does not depend on what the camera would return), and
leaves the connect-failure counter, the reconnect interval, the transport, the queue and the
released frames unchanged. -/
theorem streaming_tick_detects_disconnect (s : Streamer) (now : Nat) (frame : Option Frame)
    (env : ConnectEnv) (hst : s.state = State.STREAMING)
    (hthr : ¬ (s.frameDelayMs > 0 ∧ sub32 now s.lastFrameTime < s.frameDelayMs))
    (hdis : s.transport.isConnected = false) :
    s.loop now frame env = s.loop now none env ∧
    (s.loop now frame env).state = State.IDLE ∧
    (s.loop now frame env).events =
      s.events ++ (if s.eventsHandler then [Event.onDisconnected] else []) ∧
    (s.loop now frame env).reconnectFailureCount = s.reconnectFailureCount ∧
    (s.loop now frame env).currentReconnectInterval = s.currentReconnectInterval ∧
    (s.loop now frame env).transport = s.transport ∧
    (s.loop now frame env).taskSender = s.taskSender ∧
    (s.loop now frame env).released = s.released := by
  have heq : ∀ fr, s.loop now fr env =
      (({ s._updateLED now with state := State.IDLE })._updateLED now)._notifyDisconnected := by
    intro fr
    simp [Streamer.loop, hthr, hst, hdis]
  rw [heq frame, heq none]
  cases he : s.eventsHandler <;>
    simp [Streamer._notifyDisconnected, Streamer.notify, he]

theorem streaming_tick_detects_disconnect_witness :
    (({ bootStreaming with transport := bootStreaming.transport.disconnect }).loop 100
      (some (frameOf 1 10)) connectOk).state = State.IDLE :=
  (streaming_tick_detects_disconnect
    ({ bootStreaming with transport := bootStreaming.transport.disconnect }) 100
    (some (frameOf 1 10)) connectOk (by decide) (by decide) (by decide)).2.1

theorem updateMetrics_events (s : Streamer) (now : Nat) :
    ∃ l, (s._updateMetrics now).events = s.events ++ l ∧
      ∀ e ∈ l, ∃ fps bytes, e = Event.onMetricsUpdate fps bytes := by
  unfold Streamer._updateMetrics Streamer._notifyMetricsUpdate Streamer.notify
  dsimp only
  repeat' split
  all_goals first
    | exact ⟨[Event.onMetricsUpdate s.currentFPS s.totalBytesSent], rfl,
        fun e he => ⟨_, _, List.mem_singleton.mp he⟩⟩
    | exact ⟨[], (List.append_nil _).symm, fun e he => absurd he (List.not_mem_nil e)⟩

theorem updateMetrics_quiet (s : Streamer) (now : Nat) :
    (s._updateMetrics now).reconnectFailureCount = s.reconnectFailureCount ∧
    (s._updateMetrics now).currentReconnectInterval = s.currentReconnectInterval ∧
    (s._updateMetrics now).restarted = s.restarted ∧
    (s._updateMetrics now).forceCaptivePortal = s.forceCaptivePortal ∧
    (s._updateMetrics now).released = s.released := by
  obtain ⟨a, b, c, h⟩ := updateMetrics_shape s now
  rw [h]
  exact ⟨rfl, rfl, rfl, rfl, rfl⟩

/-- C25. In `STREAMING` with the transport connected, a tick (past the cadence throttle) in
which `CameraModule::get_frame` returns no frame queues nothing and releases nothing, and
leaves the state, the transport, the connect-failure counter, the reconnect interval, the
controller's and the sender's cumulative counters unchanged; it does not escalate, and the
only calls it can make on the handler are `onMetricsUpdate` (never `onError`). -/
theorem streaming_tick_without_frame (s : Streamer) (now : Nat) (env : ConnectEnv)
    (hst : s.state = State.STREAMING)
    (hthr : ¬ (s.frameDelayMs > 0 ∧ sub32 now s.lastFrameTime < s.frameDelayMs))
    (hconn : s.transport.isConnected = true) :
    (s.loop now none env).taskSender = s.taskSender ∧
    (s.loop now none env).released = s.released ∧
    (s.loop now none env).state = State.STREAMING ∧
    (s.loop now none env).transport = s.transport ∧
    (s.loop now none env).reconnectFailureCount = s.reconnectFailureCount ∧
    (s.loop now none env).currentReconnectInterval = s.currentReconnectInterval ∧
    (s.loop now none env).totalBytesSent = s.totalBytesSent ∧
    (s.loop now none env).totalFramesSent = s.totalFramesSent ∧
    (s.loop now none env).restarted = s.restarted ∧
    (s.loop now none env).forceCaptivePortal = s.forceCaptivePortal ∧
    (∃ l, (s.loop now none env).events = s.events ++ l ∧
      ∀ e ∈ l, ∃ fps bytes, e = Event.onMetricsUpdate fps bytes) := by
  have heq : s.loop now none env = (s._updateLED now)._updateMetrics now := by
    simp [Streamer.loop, hthr, hst, hconn]
  rw [heq]
  obtain ⟨k1, k2, k3, _⟩ := updateMetrics_keeps (s._updateLED now) now
  obtain ⟨q1, q2, q3, q4, q5⟩ := updateMetrics_quiet (s._updateLED now) now
  obtain ⟨l, e1, e2⟩ := updateMetrics_events (s._updateLED now) now
  refine ⟨by simp, by simp [q5], by simp [hst], by simp, by simp [q1], by simp [q2],
    by simp [k2], by simp [k3], by simp [q3], by simp [q4], l, by simpa using e1, e2⟩

theorem streaming_tick_without_frame_witness :
    (bootStreaming.loop 100 none connectOk).state = State.STREAMING ∧
    (bootStreaming.loop 100 none connectOk).released = bootStreaming.released :=
  ⟨(streaming_tick_without_frame bootStreaming 100 connectOk (by decide) (by decide)
      (by decide)).2.2.1,
   (streaming_tick_without_frame bootStreaming 100 connectOk (by decide) (by decide)
      (by decide)).2.1⟩

/-! ## Error texts of the transport -/

theorem shortWriteMessage_ne_nil (result : Int) (len : Nat) : shortWriteMessage result len ≠ [] := by
  simp [shortWriteMessage, snprintf, vformat]

/-- C22. Whenever `HttpStreamTransport::send` returns `false`, `getLastError()` afterwards is
non-empty and is one of `Client not connected`, `HTTP client handle is null` or
`Write incomplete: <written>/<len> bytes`; whenever `HttpStreamTransport::connect` returns
`false` it is the HTTP client's own message, `Failed to init HTTP client` or
`Failed to open connection: ` followed by the library's name of the error (cut to the 255
characters the buffer holds). -/
theorem failed_call_leaves_message (t : HttpStreamTransport) (data : List Nat) (len : Nat)
    (result : Int) (env : ConnectEnv) :
    ((t.send data len result).1 = false →
      (t.send data len result).2.getLastError ≠ [] ∧
      ((t.send data len result).2.getLastError = "Client not connected".toList ∨
       (t.send data len result).2.getLastError = "HTTP client handle is null".toList ∨
       (t.send data len result).2.getLastError = shortWriteMessage result len)) ∧
    (shortWriteMessage result len =
      ("Write incomplete: ".toList ++ fmtD result ++ "/".toList ++ fmtU len
        ++ " bytes".toList).take 255) ∧
    ((t.connect env).1 = false →
      (t.connect env).2.getLastError ≠ [] ∧
      (t.connect env).2.getLastError = (t.connect env).2.httpClient.lastError ∧
      ((t.connect env).2.getLastError = "Failed to init HTTP client".toList ∨
       (t.connect env).2.getLastError =
         ("Failed to open connection: ".toList ++ env.errName).take 255)) := by
  refine ⟨?_, ?_, ?_⟩
  · intro hf
    cases hc : t.httpClient.isConnected with
    | false =>
        refine ⟨?_, Or.inl ?_⟩ <;>
          simp [HttpStreamTransport.send, hc, HttpStreamTransport.getLastError, snprintf, vformat]
    | true =>
        cases hh : t.httpClient.client with
        | none =>
            refine ⟨?_, Or.inr (Or.inl ?_)⟩ <;>
              simp [HttpStreamTransport.send, hc, hh, HttpStreamTransport.getLastError, snprintf,
                vformat]
        | some c =>
            by_cases hr : result = toInt32 len
            · simp [HttpStreamTransport.send, hc, hh, hr] at hf
            · rw [send_incomplete t data len result c hc hh hr]
              exact ⟨shortWriteMessage_ne_nil result len, Or.inr (Or.inr rfl)⟩
  · simp [shortWriteMessage, snprintf, vformat]
  · intro hf
    unfold HttpStreamTransport.connect HttpClient.startMultipartStream at hf ⊢
    cases hi : env.init with
    | none =>
        refine ⟨?_, ?_, Or.inl ?_⟩ <;>
          simp [HttpStreamTransport.getLastError, snprintf, vformat]
    | some c =>
        by_cases ho : env.openErr = 0
        · simp [hi, ho] at hf
        · refine ⟨?_, ?_, Or.inr ?_⟩ <;>
            simp [ho, HttpStreamTransport.getLastError, snprintf, vformat, List.take_take]

theorem failed_call_leaves_message_witness :
    (liveTransport.send [1, 2, 3, 4] 4 2).2.getLastError = "Write incomplete: 2/4 bytes".toList ∧
    (liveTransport.connect connectFail).2.getLastError
      = "Failed to open connection: ESP_FAIL".toList := by
  have h := failed_call_leaves_message liveTransport [1, 2, 3, 4] 4 2 connectFail
  refine ⟨?_, ?_⟩
  · rcases (h.1 (by decide)).2 with h1 | h1 | h1
    · exact absurd h1 (by decide)
    · exact absurd h1 (by decide)
    · exact h1.trans (by decide)
  · rcases (h.2.2 (by decide)).2.2 with h1 | h1
    · exact absurd h1 (by decide)
    · exact h1.trans (by decide)

/-! ## Length of the part header -/

theorem toDigits_length_le (n e : Nat) (h : n < 10 ^ e) (he : 0 < e) :
    (Nat.toDigits 10 n).length ≤ e :=
  Nat.toDigitsCore_length 10 (by omega) (n + 1) n e h he

theorem fmtU_length_le (n : Nat) (h : n < 2 ^ 32) : (fmtU n).length ≤ 10 :=
  toDigits_length_le n 10 (by omega) (by omega)

theorem fmtD_length_le (i : Int) (hl : -2 ^ 31 ≤ i) (hu : i < 2 ^ 31) : (fmtD i).length ≤ 11 := by
  have h := toDigits_length_le i.natAbs 10 (by omega) (by omega)
  unfold fmtD
  split
  · simp only [List.length_cons]
    omega
  · omega

theorem fmtD0_length_le (i : Int) (hl : -2 ^ 31 ≤ i) (hu : i < 2 ^ 31) :
    (fmtD0 6 i).length ≤ 11 := by
  have h := toDigits_length_le i.natAbs 10 (by omega) (by omega)
  unfold fmtD0
  dsimp only
  split
  · simp only [List.length_cons, List.length_append, List.length_replicate]
    omega
  · simp only [List.length_append, List.length_replicate]
    omega

/-- C29. With the default boundary `wheelbot`, for every 32-bit frame length and every 32-bit
signed `tv_sec` and `tv_usec`, the header `formatMultipartHeader` produces has at most 108
characters, hence at most 255: the 256-byte buffer holds it whole (the stored text has the
reported length) and the `Header too large` test of `TaskSender::sendFrame`
(`headerLen > 255`) is false for the length the controller passes. -/
theorem default_header_fits (cfg : StreamConfig) (f : Frame)
    (hb : cfg.boundary = "wheelbot".toList) (hl : f.len < 2 ^ 32)
    (hs1 : -2 ^ 31 ≤ f.tv_sec) (hs2 : f.tv_sec < 2 ^ 31)
    (hu1 : -2 ^ 31 ≤ f.tv_usec) (hu2 : f.tv_usec < 2 ^ 31) :
    (formatMultipartHeader cfg f 256).2 ≤ 108 ∧
    (formatMultipartHeader cfg f 256).2 ≤ 255 ∧
    ¬ (formatMultipartHeader cfg f 256).2 > 255 ∧
    (formatMultipartHeader cfg f 256).1.length = (formatMultipartHeader cfg f 256).2 ∧
    (formatMultipartHeader cfg f 256).1 =
      vformat PART_HEADER
        [FmtArg.str cfg.boundary, FmtArg.uint f.len, FmtArg.int f.tv_sec, FmtArg.int f.tv_usec] := by
  have h1 := fmtU_length_le f.len hl
  have h2 := fmtD_length_le f.tv_sec hs1 hs2
  have h3 := fmtD0_length_le f.tv_usec hu1 hu2
  have hlen : (vformat PART_HEADER
      [FmtArg.str cfg.boundary, FmtArg.uint f.len, FmtArg.int f.tv_sec,
        FmtArg.int f.tv_usec]).length ≤ 108 := by
    rw [vformat_PART_HEADER, hb]
    simp only [List.length_append]
    have e1 : "\r\n--".toList.length = 4 := by decide
    have e2 : "wheelbot".toList.length = 8 := by decide
    have e3 : "\r\nContent-Type: image/jpeg\r\nContent-Length: ".toList.length = 44 := by decide
    have e4 : "\r\nX-Timestamp: ".toList.length = 15 := by decide
    have e5 : ".".toList.length = 1 := by decide
    have e6 : "\r\n\r\n".toList.length = 4 := by decide
    rw [e1, e2, e3, e4, e5, e6]
    omega
  simp only [formatMultipartHeader, snprintf]
  refine ⟨hlen, by omega, by omega, ?_, ?_⟩
  · rw [List.length_take]
    omega
  · exact List.take_of_length_le (by omega)

theorem default_header_fits_witness :
    (formatMultipartHeader {} exampleFrame 256).2 ≤ 255 :=
  (default_header_fits {} exampleFrame rfl (by decide) (by decide) (by decide) (by decide)
    (by decide)).2.1

/-! ## A failed write in the worker -/

/-- C26. In a worker iteration that dequeues a chunk and in which a write fails (the header
step, or the payload write after a successful header step), the consecutive send-failure
counter grows by exactly one (as a `uint32_t`), the sender's handler receives `onSendError`
exactly once, with the transport's last error as left by the failing write, and the chunk's
frame is released exactly once. When the header write fails the payload write is not
attempted: the outcome does not depend on what that write would return. -/
theorem taskBody_failed_write (s : Streamer) (now : Nat) (c : FrameChunk)
    (rest : List FrameChunk) (f : Frame) (resultH resultP : Int)
    (hq : s.taskSender.queue = some (c :: rest))
    (hrun : s.taskSender.isRunning = true)
    (hhandler : s.taskSender.eventsHandler = true)
    (hfb : c.fb = some f)
    (hfail : (headerStep s.transport c resultH).1 = false ∨
      ((headerStep s.transport c resultH).2.send f.buf f.len resultP).1 = false) :
    ∃ s', s.taskBody now resultH resultP = some s' ∧
      s'.taskSender.sendFailureCount = (s.taskSender.sendFailureCount + 1) % 2 ^ 32 ∧
      countSendErrors s'.events = countSendErrors s.events + 1 ∧
      s'.events = s.events ++
        Event.onSendError (transportAfterFailure s.transport c f resultH resultP).getLastError ::
          (if s.eventsHandler then
             [Event.onError (transportAfterFailure s.transport c f resultH resultP).getLastError]
           else []) ∧
      s'.released = s.released ++ [f.id] ∧
      s'.taskSender.bytesSent = s.taskSender.bytesSent ∧
      s'.taskSender.framesSent = s.taskSender.framesSent ∧
      ((headerStep s.transport c resultH).1 = false →
        ∀ r : Int, s.taskBody now resultH r = s.taskBody now resultH resultP) := by
  by_cases h0 : c.headerLen > 0
  · cases hA : (s.transport.send (c.header.map Char.toNat) c.headerLen resultH).1 with
    | false =>
        cases hev : s.eventsHandler <;>
        simp [Streamer.taskBody, hq, hrun, hfb, h0, Streamer.workerSend, hA, headerStep,
          transportAfterFailure, return_frame, esp_camera_fb_return, u32,
          Streamer._notifySendError, hhandler, Streamer.onSendError, Streamer._handleSendError,
          Streamer._notifyError, Streamer.notify, HttpStreamTransport.getLastError,
          countSendErrors, hev, List.filter_cons, Event.isSendError]
    | true =>
        have hB : ((s.transport.send (c.header.map Char.toNat) c.headerLen resultH).2.send
            f.buf f.len resultP).1 = false := by
          simpa [headerStep, h0, hA] using hfail
        cases hev : s.eventsHandler <;>
        simp [Streamer.taskBody, hq, hrun, hfb, h0, Streamer.workerSend, hA, hB, headerStep,
          transportAfterFailure, return_frame, esp_camera_fb_return, u32,
          Streamer._notifySendError, hhandler, Streamer.onSendError, Streamer._handleSendError,
          Streamer._notifyError, Streamer.notify, HttpStreamTransport.getLastError,
          countSendErrors, hev, List.filter_cons, Event.isSendError]
  · have hB : (s.transport.send f.buf f.len resultP).1 = false := by
      simpa [headerStep, h0] using hfail
    cases hev : s.eventsHandler <;>
    simp [Streamer.taskBody, hq, hrun, hfb, h0, Streamer.workerSend, hB, headerStep,
      transportAfterFailure, return_frame, esp_camera_fb_return, u32,
      Streamer._notifySendError, hhandler, Streamer.onSendError, Streamer._handleSendError,
      Streamer._notifyError, Streamer.notify, HttpStreamTransport.getLastError,
      countSendErrors, hev, List.filter_cons, Event.isSendError]

theorem taskBody_failed_write_witness :
    ∃ s', oneQueued.taskBody 200 5 10 = some s' ∧
      s'.taskSender.sendFailureCount = 1 ∧
      countSendErrors s'.events = 1 ∧
      s'.released = [1] ∧
      oneQueued.taskBody 200 5 77 = oneQueued.taskBody 200 5 10 := by
  obtain ⟨s', h1, h2, h3, _, h5, _, _, h8⟩ :=
    taskBody_failed_write oneQueued 200 firstChunk [] (frameOf 1 10) 5 10
      (by decide) (by decide) (by decide) (by decide) (by decide)
  exact ⟨s', h1, h2.trans (by decide), h3.trans (by decide), h5.trans (by decide),
    h8 (by decide) 77⟩

/-! ## Frame cadence -/

theorem attemptReconnect_timing (s : Streamer) (now : Nat) (env : ConnectEnv) :
    (s._attemptReconnect now env).lastFrameTime = s.lastFrameTime ∧
    (s._attemptReconnect now env).frameDelayMs = s.frameDelayMs := by
  unfold Streamer._attemptReconnect Streamer._handleStreamError Streamer._notifyConnected
    Streamer._notifyError Streamer.notify
  dsimp only
  repeat' split
  all_goals simp

theorem loop_frame_time (s : Streamer) (now : Nat) (frame : Option Frame) (env : ConnectEnv) :
    ((s.loop now frame env).taskSender.queue = s.taskSender.queue ∧
      (s.loop now frame env).lastFrameTime = s.lastFrameTime ∧
      (s.loop now frame env).frameDelayMs = s.frameDelayMs) ∨
    ((s.loop now frame env).taskSender.queue ≠ s.taskSender.queue ∧
      (s.loop now frame env).lastFrameTime = now ∧
      s.frameDelayMs ≤ sub32 now s.lastFrameTime ∧
      (s.loop now frame env).frameDelayMs = s.frameDelayMs) := by
  unfold Streamer.loop
  dsimp only
  split
  · left; simp
  · rename_i hthr
    split
    · left
      split
      · obtain ⟨k1, _, _⟩ := attemptReconnect_keeps (s._updateLED now) now env
        obtain ⟨t1, t2⟩ := attemptReconnect_timing (s._updateLED now) now env
        split <;> simp [k1, t1, t2]
      · simp
    · split
      · left; simp [Streamer._notifyDisconnected, Streamer.notify, apply_ite]
      · cases frame with
        | none => left; simp
        | some f =>
            dsimp only
            split
            · left; simp [return_frame, esp_camera_fb_return]
            · cases hacc : ((s._updateLED now).sendFrame (some f)
                  (formatMultipartHeader (s._updateLED now).config f 256).1
                  (formatMultipartHeader (s._updateLED now).config f 256).2 now).1 with
              | false =>
                  left
                  obtain ⟨e1, _, _⟩ := sendFrame_rejected _ _ _ _ _ hacc
                  simp only [hacc, Bool.false_eq_true, if_false]
                  simp only [updateMetrics_taskSender, updateMetrics_lastFrameTime,
                    updateMetrics_frameDelayMs, return_frame, esp_camera_fb_return, e1]
                  have hk : ∀ (x : Streamer) (fb : Option Frame) (h : List Char) (n t : Nat),
                      (x.sendFrame fb h n t).2.lastFrameTime = x.lastFrameTime ∧
                      (x.sendFrame fb h n t).2.frameDelayMs = x.frameDelayMs := by
                    intro x fb h n t
                    unfold Streamer.sendFrame
                    repeat' split
                    all_goals exact ⟨rfl, rfl⟩
                  simp [hk]
              | true =>
                  right
                  obtain ⟨f', q, hf, hq, _, _, _, hs1⟩ := sendFrame_accepted _ _ _ _ _ hacc
                  simp only [hacc, if_true]
                  simp only [updateMetrics_taskSender, updateMetrics_lastFrameTime,
                    updateMetrics_frameDelayMs, Streamer._notifyFrameSent, Streamer.notify]
                  rw [hs1]
                  have hq' : s.taskSender.queue = some q := by simpa using hq
                  have hfd : (s._updateLED now).frameDelayMs = s.frameDelayMs := by simp
                  have hlf : (s._updateLED now).lastFrameTime = s.lastFrameTime := by simp
                  rw [hfd, hlf] at hthr
                  refine ⟨?_, ?_, by omega, ?_⟩
                  · split <;> simp [hq']
                  · trivial
                  · split <;> simp

/-! ## Properties kept by the worker -/

theorem processChunk_preserves (P : Streamer → Prop)
    (hw : ∀ (x : Streamer) (now : Nat) (data : List Nat) (len : Nat) (r : Int),
      P x → P (x.workerSend now data len r).2)
    (hts : ∀ (x : Streamer) (ts : TaskSender), P x → P { x with taskSender := ts })
    (hrel : ∀ (x : Streamer) (f : Frame), P x → P (esp_camera_fb_return x f))
    (s0 : Streamer) (now : Nat) (c : FrameChunk) (resultH resultP : Int) (s' : Streamer)
    (hp : P s0) (h : s0.processChunk now c resultH resultP = some s') : P s' := by
  unfold Streamer.processChunk at h
  have ha : ∀ a : Bool × Streamer,
      a = (if c.headerLen > 0 then
             s0.workerSend now (c.header.map Char.toNat) c.headerLen resultH
           else (true, s0)) → P a.2 := by
    intro a hdef
    by_cases h0 : c.headerLen > 0
    · rw [if_pos h0] at hdef
      rw [hdef]
      exact hw s0 now _ _ _ hp
    · rw [if_neg h0] at hdef
      rw [hdef]
      exact hp
  generalize (if c.headerLen > 0 then
             s0.workerSend now (c.header.map Char.toNat) c.headerLen resultH
           else (true, s0)) = a at ha h
  have pa := ha a rfl
  dsimp only at h
  cases hfb : c.fb with
  | none =>
      rw [hfb] at h
      cases ha1 : a.1 with
      | true => simp [ha1] at h
      | false =>
          simp only [ha1, return_frame] at h
          have : a.2 = s' := Option.some.inj h
          rw [← this]
          exact pa
  | some f =>
      rw [hfb] at h
      cases ha1 : a.1 with
      | false =>
          simp only [ha1, return_frame] at h
          have : esp_camera_fb_return a.2 f = s' := Option.some.inj h
          rw [← this]
          exact hrel _ _ pa
      | true =>
          have pb := hw a.2 now f.buf f.len resultP pa
          cases hb1 : (a.2.workerSend now f.buf f.len resultP).1 with
          | false =>
              simp only [ha1, hb1, return_frame] at h
              have := Option.some.inj h
              rw [← this]
              exact hrel _ _ pb
          | true =>
              simp only [ha1, hb1] at h
              have := Option.some.inj h
              rw [← this]
              exact hrel _ _ (hts _ _ pb)

theorem taskFunction_preserves (P : Streamer → Prop)
    (hw : ∀ (x : Streamer) (now : Nat) (data : List Nat) (len : Nat) (r : Int),
      P x → P (x.workerSend now data len r).2)
    (hts : ∀ (x : Streamer) (ts : TaskSender), P x → P { x with taskSender := ts })
    (hrel : ∀ (x : Streamer) (f : Frame), P x → P (esp_camera_fb_return x f))
    (s : Streamer) (now : Nat) (resultH resultP : Int) (s' : Streamer)
    (hp : P s) (h : s.taskFunction now resultH resultP = some s') : P s' := by
  unfold Streamer.taskFunction at h
  cases hrun : s.taskSender.isRunning with
  | false =>
      simp only [hrun, Bool.false_eq_true, if_false] at h
      have := Option.some.inj h
      rw [← this]
      exact hts _ _ hp
  | true =>
      simp only [hrun, if_true] at h
      cases hq : s.taskSender.queue with
      | none => simp [Streamer.taskBody, hq] at h
      | some q =>
          cases q with
          | nil =>
              simp only [Streamer.taskBody, hq] at h
              have := Option.some.inj h
              rw [← this]
              exact hp
          | cons c rest =>
              rw [taskBody_cons s now c rest resultH resultP hq hrun] at h
              exact processChunk_preserves P hw hts hrel _ now c resultH resultP s'
                (hts _ _ hp) h

theorem workerSend_timing (s : Streamer) (now : Nat) (data : List Nat) (len : Nat)
    (result : Int) :
    (s.workerSend now data len result).2.lastFrameTime = s.lastFrameTime ∧
    (s.workerSend now data len result).2.frameDelayMs = s.frameDelayMs := by
  unfold Streamer.workerSend
  cases hok : (s.transport.send data len result).1 with
  | true => simp [hok]
  | false =>
      cases hh : s.taskSender.eventsHandler <;> cases he : s.eventsHandler <;>
        simp [Streamer._notifySendError, Streamer.onSendError,
          Streamer._handleSendError, Streamer._notifyError, Streamer.notify, hh, he, hok]

theorem onSendError_timing (s : Streamer) (now : Nat) (message : List Char) :
    (s.onSendError now message).lastFrameTime = s.lastFrameTime ∧
    (s.onSendError now message).frameDelayMs = s.frameDelayMs := by
  cases he : s.eventsHandler <;>
  simp [Streamer.onSendError, Streamer._handleSendError, Streamer._notifyError, Streamer.notify, he]

theorem taskFunction_timing (s : Streamer) (now : Nat) (resultH resultP : Int) (s' : Streamer)
    (h : s.taskFunction now resultH resultP = some s') :
    s'.lastFrameTime = s.lastFrameTime ∧ s'.frameDelayMs = s.frameDelayMs := by
  refine taskFunction_preserves
    (fun x => x.lastFrameTime = s.lastFrameTime ∧ x.frameDelayMs = s.frameDelayMs)
    ?_ ?_ ?_ s now resultH resultP s' ⟨rfl, rfl⟩ h
  · intro x n data len r hx
    obtain ⟨a, b⟩ := workerSend_timing x n data len r
    exact ⟨a.trans hx.1, b.trans hx.2⟩
  · intro x ts hx; exact hx
  · intro x f hx; exact hx

theorem enqueueTimes_spaced (fd : Nat) (steps : List SystemStep) :
    ∀ s : Streamer, s.frameDelayMs = fd →
      List.Chain (fun a b => fd ≤ sub32 b a) s.lastFrameTime (enqueueTimes s steps) := by
  induction steps with
  | nil => intro s _; exact List.Chain.nil
  | cons st r ih =>
      intro s hfd
      cases st with
      | tick now frame env =>
          simp only [enqueueTimes, SystemStep.apply]
          rcases loop_frame_time s now frame env with ⟨hq, hl, hd⟩ | ⟨hq, hl, hle, hd⟩
          · rw [if_neg (by simpa using hq)]
            have := ih (s.loop now frame env) (hd.trans hfd)
            rw [hl] at this
            simpa using this
          · rw [if_pos hq]
            have := ih (s.loop now frame env) (hd.trans hfd)
            rw [hl] at this
            exact List.Chain.cons (by rw [← hfd]; exact hle) this
      | setup now env =>
          simp only [enqueueTimes, SystemStep.apply]
          obtain ⟨hl, hd⟩ := attemptReconnect_timing { s with state := State.IDLE } now env
          have := ih (s.setup now env) (hd.trans hfd)
          rw [show (s.setup now env).lastFrameTime = s.lastFrameTime from hl] at this
          simpa using this
      | sendError now message =>
          simp only [enqueueTimes, SystemStep.apply]
          obtain ⟨hl, hd⟩ := onSendError_timing s now message
          have := ih (s.onSendError now message) (hd.trans hfd)
          rw [hl] at this
          simpa using this
      | work now resultH resultP =>
          simp only [enqueueTimes, SystemStep.apply]
          cases h : s.taskFunction now resultH resultP with
          | none => exact List.Chain.nil
          | some s1 =>
              obtain ⟨hl, hd⟩ := taskFunction_timing s now resultH resultP s1 h
              have := ih s1 (hd.trans hfd)
              rw [hl] at this
              simpa using this

/-- C21. The constructor sets `frameDelayMs` to `1000 / maxFPS` (integer division), and to 0
when `maxFPS` is 0, where nothing is divided. A tick at `now` with `frameDelayMs > 0` and
`(now - lastFrameTime) mod 2^32 < frameDelayMs` is the LED update alone, whatever frame the
camera would have delivered: no frame is taken, none is released, and the sender with its
queue is unchanged. Hence in every run of steps the times of the ticks that queued a frame,
starting from `lastFrameTime`, are pairwise consecutive at least `frameDelayMs` apart
(unsigned 32-bit difference). -/
theorem frame_cadence_throttle (cfg : StreamConfig) (startEnv : Streamer.StartEnv)
    (s : Streamer) (now : Nat) (steps : List SystemStep)
    (hpos : s.frameDelayMs > 0) (hearly : sub32 now s.lastFrameTime < s.frameDelayMs) :
    (Streamer.create cfg startEnv).frameDelayMs
      = (if cfg.maxFPS = 0 then 0 else 1000 / cfg.maxFPS) ∧
    (∀ (frame : Option Frame) (env : ConnectEnv),
      s.loop now frame env = s._updateLED now ∧
      (s.loop now frame env).taskSender = s.taskSender ∧
      (s.loop now frame env).released = s.released ∧
      enqueueTimes s [SystemStep.tick now frame env] = []) ∧
    List.Chain (fun a b => s.frameDelayMs ≤ sub32 b a) s.lastFrameTime
      (enqueueTimes s steps) := by
  refine ⟨?_, ?_, enqueueTimes_spaced s.frameDelayMs steps s rfl⟩
  · unfold Streamer.create Streamer.start
    dsimp only
    by_cases h0 : cfg.maxFPS = 0
    · repeat' split
      all_goals simp [h0]
    · have hp : cfg.maxFPS > 0 := Nat.pos_of_ne_zero h0
      repeat' split
      all_goals simp [h0, hp]
  · intro frame env
    have hl : s.loop now frame env = s._updateLED now := by
      unfold Streamer.loop
      dsimp only
      rw [if_pos]
      simpa using ⟨hpos, hearly⟩
    refine ⟨hl, ?_, ?_, ?_⟩
    · rw [hl]; simp
    · rw [hl]; simp
    · simp [enqueueTimes, SystemStep.apply, hl]

set_option maxRecDepth 100000 in
theorem frame_cadence_throttle_witness :
    (oneQueued.frameDelayMs = 33 ∧ oneQueued.lastFrameTime = 100 ∧
      enqueueTimes oneQueued cadenceDemo = [140, 200]) ∧
    ((Streamer.create {} startOk).frameDelayMs
      = (if ({} : StreamConfig).maxFPS = 0 then 0 else 1000 / ({} : StreamConfig).maxFPS) ∧
    (∀ (frame : Option Frame) (env : ConnectEnv),
      oneQueued.loop 120 frame env = oneQueued._updateLED 120 ∧
      (oneQueued.loop 120 frame env).taskSender = oneQueued.taskSender ∧
      (oneQueued.loop 120 frame env).released = oneQueued.released ∧
      enqueueTimes oneQueued [SystemStep.tick 120 frame env] = []) ∧
    List.Chain (fun a b => oneQueued.frameDelayMs ≤ sub32 b a) oneQueued.lastFrameTime
      (enqueueTimes oneQueued cadenceDemo)) :=
  ⟨by decide, frame_cadence_throttle {} startOk oneQueued 120 cadenceDemo (by decide) (by decide)⟩

/-! ## The state of the controller and the state of its transport -/

theorem transportInv_of_eq (s s' : Streamer) (h1 : s'.state = s.state)
    (h2 : s'.transport = s.transport) (h : TransportInv s) : TransportInv s' := by
  unfold TransportInv at h ⊢
  rw [h1, h2]
  exact h

theorem connect_ok_connected (t : HttpStreamTransport) (env : ConnectEnv)
    (hok : (t.connect env).1 = true) : (t.connect env).2.isConnected = true := by
  unfold HttpStreamTransport.connect HttpClient.startMultipartStream at hok ⊢
  cases hi : env.init with
  | none => simp [hi] at hok
  | some c =>
      by_cases h : env.openErr = 0
      · simp [h, HttpStreamTransport.isConnected]
      · simp [hi, h] at hok

theorem attemptReconnect_transportInv (s : Streamer) (now : Nat) (env : ConnectEnv)
    (hst : s.state ≠ State.CONNECTING) : TransportInv (s._attemptReconnect now env) := by
  cases hok : (s.transport.connect env).1 with
  | true =>
      have hc := connect_ok_connected s.transport env hok
      have h1 := (attemptReconnect_succeeds s now env hst hok).1
      have h2 : (s._attemptReconnect now env).transport = (s.transport.connect env).2 := by
        cases he : s.eventsHandler <;>
        simp [Streamer._attemptReconnect, hst, hok, Streamer._notifyConnected,
          Streamer.notify, he]
      unfold TransportInv
      rw [h1, h2, hc]
      simp
  | false =>
      have h1 := attemptReconnect_state_error s now env hst hok
      have hno' : ((({ s with state := State.CONNECTING })._updateLED now).transport.connect
          env).1 = false := by simpa using hok
      have h2 : (s._attemptReconnect now env).transport.isConnected = false ∧
          (s._attemptReconnect now env).transport.getHttpClient = none := by
        unfold Streamer._attemptReconnect
        simp only [hst, if_false, hno', Bool.false_eq_true]
        unfold Streamer._handleStreamError Streamer._notifyError Streamer.notify
        dsimp only
        repeat' split
        all_goals simp [HttpStreamTransport.disconnect, HttpClient.stopMultipartStream,
          HttpStreamTransport.isConnected, HttpStreamTransport.getHttpClient]
      unfold TransportInv
      rw [h1, h2.1, h2.2]
      simp

theorem setup_transportInv (s : Streamer) (now : Nat) (env : ConnectEnv) :
    TransportInv (s.setup now env) :=
  attemptReconnect_transportInv { s with state := State.IDLE } now env (by simp)

theorem onSendError_transportInv (s : Streamer) (now : Nat) (message : List Char) :
    TransportInv (s.onSendError now message) := by
  obtain ⟨h1, h2, _⟩ := onSendError_fields s now message
  unfold TransportInv
  rw [h1, h2]
  simp [HttpStreamTransport.disconnect, HttpClient.stopMultipartStream,
    HttpStreamTransport.isConnected, HttpStreamTransport.getHttpClient]

theorem send_keeps_disconnected (t : HttpStreamTransport) (data : List Nat) (len : Nat)
    (result : Int) :
    ((t.isConnected = false → t.getHttpClient = none) →
      ((t.send data len result).2.isConnected = false →
        (t.send data len result).2.getHttpClient = none)) ∧
    (t.isConnected = false → (t.send data len result).2.isConnected = false) := by
  unfold HttpStreamTransport.send
  simp only [HttpStreamTransport.isConnected, HttpStreamTransport.getHttpClient]
  cases hc : t.httpClient.isConnected with
  | false => simp [hc]
  | true =>
      cases hh : t.httpClient.client with
      | none => simp [hc, hh]
      | some c =>
          by_cases hr : result = toInt32 len
          · simp [hc, hr]
          · simp [hc, hr, HttpClient.stopMultipartStream]

theorem workerSend_transportInv (s : Streamer) (now : Nat) (data : List Nat) (len : Nat)
    (result : Int) (h : TransportInv s) :
    TransportInv (s.workerSend now data len result).2 := by
  obtain ⟨k1, k2⟩ := send_keeps_disconnected s.transport data len result
  unfold Streamer.workerSend
  dsimp only
  cases hok : (s.transport.send data len result).1 with
  | true =>
      simp only [if_true]
      exact ⟨h.1, k1 h.2.1, fun hs => k2 (h.2.2 hs)⟩
  | false =>
      simp only [Bool.false_eq_true, if_false]
      unfold Streamer._notifySendError
      dsimp only
      split
      · exact onSendError_transportInv _ _ _
      · exact ⟨h.1, k1 h.2.1, fun hs => k2 (h.2.2 hs)⟩

theorem taskFunction_transportInv (s : Streamer) (now : Nat) (resultH resultP : Int)
    (s' : Streamer) (hp : TransportInv s) (h : s.taskFunction now resultH resultP = some s') :
    TransportInv s' :=
  taskFunction_preserves TransportInv
    (fun x n data len r hx => workerSend_transportInv x n data len r hx)
    (fun _ _ hx => hx) (fun _ _ hx => hx) s now resultH resultP s' hp h

theorem sendFrame_state_transport (x : Streamer) (fb : Option Frame) (h : List Char)
    (n t : Nat) :
    (x.sendFrame fb h n t).2.state = x.state ∧
    (x.sendFrame fb h n t).2.transport = x.transport := by
  unfold Streamer.sendFrame
  repeat' split
  all_goals exact ⟨rfl, rfl⟩

theorem updateMetrics_transportInv (s : Streamer) (now : Nat) (h : TransportInv s) :
    TransportInv (s._updateMetrics now) :=
  transportInv_of_eq s _ (by simp) (by simp) h

theorem loop_transportInv (s : Streamer) (now : Nat) (frame : Option Frame) (env : ConnectEnv)
    (h : TransportInv s) : TransportInv (s.loop now frame env) := by
  have h1 : TransportInv (s._updateLED now) := transportInv_of_eq s _ (by simp) (by simp) h
  unfold Streamer.loop
  dsimp only
  split
  · exact h1
  · split
    · split
      · have ha := attemptReconnect_transportInv (s._updateLED now) now env h1.1
        split
        · exact ha
        · exact transportInv_of_eq _ _ rfl rfl ha
      · exact h1
    · split
      · rename_i hnc
        have hnc' : s.transport.isConnected = false := by simpa using hnc
        refine ⟨?_, ?_, ?_⟩
        · simp [Streamer._notifyDisconnected, Streamer.notify, apply_ite]
        · have := h.2.1
          simpa [Streamer._notifyDisconnected, Streamer.notify, apply_ite] using this
        · intro _
          simpa [Streamer._notifyDisconnected, Streamer.notify, apply_ite] using hnc'
      · cases frame with
        | none => exact updateMetrics_transportInv _ _ h1
        | some f =>
            dsimp only
            split
            · exact transportInv_of_eq _ _ rfl rfl h1
            · obtain ⟨e1, e2⟩ := sendFrame_state_transport (s._updateLED now) (some f)
                (formatMultipartHeader (s._updateLED now).config f 256).1
                (formatMultipartHeader (s._updateLED now).config f 256).2 now
              have hr := transportInv_of_eq _ _ e1 e2 h1
              split
              · apply updateMetrics_transportInv
                refine transportInv_of_eq _ _ ?_ ?_ hr
                · simp only [Streamer._notifyFrameSent, Streamer.notify]
                  split <;> rfl
                · simp only [Streamer._notifyFrameSent, Streamer.notify]
                  split <;> rfl
              · apply updateMetrics_transportInv
                exact transportInv_of_eq _ _ rfl rfl hr

theorem create_transportInv (cfg : StreamConfig) (env : Streamer.StartEnv) :
    TransportInv (Streamer.create cfg env) ∧ (Streamer.create cfg env).state = State.IDLE := by
  unfold Streamer.create Streamer.start TransportInv
  dsimp only
  repeat' split
  all_goals simp [HttpStreamTransport.isConnected, HttpStreamTransport.getHttpClient]

theorem runSystem_transportInv (steps : List SystemStep) :
    ∀ s s' : Streamer, TransportInv s → runSystem s steps = some s' → TransportInv s' := by
  induction steps with
  | nil =>
      intro s s' h hr
      have : s = s' := Option.some.inj hr
      rw [← this]
      exact h
  | cons st r ih =>
      intro s s' h hr
      cases st with
      | setup now env =>
          simp only [runSystem, SystemStep.apply] at hr
          exact ih _ s' (setup_transportInv s now env) hr
      | tick now frame env =>
          simp only [runSystem, SystemStep.apply] at hr
          exact ih _ s' (loop_transportInv s now frame env h) hr
      | sendError now message =>
          simp only [runSystem, SystemStep.apply] at hr
          exact ih _ s' (onSendError_transportInv s now message) hr
      | work now resultH resultP =>
          simp only [runSystem, SystemStep.apply] at hr
          cases hw : s.taskFunction now resultH resultP with
          | none => simp [hw] at hr
          | some s1 =>
              simp only [hw] at hr
              exact ih s1 s' (taskFunction_transportInv s now resultH resultP s1 h hw) hr

theorem connectTarget_disconnected (s : Streamer) (st : SystemStep) (t : HttpStreamTransport)
    (h : TransportInv s) (ht : st.connectTarget s = some t)
    (hsetup : (∃ now env, st = SystemStep.setup now env) → s.state ≠ State.STREAMING) :
    t.Disconnected := by
  have hidle : (s.state = State.IDLE ∨ s.state = State.ERROR) → s.transport.Disconnected :=
    fun hs => ⟨h.2.2 hs, h.2.1 (h.2.2 hs)⟩
  cases st with
  | setup now env =>
      have hns := hsetup ⟨now, env, rfl⟩
      simp only [SystemStep.connectTarget, Streamer.connectTarget] at ht
      rw [if_neg (by simp)] at ht
      have : t = s.transport := by
        have := Option.some.inj ht
        rw [← this]
        simp
      rw [this]
      apply hidle
      have hnc := h.1
      cases hs : s.state <;> simp_all
  | tick now frame env =>
      simp only [SystemStep.connectTarget, Streamer.connectTarget] at ht
      split at ht
      · exact absurd ht (by simp)
      · split at ht
        · rename_i hie
          split at ht
          · split at ht
            · exact absurd ht (by simp)
            · have : t = s.transport := by
                have := Option.some.inj ht
                rw [← this]
                simp
              rw [this]
              apply hidle
              simpa using hie
          · exact absurd ht (by simp)
        · exact absurd ht (by simp)
  | sendError now message => simp [SystemStep.connectTarget] at ht
  | work now resultH resultP => simp [SystemStep.connectTarget] at ht

/-- C28. With `setup()`, `loop()`, `onSendError()` (and the worker's turns) as atomic steps,
every state reached from the constructor is outside `CONNECTING`, and if it is `IDLE` or
`ERROR` its transport is disconnected: the connected flag is clear and there is no handle.
Consequently a step taken in a reachable state calls `connect` on a disconnected transport:
always when the step is a tick, and for `setup()` whenever the state is not `STREAMING`; in
particular every `connect` of a run in which no step after the first is a `setup()`. -/
theorem idle_or_error_means_disconnected (cfg : StreamConfig) (startEnv : Streamer.StartEnv)
    (steps : List SystemStep) (s' : Streamer)
    (hrun : runSystem (Streamer.create cfg startEnv) steps = some s') :
    s'.state ≠ State.CONNECTING ∧
    ((s'.state = State.IDLE ∨ s'.state = State.ERROR) → s'.transport.Disconnected) ∧
    (∀ (st : SystemStep) (t : HttpStreamTransport), st.connectTarget s' = some t →
      ((∃ now env, st = SystemStep.setup now env) → s'.state ≠ State.STREAMING) →
      t.Disconnected) ∧
    (∀ (st : SystemStep) (t : HttpStreamTransport), setupOnlyFirst (steps ++ [st]) = true →
      st.connectTarget s' = some t → t.Disconnected) := by
  have hc := create_transportInv cfg startEnv
  have hinv := runSystem_transportInv steps _ s' hc.1 hrun
  refine ⟨hinv.1, fun hs => ⟨hinv.2.2 hs, hinv.2.1 (hinv.2.2 hs)⟩,
    fun st t ht hs => connectTarget_disconnected s' st t hinv ht hs, ?_⟩
  intro st t hfirst ht
  apply connectTarget_disconnected s' st t hinv ht
  rintro ⟨now, env, rfl⟩
  cases steps with
  | nil =>
      have : Streamer.create cfg startEnv = s' := Option.some.inj hrun
      rw [← this, hc.2]
      simp
  | cons a r =>
      simp [setupOnlyFirst] at hfirst

set_option maxRecDepth 100000 in
theorem idle_or_error_means_disconnected_witness :
    (runSystem (Streamer.create {} startOk) lifecycleDemo
        = some (oneQueued.onSendError 150 "Write incomplete".toList) ∧
      (oneQueued.onSendError 150 "Write incomplete".toList).state = State.ERROR ∧
      (SystemStep.tick 6000 none connectOk).connectTarget
          (oneQueued.onSendError 150 "Write incomplete".toList)
        = some (oneQueued.onSendError 150 "Write incomplete".toList).transport ∧
      setupOnlyFirst (lifecycleDemo ++ [SystemStep.tick 6000 none connectOk]) = true) ∧
    ((oneQueued.onSendError 150 "Write incomplete".toList).state ≠ State.CONNECTING ∧
    (((oneQueued.onSendError 150 "Write incomplete".toList).state = State.IDLE ∨
        (oneQueued.onSendError 150 "Write incomplete".toList).state = State.ERROR) →
      (oneQueued.onSendError 150 "Write incomplete".toList).transport.Disconnected) ∧
    (∀ (st : SystemStep) (t : HttpStreamTransport),
      st.connectTarget (oneQueued.onSendError 150 "Write incomplete".toList) = some t →
      ((∃ now env, st = SystemStep.setup now env) →
        (oneQueued.onSendError 150 "Write incomplete".toList).state ≠ State.STREAMING) →
      t.Disconnected) ∧
    (∀ (st : SystemStep) (t : HttpStreamTransport),
      setupOnlyFirst (lifecycleDemo ++ [st]) = true →
      st.connectTarget (oneQueued.onSendError 150 "Write incomplete".toList) = some t →
      t.Disconnected)) :=
  ⟨by decide,
   idle_or_error_means_disconnected {} startOk lifecycleDemo
     (oneQueued.onSendError 150 "Write incomplete".toList) (by decide)⟩

end Wheelbot
